import Mathlib

/-!
# sc4-city-lottery-ordinance: ordinance income and persistence

A shallow embedding of the ordinance classes of the plugin
(`OrdinancePropertyHolder`, `OrdinanceBase`, `CityLotteryOrdinance`) and
theorems about their income formulas, their binary persistence and their
life cycle, and about the range check of `Settings`.

Conventions of the embedding:

* `uint32_t`, `int32_t`, `int64_t` fields are `Nat` / `Int`; a cast that can
  lose information is written out (`% 2 ^ 32`, `Fp.toInt64`).
* `float` fields are kept as their 32-bit pattern (`F32`), so that every value
  the program can hold, NaN and the infinities included, is covered.
  `double` temporaries are `Fp` values produced by correctly rounded
  binary64 operations (round to nearest, ties to even).
* A C++ operation whose behaviour is undefined returns `none`.
* Calls to the logger only append to the log file and are left out; the
  plugin only ever enables `LogOptions::Errors`, so the `OrdinanceAPI` and
  `OrdinancePropertyAPI` lines of the modelled methods return at once.
* A loop of the source that can fail to end takes a fuel argument and
  returns `none` when the fuel runs out.
* A function that can throw returns the exception, if any, together with
  the object as the exception leaves it.
* `Write` and `Read` return the flag of the source together with the object
  and the stream as the call leaves them.
-/

set_option autoImplicit false
set_option maxRecDepth 8192

namespace Lottery

/-! ## IEEE-754 arithmetic -/

/-- Value of an IEEE-754 datum: not-a-number, an infinity, or the finite
number `m * 2 ^ e`.  The sign of a zero is not tracked: no operation used by
the ordinance code observes it. -/
inductive Fp where
  | nan : Fp
  | inf (neg : Bool) : Fp
  | fin (m : Int) (e : Int) : Fp
deriving DecidableEq, Repr

/-- Halving loop behind `bitLength`; `fuel` bounds the number of steps. -/
def bitLengthAux : Nat → Nat → Nat
  | 0, _ => 0
  | fuel + 1, n => if n = 0 then 0 else bitLengthAux fuel (n / 2) + 1

/-- Number of binary digits of a natural number (`0` for `0`). -/
def bitLength (n : Nat) : Nat := bitLengthAux n n

/-- The integer `m * 2 ^ k`. -/
def shl (m : Int) (k : Nat) : Int := m * ((2 ^ k : Nat) : Int)

/-- The quotient `n / 2 ^ k` rounded to the nearest integer, ties going to
the even one. -/
def roundShift (n k : Nat) : Nat :=
  let q0 := n / 2 ^ k
  let r := n % 2 ^ k
  let half := 2 ^ (k - 1)
  if r < half then q0
  else if half < r then q0 + 1
  else if q0 % 2 = 0 then q0 else q0 + 1

/-- The significand of `n * 2 ^ e` in units of `2 ^ lsb`: exact when the
unit is not above `2 ^ e`, rounded otherwise. -/
def roundSig (n : Nat) (e lsb : Int) : Nat :=
  if lsb ≤ e then n * 2 ^ (e - lsb).toNat else roundShift n (lsb - e).toNat

/-- Rounds the exact number `m * 2 ^ e` to the nearest number of a binary
format with `prec` significand bits, least exponent `emin` for the unit in
the last place and overflow threshold `2 ^ emax`; ties go to the even
significand, magnitudes that round to `2 ^ emax` or more become an
infinity, and a zero result is written `0 * 2 ^ 0`. -/
def Fp.round (prec : Nat) (emin emax : Int) (m e : Int) : Fp :=
  let n := m.natAbs
  let lsb := max (e + (bitLength n : Int) - (prec : Int)) emin
  let q : Nat := roundSig n e lsb
  if q = 0 then Fp.fin 0 0
  else if emax < lsb + (bitLength q : Int) then Fp.inf (decide (m < 0))
  else Fp.fin (if m < 0 then -(q : Int) else (q : Int)) lsb

/-- Rounding to binary64 (`double`). -/
def Fp.round64 (m e : Int) : Fp := Fp.round 53 (-1074) 1024 m e

/-- The comparison `m1 * 2 ^ e1 < m2 * 2 ^ e2` of two finite numbers. -/
def Fp.finLt (m1 e1 m2 e2 : Int) : Bool :=
  let e := min e1 e2
  decide (shl m1 (e1 - e).toNat < shl m2 (e2 - e).toNat)

/-- The C++ comparison `a < b` on floating-point values (false as soon as
one side is NaN). -/
def Fp.lt : Fp → Fp → Bool
  | Fp.fin m1 e1, Fp.fin m2 e2 => Fp.finLt m1 e1 m2 e2
  | Fp.fin _ _, Fp.inf neg => !neg
  | Fp.inf neg, Fp.fin _ _ => neg
  | Fp.inf n1, Fp.inf n2 => n1 && !n2
  | Fp.nan, _ => false
  | _, Fp.nan => false

/-- The C++ comparison `a > b`. -/
def Fp.gt (a b : Fp) : Bool := Fp.lt b a

/-- The `double` product `a * b`. -/
def Fp.mul64 : Fp → Fp → Fp
  | Fp.fin m1 e1, Fp.fin m2 e2 => Fp.round64 (m1 * m2) (e1 + e2)
  | Fp.fin m _, Fp.inf neg => if m = 0 then Fp.nan else Fp.inf (neg != decide (m < 0))
  | Fp.inf neg, Fp.fin m _ => if m = 0 then Fp.nan else Fp.inf (neg != decide (m < 0))
  | Fp.inf n1, Fp.inf n2 => Fp.inf (n1 != n2)
  | Fp.nan, _ => Fp.nan
  | _, Fp.nan => Fp.nan

/-- The `double` sum `a + b`. -/
def Fp.add64 : Fp → Fp → Fp
  | Fp.fin m1 e1, Fp.fin m2 e2 =>
      let e := min e1 e2
      Fp.round64 (shl m1 (e1 - e).toNat + shl m2 (e2 - e).toNat) e
  | Fp.fin _ _, Fp.inf neg => Fp.inf neg
  | Fp.inf neg, Fp.fin _ _ => Fp.inf neg
  | Fp.inf n1, Fp.inf n2 => if n1 = n2 then Fp.inf n1 else Fp.nan
  | Fp.nan, _ => Fp.nan
  | _, Fp.nan => Fp.nan

/-- The conversion `static_cast<double>(c)` of a 64-bit integer. -/
def Fp.ofInt64 (c : Int) : Fp := Fp.round64 c 0

/-- The conversion `static_cast<double>(p)` of a 32-bit integer (exact). -/
def Fp.ofInt32 (p : Int) : Fp := Fp.round64 p 0

/-- Least value of `int64_t`. -/
def INT64_MIN : Int := -(2 ^ 63)

/-- Greatest value of `int64_t`. -/
def INT64_MAX : Int := 2 ^ 63 - 1

/-- The integral part of `m * 2 ^ e` (truncation toward zero). -/
def Fp.truncFin (m e : Int) : Int :=
  if 0 ≤ e then shl m e.toNat else Int.tdiv m ((2 ^ (-e).toNat : Nat) : Int)

/-- The conversion `static_cast<int64_t>(x)` of a `double`: the fractional
part is discarded; the behaviour is undefined (`none`) when the truncated
value is not an `int64_t`, and for NaN and the infinities. -/
def Fp.toInt64 : Fp → Option Int
  | Fp.fin m e =>
      let t := Fp.truncFin m e
      if INT64_MIN ≤ t ∧ t ≤ INT64_MAX then some t else none
  | _ => none

/-- A `float`, held as its 32-bit pattern (taken modulo `2 ^ 32`). -/
structure F32 where
  bits : Nat
deriving DecidableEq, Repr

/-- Value of a `float`: sign bit, 8 exponent bits, 23 fraction bits. -/
def F32.toFp (f : F32) : Fp :=
  let b : Nat := f.bits % 2 ^ 32
  let neg : Bool := decide (b / 2 ^ 31 = 1)
  let ex : Nat := (b / 2 ^ 23) % 256
  let fr : Nat := b % 2 ^ 23
  let sig : Nat := if ex = 0 then fr else 2 ^ 23 + fr
  if ex = 255 then (if fr = 0 then Fp.inf neg else Fp.nan)
  else Fp.fin (if neg then -(sig : Int) else (sig : Int)) ((max ex 1 : Nat) - 150)

/-- The conversion `static_cast<double>(f)` of a `float` (exact). -/
def Fp.ofFloat (f : F32) : Fp := f.toFp

/-- The literal `0.0`. -/
def Fp.zero : Fp := Fp.fin 0 0

/-- The `float` literal `0.0f`. -/
def F32.zero : F32 := ⟨0⟩

/-- The `float` comparison `a > b`. -/
def F32.gt (a b : F32) : Bool := Fp.gt a.toFp b.toFp

/-! ## Host streams

The stream classes belong to the host framework; the ordinance code only
calls their field-level primitives. -/

/-- One field of a stream, as written by one call of a stream primitive. -/
inductive Field where
  | uint32 (v : Nat) : Field
  | sint32 (v : Int) : Field
  | sint64 (v : Int) : Field
  | float32 (v : F32) : Field
  | gzstr (v : String) : Field
  | byte (v : Nat) : Field
  | typeTag (v : Nat) : Field
deriving DecidableEq, Repr

/-- Modelled from the spec: the host output stream `cIGZOStream`, whose
source is not part of the repository.  It is a flat sequence of fixed-width
fields written one after the other; `error` is what `GetError()` returns and
`room` is the number of further field writes that succeed before one fails.
A write on a stream without room fails and writes nothing; the writes after
a failed one find the room that `later` lists next (no room once `later` is
empty), so that a failed write can be followed by writes that succeed, and
every pattern of accepted and refused writes is the behaviour of a stream. -/
structure cIGZOStream where
  error : Nat
  room : Nat
  written : List Field
  later : List Nat
deriving DecidableEq, Repr

/-- Modelled from the spec: the host input stream `cIGZIStream`, whose source
is not part of the repository: the fields still to be read, and the value of
`GetError()`.  A read fails when the next field is missing or of another
kind; a failed read consumes nothing and leaves its destination unchanged. -/
structure cIGZIStream where
  error : Nat
  fields : List Field
deriving DecidableEq, Repr

/-- The call `stream.GetError()`. -/
def cIGZOStream.GetError (stream : cIGZOStream) : Nat := stream.error

/-- One field write: the result of the call and the stream afterwards. -/
def cIGZOStream.put (stream : cIGZOStream) (f : Field) : Bool × cIGZOStream :=
  if stream.room = 0 then
    (false, { stream with room := stream.later.headD 0, later := stream.later.tail })
  else (true, { stream with room := stream.room - 1, written := stream.written ++ [f] })

/-- The call `stream.SetUint32(v)`. -/
def cIGZOStream.SetUint32 (stream : cIGZOStream) (v : Nat) : Bool × cIGZOStream :=
  stream.put (Field.uint32 v)

/-- The call `stream.SetSint32(v)`. -/
def cIGZOStream.SetSint32 (stream : cIGZOStream) (v : Int) : Bool × cIGZOStream :=
  stream.put (Field.sint32 v)

/-- The call `stream.SetSint64(v)`. -/
def cIGZOStream.SetSint64 (stream : cIGZOStream) (v : Int) : Bool × cIGZOStream :=
  stream.put (Field.sint64 v)

/-- The call `stream.SetFloat32(v)`. -/
def cIGZOStream.SetFloat32 (stream : cIGZOStream) (v : F32) : Bool × cIGZOStream :=
  stream.put (Field.float32 v)

/-- The call `stream.SetGZStr(v)`. -/
def cIGZOStream.SetGZStr (stream : cIGZOStream) (v : String) : Bool × cIGZOStream :=
  stream.put (Field.gzstr v)

/-- The call `stream.SetVoid(&b, 1)`: one raw byte. -/
def cIGZOStream.SetVoid1 (stream : cIGZOStream) (b : Nat) : Bool × cIGZOStream :=
  stream.put (Field.byte b)

/-- The call `stream.GetError()`. -/
def cIGZIStream.GetError (stream : cIGZIStream) : Nat := stream.error

/-- The call `stream.GetUint32(v)`: the value read and the stream afterwards. -/
def cIGZIStream.GetUint32 (stream : cIGZIStream) : Option (Nat × cIGZIStream) :=
  match stream.fields with
  | Field.uint32 v :: rest => some (v, { stream with fields := rest })
  | _ => none

/-- The call `stream.GetSint32(v)`. -/
def cIGZIStream.GetSint32 (stream : cIGZIStream) : Option (Int × cIGZIStream) :=
  match stream.fields with
  | Field.sint32 v :: rest => some (v, { stream with fields := rest })
  | _ => none

/-- The call `stream.GetSint64(v)`. -/
def cIGZIStream.GetSint64 (stream : cIGZIStream) : Option (Int × cIGZIStream) :=
  match stream.fields with
  | Field.sint64 v :: rest => some (v, { stream with fields := rest })
  | _ => none

/-- The call `stream.GetFloat32(v)`. -/
def cIGZIStream.GetFloat32 (stream : cIGZIStream) : Option (F32 × cIGZIStream) :=
  match stream.fields with
  | Field.float32 v :: rest => some (v, { stream with fields := rest })
  | _ => none

/-- The call `stream.GetGZStr(v)`. -/
def cIGZIStream.GetGZStr (stream : cIGZIStream) : Option (String × cIGZIStream) :=
  match stream.fields with
  | Field.gzstr v :: rest => some (v, { stream with fields := rest })
  | _ => none

/-- The call `stream.GetVoid(&b, 1)`: one raw byte. -/
def cIGZIStream.GetVoid1 (stream : cIGZIStream) : Option (Nat × cIGZIStream) :=
  match stream.fields with
  | Field.byte v :: rest => some (v, { stream with fields := rest })
  | _ => none

/-- The statement `if (!write) return false; rest` of a `Write` that has
no object of its own in the model: `r` is the outcome of the field write and
`rest` runs on the stream it leaves. -/
def andThen (r : Bool × cIGZOStream) (rest : cIGZOStream → Bool × cIGZOStream) :
    Bool × cIGZOStream :=
  if r.1 then rest r.2 else (false, r.2)

/-- The statement `if (!write) return false; rest` of the `Write` methods of
the repository: `r` is the outcome of the field write; when it failed the
method returns false with its object `self` and the stream as they are, and
otherwise `rest` runs on the stream the write leaves. -/
def writeThen {σ : Type} (r : Bool × cIGZOStream) (self : σ)
    (rest : cIGZOStream → Bool × σ × cIGZOStream) : Bool × σ × cIGZOStream :=
  if r.1 then rest r.2 else (false, self, r.2)

/-- The statement `if (!read(x)) return false; rest` of the `Read` methods:
on failure the object `self` and the stream are returned as they are, on
success `rest` receives the value read and the advanced stream. -/
def readThen {α σ : Type} (r : Option (α × cIGZIStream)) (self : σ) (stream : cIGZIStream)
    (rest : α → cIGZIStream → Bool × σ × cIGZIStream) : Bool × σ × cIGZIStream :=
  match r with
  | none => (false, self, stream)
  | some (v, stream1) => rest v stream1

/-! ## Property records and the property holder -/

/-- Modelled from the spec: the scalar held by a property record (the class
`cIGZVariant` is not part of the repository); exactly one of the three
types the holder can add. -/
inductive cIGZVariant where
  | Uint32 (v : Nat) : cIGZVariant
  | Sint32 (v : Int) : cIGZVariant
  | Float32 (v : F32) : cIGZVariant
deriving DecidableEq, Repr

/-- Modelled from the spec: a property record `cSCBaseProperty` (its source
is not part of the repository): a property id and a typed scalar. -/
structure cSCBaseProperty where
  propertyID : Nat
  value : cIGZVariant
deriving DecidableEq, Repr

/-- The call `property.GetPropertyID()`. -/
def cSCBaseProperty.GetPropertyID (self : cSCBaseProperty) : Nat := self.propertyID

/-- Modelled from the spec: the type tag a record is stored with; the
numbers stand for the three type codes of the host and only need to be
distinct. -/
def cIGZVariant.typeTag : cIGZVariant → Nat
  | cIGZVariant.Uint32 _ => 1
  | cIGZVariant.Sint32 _ => 2
  | cIGZVariant.Float32 _ => 3

/-- Modelled from the spec: `cSCBaseProperty::Write`, whose source is not
part of the repository: it fails on a stream in error, and otherwise writes
the property id, a type tag and the value in the type the tag names. -/
def cSCBaseProperty.Write (self : cSCBaseProperty) (stream : cIGZOStream) :
    Bool × cIGZOStream :=
  if stream.GetError ≠ 0 then (false, stream) else
  andThen (stream.SetUint32 self.propertyID) fun stream =>
  andThen (stream.put (Field.typeTag self.value.typeTag)) fun stream =>
  match self.value with
  | cIGZVariant.Uint32 v => stream.SetUint32 v
  | cIGZVariant.Sint32 v => stream.SetSint32 v
  | cIGZVariant.Float32 v => stream.SetFloat32 v

/-- Modelled from the spec: `cSCBaseProperty::Read`, whose source is not part
of the repository: it reads the property id, the type tag and the value,
and fails on a stream in error, on a failed read and on an unrecognised
type tag.  The record is returned as read so far. -/
def cSCBaseProperty.Read (self : cSCBaseProperty) (stream : cIGZIStream) :
    Bool × cSCBaseProperty × cIGZIStream :=
  if stream.GetError ≠ 0 then (false, self, stream) else
  readThen stream.GetUint32 self stream fun id stream =>
  let self := { self with propertyID := id }
  match stream.fields with
  | Field.typeTag t :: rest =>
      let stream := { stream with fields := rest }
      if t = 1 then
        readThen stream.GetUint32 self stream fun v stream =>
        (true, { self with value := cIGZVariant.Uint32 v }, stream)
      else if t = 2 then
        readThen stream.GetSint32 self stream fun v stream =>
        (true, { self with value := cIGZVariant.Sint32 v }, stream)
      else if t = 3 then
        readThen stream.GetFloat32 self stream fun v stream =>
        (true, { self with value := cIGZVariant.Float32 v }, stream)
      else (false, self, stream)
  | _ => (false, self, stream)

/-- The default-constructed record `cSCBaseProperty prop;`. -/
def cSCBaseProperty.default : cSCBaseProperty := ⟨0, cIGZVariant.Uint32 0⟩

/-- The class `OrdinancePropertyHolder`: a reference count and the vector
of records, in insertion order. -/
structure OrdinancePropertyHolder where
  refCount : Nat
  properties : List cSCBaseProperty
deriving DecidableEq, Repr

/-- The loop `for (i = 0; i < propertyCount; i++) properties[i].Write(stream)`
of `OrdinancePropertyHolder::Write`, run on the records it visits, in
order; it returns at the first record whose write fails.  The result is the
flag, the holder and the stream. -/
def OrdinancePropertyHolder.writeLoop (self : OrdinancePropertyHolder) :
    List cSCBaseProperty → cIGZOStream → Bool × OrdinancePropertyHolder × cIGZOStream
  | [], stream => (true, self, stream)
  | prop :: rest, stream =>
      writeThen (prop.Write stream) self fun stream => writeLoop self rest stream

/-- The function `OrdinancePropertyHolder::Write`: the flag returned, the holder and the
stream after the call.  `propertyCount` is the vector size cast to
`uint32_t`; the count is not written when the write of the version failed
(the `||` of the source), and the loop visits `properties[0]` to
`properties[propertyCount - 1]`. -/
def OrdinancePropertyHolder.Write (self : OrdinancePropertyHolder) (stream : cIGZOStream) :
    Bool × OrdinancePropertyHolder × cIGZOStream :=
  if stream.GetError ≠ 0 then (false, self, stream) else
  let version : Nat := 1
  let propertyCount : Nat := self.properties.length % 2 ^ 32
  writeThen (stream.SetUint32 version) self fun stream =>
  writeThen (stream.SetUint32 propertyCount) self fun stream =>
  self.writeLoop (self.properties.take propertyCount) stream

/-- The loop of `OrdinancePropertyHolder::Read`: `n` records are still to be
read; each is read into a fresh record and pushed to the back of the
vector, and the loop returns at the first record that fails to read. -/
def OrdinancePropertyHolder.readLoop :
    Nat → List cSCBaseProperty → cIGZIStream → Bool × List cSCBaseProperty × cIGZIStream
  | 0, properties, stream => (true, properties, stream)
  | n + 1, properties, stream =>
      match cSCBaseProperty.default.Read stream with
      | (false, _, stream1) => (false, properties, stream1)
      | (true, prop, stream1) => readLoop n (properties ++ [prop]) stream1

/-- The function `OrdinancePropertyHolder::Read`. -/
def OrdinancePropertyHolder.Read (self : OrdinancePropertyHolder) (stream : cIGZIStream) :
    Bool × OrdinancePropertyHolder × cIGZIStream :=
  if stream.GetError ≠ 0 then (false, self, stream) else
  readThen stream.GetUint32 self stream fun version stream =>
  if version ≠ 1 then (false, self, stream) else
  readThen stream.GetUint32 self stream fun propertyCount stream =>
  let self := { self with properties := [] }
  match OrdinancePropertyHolder.readLoop propertyCount self.properties stream with
  | (ok, properties, stream1) => (ok, { self with properties := properties }, stream1)

/-! ## Host simulation objects -/

/-- The residential simulator of the host, as far as the ordinance calls it:
`GetPopulation()` returns an `int32_t`. -/
structure cISC4ResidentialSimulator where
  GetPopulation : Int

/-- A simulation date of the host. -/
structure cIGZDate where
  Year : Nat

/-- The simulator of the host: `GetSimDate()` returns a date or null. -/
structure cISC4Simulator where
  GetSimDate : Option cIGZDate

/-- A demand object of the host: `QuerySupplyValue()` returns a `float`. -/
structure cISC4Demand where
  QuerySupplyValue : F32

/-- The demand simulator of the host: `GetDemand(groupID, censusIndex)`
returns a demand object or null. -/
structure cISC4DemandSimulator where
  GetDemand : Nat → Nat → Option cISC4Demand

/-- A key of a localized string resource. -/
structure StringResourceKey where
  groupID : Nat
  instanceID : Nat
deriving DecidableEq, Repr

/-! ## OrdinanceBase -/

/-- The data members of `OrdinanceBase`; a null pointer is `none`.  The
member `on` is spelled `on_` here. -/
structure OrdinanceBase where
  clsid : Nat
  name : String
  description : String
  enactmentIncome : Int
  retracmentIncome : Int
  monthlyConstantIncome : Int
  monthlyAdjustedIncome : Int
  monthlyIncomeFactor : F32
  isIncomeOrdinance : Bool
  miscProperties : OrdinancePropertyHolder
  initialized : Bool
  available : Bool
  on_ : Bool
  enabled : Bool
  haveDeserialized : Bool
  refCount : Nat
  pResidentialSimulator : Option cISC4ResidentialSimulator
  pSimulator : Option cISC4Simulator
  nameKey : StringResourceKey
  descriptionKey : StringResourceKey

/-- The function `OrdinanceBase::GetMonthlyConstantIncome`. -/
def OrdinanceBase.GetMonthlyConstantIncome (self : OrdinanceBase) : Int :=
  self.monthlyConstantIncome

/-- The function `OrdinanceBase::GetMonthlyIncomeFactor`. -/
def OrdinanceBase.GetMonthlyIncomeFactor (self : OrdinanceBase) : F32 :=
  self.monthlyIncomeFactor

/-- The function `OrdinanceBase::GetCurrentMonthlyIncome`.  The result is `none` when the
final `static_cast<int64_t>` is applied to a value it is not defined on. -/
def OrdinanceBase.GetCurrentMonthlyIncome (self : OrdinanceBase) : Option Int :=
  let monthlyConstantIncome : Int := self.GetMonthlyConstantIncome
  let monthlyIncomeFactor : Fp := Fp.ofFloat self.GetMonthlyIncomeFactor
  match self.pResidentialSimulator with
  | none => some monthlyConstantIncome
  | some pResidentialSimulator =>
      let cityPopulation : Int := pResidentialSimulator.GetPopulation
      let populationIncome : Fp := Fp.mul64 monthlyIncomeFactor (Fp.ofInt32 cityPopulation)
      let monthlyIncome : Fp := Fp.add64 (Fp.ofInt64 monthlyConstantIncome) populationIncome
      if Fp.lt monthlyIncome (Fp.ofInt64 INT64_MIN) then some INT64_MIN
      else if Fp.gt monthlyIncome (Fp.ofInt64 INT64_MAX) then some INT64_MAX
      else Fp.toInt64 monthlyIncome

/-- The function `OrdinanceBase::WriteBool`. -/
def OrdinanceBase.WriteBool (stream : cIGZOStream) (value : Bool) : Bool × cIGZOStream :=
  let uint8Value : Nat := if value then 1 else 0
  stream.SetVoid1 uint8Value

/-- The function `OrdinanceBase::ReadBool`. -/
def OrdinanceBase.ReadBool (stream : cIGZIStream) : Option (Bool × cIGZIStream) :=
  match stream.GetVoid1 with
  | none => none
  | some (temp, stream1) => some (decide (temp ≠ 0), stream1)

/-- The function `OrdinanceBase::Write`: the flag returned, the object and the stream
after the call.  The nested `miscProperties.Write(stream)` runs on the
member, so the bag it leaves is the member afterwards. -/
def OrdinanceBase.Write (self : OrdinanceBase) (stream : cIGZOStream) :
    Bool × OrdinanceBase × cIGZOStream :=
  if stream.GetError ≠ 0 then (false, self, stream) else
  let version : Nat := 1
  writeThen (stream.SetUint32 version) self fun stream =>
  writeThen (stream.SetUint32 self.clsid) self fun stream =>
  writeThen (stream.SetGZStr self.name) self fun stream =>
  writeThen (stream.SetGZStr self.description) self fun stream =>
  writeThen (stream.SetSint64 self.enactmentIncome) self fun stream =>
  writeThen (stream.SetSint64 self.retracmentIncome) self fun stream =>
  writeThen (stream.SetSint64 self.retracmentIncome) self fun stream =>
  writeThen (stream.SetSint64 self.monthlyConstantIncome) self fun stream =>
  writeThen (stream.SetSint64 self.monthlyAdjustedIncome) self fun stream =>
  writeThen (stream.SetFloat32 self.monthlyIncomeFactor) self fun stream =>
  writeThen (OrdinanceBase.WriteBool stream self.isIncomeOrdinance) self fun stream =>
  match self.miscProperties.Write stream with
  | (false, props, stream1) => (false, { self with miscProperties := props }, stream1)
  | (true, props, stream) =>
  let self := { self with miscProperties := props }
  writeThen (OrdinanceBase.WriteBool stream self.initialized) self fun stream =>
  writeThen (OrdinanceBase.WriteBool stream self.available) self fun stream =>
  writeThen (OrdinanceBase.WriteBool stream self.on_) self fun stream =>
  writeThen (OrdinanceBase.WriteBool stream self.enabled) self fun stream =>
  (true, self, stream)

/-- The function `OrdinanceBase::Read`: each successful field read stores into the member
at once, so a failing call returns the object as read so far. -/
def OrdinanceBase.Read (self : OrdinanceBase) (stream : cIGZIStream) :
    Bool × OrdinanceBase × cIGZIStream :=
  if stream.GetError ≠ 0 then (false, self, stream) else
  readThen stream.GetUint32 self stream fun version stream =>
  if version ≠ 1 then (false, self, stream) else
  readThen stream.GetUint32 self stream fun v stream =>
  let self := { self with clsid := v }
  readThen stream.GetGZStr self stream fun v stream =>
  let self := { self with name := v }
  readThen stream.GetGZStr self stream fun v stream =>
  let self := { self with description := v }
  readThen stream.GetSint64 self stream fun v stream =>
  let self := { self with enactmentIncome := v }
  readThen stream.GetSint64 self stream fun v stream =>
  let self := { self with retracmentIncome := v }
  readThen stream.GetSint64 self stream fun v stream =>
  let self := { self with retracmentIncome := v }
  readThen stream.GetSint64 self stream fun v stream =>
  let self := { self with monthlyConstantIncome := v }
  readThen stream.GetSint64 self stream fun v stream =>
  let self := { self with monthlyAdjustedIncome := v }
  readThen stream.GetFloat32 self stream fun v stream =>
  let self := { self with monthlyIncomeFactor := v }
  readThen (OrdinanceBase.ReadBool stream) self stream fun v stream =>
  let self := { self with isIncomeOrdinance := v }
  match self.miscProperties.Read stream with
  | (false, props, stream1) => (false, { self with miscProperties := props }, stream1)
  | (true, props, stream) =>
  let self := { self with miscProperties := props }
  readThen (OrdinanceBase.ReadBool stream) self stream fun v stream =>
  let self := { self with initialized := v }
  readThen (OrdinanceBase.ReadBool stream) self stream fun v stream =>
  let self := { self with available := v }
  readThen (OrdinanceBase.ReadBool stream) self stream fun v stream =>
  let self := { self with on_ := v }
  readThen (OrdinanceBase.ReadBool stream) self stream fun v stream =>
  let self := { self with enabled := v }
  (true, { self with haveDeserialized := true }, stream)

/-! ## CityLotteryOrdinance -/

/-- The data members of `CityLotteryOrdinance`, which derives from
`OrdinanceBase`. -/
structure CityLotteryOrdinance extends OrdinanceBase where
  pDemandSimulator : Option cISC4DemandSimulator
  residentialLowWealthIncomeFactor : F32
  residentialMedWealthIncomeFactor : F32
  residentialHighWealthIncomeFactor : F32

/-- The function `CityLotteryOrdinance::GetCityPopulation`. -/
def CityLotteryOrdinance.GetCityPopulation (self : CityLotteryOrdinance) (groupID : Nat) :
    F32 :=
  match self.pDemandSimulator with
  | none => F32.zero
  | some pDemandSimulator =>
      let cityCensusIndex : Nat := 0
      match pDemandSimulator.GetDemand groupID cityCensusIndex with
      | none => F32.zero
      | some demand => demand.QuerySupplyValue

/-- The `double` local `monthlyIncome` of
`CityLotteryOrdinance::GetCurrentMonthlyIncome` once the three wealth groups
have been added, that is, where the conversion to `int64_t` starts. -/
def CityLotteryOrdinance.monthlyIncomeSum (self : CityLotteryOrdinance) : Fp :=
  let monthlyConstantIncome : Int := self.GetMonthlyConstantIncome
  let monthlyIncome : Fp := Fp.ofInt64 monthlyConstantIncome
  let monthlyIncome : Fp :=
    if F32.gt self.residentialLowWealthIncomeFactor F32.zero then
      let lowWealthPopulation : Fp := Fp.ofFloat (self.GetCityPopulation 0x1011)
      if Fp.gt lowWealthPopulation Fp.zero then
        let lotteryPopulationIncome : Fp :=
          Fp.mul64 lowWealthPopulation (Fp.ofFloat self.residentialLowWealthIncomeFactor)
        Fp.add64 monthlyIncome lotteryPopulationIncome
      else monthlyIncome
    else monthlyIncome
  let monthlyIncome : Fp :=
    if F32.gt self.residentialMedWealthIncomeFactor F32.zero then
      let medWealthPopulation : Fp := Fp.ofFloat (self.GetCityPopulation 0x1021)
      if Fp.gt medWealthPopulation Fp.zero then
        let lotteryPopulationIncome : Fp :=
          Fp.mul64 medWealthPopulation (Fp.ofFloat self.residentialMedWealthIncomeFactor)
        Fp.add64 monthlyIncome lotteryPopulationIncome
      else monthlyIncome
    else monthlyIncome
  let monthlyIncome : Fp :=
    if F32.gt self.residentialHighWealthIncomeFactor F32.zero then
      let highWealthPopulation : Fp := Fp.ofFloat (self.GetCityPopulation 0x1031)
      if Fp.gt highWealthPopulation Fp.zero then
        let lotteryPopulationIncome : Fp :=
          Fp.mul64 highWealthPopulation (Fp.ofFloat self.residentialHighWealthIncomeFactor)
        Fp.add64 monthlyIncome lotteryPopulationIncome
      else monthlyIncome
    else monthlyIncome
  monthlyIncome

/-- The function `CityLotteryOrdinance::GetCurrentMonthlyIncome`.  The result is `none`
when the final `static_cast<int64_t>` is applied to a value it is not
defined on. -/
def CityLotteryOrdinance.GetCurrentMonthlyIncome (self : CityLotteryOrdinance) : Option Int :=
  let monthlyIncome : Fp := self.monthlyIncomeSum
  if Fp.lt monthlyIncome (Fp.ofInt64 INT64_MIN) then some INT64_MIN
  else if Fp.gt monthlyIncome (Fp.ofInt64 INT64_MAX) then some INT64_MAX
  else Fp.toInt64 monthlyIncome

/-- The function `CityLotteryOrdinance::Write`: the flag returned, the object and the
stream after the call.  The nested `miscProperties.Write(stream)` runs on
the member, so the bag it leaves is the member afterwards. -/
def CityLotteryOrdinance.Write (self : CityLotteryOrdinance) (stream : cIGZOStream) :
    Bool × CityLotteryOrdinance × cIGZOStream :=
  if stream.GetError ≠ 0 then (false, self, stream) else
  let version : Nat := 1
  writeThen (stream.SetUint32 version) self fun stream =>
  writeThen (stream.SetUint32 self.clsid) self fun stream =>
  writeThen (stream.SetGZStr self.name) self fun stream =>
  writeThen (stream.SetGZStr self.description) self fun stream =>
  writeThen (stream.SetSint64 self.enactmentIncome) self fun stream =>
  writeThen (stream.SetSint64 self.retracmentIncome) self fun stream =>
  writeThen (stream.SetSint64 self.retracmentIncome) self fun stream =>
  writeThen (stream.SetSint64 self.monthlyConstantIncome) self fun stream =>
  writeThen (stream.SetSint64 self.monthlyAdjustedIncome) self fun stream =>
  writeThen (stream.SetFloat32 self.residentialLowWealthIncomeFactor) self fun stream =>
  writeThen (stream.SetFloat32 self.residentialMedWealthIncomeFactor) self fun stream =>
  writeThen (stream.SetFloat32 self.residentialHighWealthIncomeFactor) self fun stream =>
  writeThen (OrdinanceBase.WriteBool stream self.isIncomeOrdinance) self fun stream =>
  match self.miscProperties.Write stream with
  | (false, props, stream1) => (false, { self with miscProperties := props }, stream1)
  | (true, props, stream) =>
  let self := { self with miscProperties := props }
  writeThen (OrdinanceBase.WriteBool stream self.initialized) self fun stream =>
  writeThen (OrdinanceBase.WriteBool stream self.available) self fun stream =>
  writeThen (OrdinanceBase.WriteBool stream self.on_) self fun stream =>
  writeThen (OrdinanceBase.WriteBool stream self.enabled) self fun stream =>
  (true, self, stream)

/-- The function `CityLotteryOrdinance::Read`: each successful field read stores into the
member at once, so a failing call returns the object as read so far. -/
def CityLotteryOrdinance.Read (self : CityLotteryOrdinance) (stream : cIGZIStream) :
    Bool × CityLotteryOrdinance × cIGZIStream :=
  if stream.GetError ≠ 0 then (false, self, stream) else
  readThen stream.GetUint32 self stream fun version stream =>
  if version ≠ 1 then (false, self, stream) else
  readThen stream.GetUint32 self stream fun v stream =>
  let self := { self with clsid := v }
  readThen stream.GetGZStr self stream fun v stream =>
  let self := { self with name := v }
  readThen stream.GetGZStr self stream fun v stream =>
  let self := { self with description := v }
  readThen stream.GetSint64 self stream fun v stream =>
  let self := { self with enactmentIncome := v }
  readThen stream.GetSint64 self stream fun v stream =>
  let self := { self with retracmentIncome := v }
  readThen stream.GetSint64 self stream fun v stream =>
  let self := { self with retracmentIncome := v }
  readThen stream.GetSint64 self stream fun v stream =>
  let self := { self with monthlyConstantIncome := v }
  readThen stream.GetSint64 self stream fun v stream =>
  let self := { self with monthlyAdjustedIncome := v }
  readThen stream.GetFloat32 self stream fun v stream =>
  let self := { self with residentialLowWealthIncomeFactor := v }
  readThen stream.GetFloat32 self stream fun v stream =>
  let self := { self with residentialMedWealthIncomeFactor := v }
  readThen stream.GetFloat32 self stream fun v stream =>
  let self := { self with residentialHighWealthIncomeFactor := v }
  readThen (OrdinanceBase.ReadBool stream) self stream fun v stream =>
  let self := { self with isIncomeOrdinance := v }
  match self.miscProperties.Read stream with
  | (false, props, stream1) => (false, { self with miscProperties := props }, stream1)
  | (true, props, stream) =>
  let self := { self with miscProperties := props }
  readThen (OrdinanceBase.ReadBool stream) self stream fun v stream =>
  let self := { self with initialized := v }
  readThen (OrdinanceBase.ReadBool stream) self stream fun v stream =>
  let self := { self with available := v }
  readThen (OrdinanceBase.ReadBool stream) self stream fun v stream =>
  let self := { self with on_ := v }
  readThen (OrdinanceBase.ReadBool stream) self stream fun v stream =>
  let self := { self with enabled := v }
  (true, { self with haveDeserialized := true }, stream)

/-! ## Field sequences -/

/-- The fields `cSCBaseProperty::Write` emits for a record. -/
def cSCBaseProperty.fields (self : cSCBaseProperty) : List Field :=
  [Field.uint32 self.propertyID, Field.typeTag self.value.typeTag,
    match self.value with
    | cIGZVariant.Uint32 v => Field.uint32 v
    | cIGZVariant.Sint32 v => Field.sint32 v
    | cIGZVariant.Float32 v => Field.float32 v]

/-- The fields of a sequence of records, one record after the other. -/
def recordFields : List cSCBaseProperty → List Field
  | [] => []
  | prop :: rest => prop.fields ++ recordFields rest

/-- The stream `stream` after `fs` has been written to it. -/
def cIGZOStream.append (stream : cIGZOStream) (fs : List Field) : cIGZOStream :=
  { stream with room := stream.room - fs.length, written := stream.written ++ fs }

/-- The fields `OrdinancePropertyHolder::Write` emits for a holder. -/
def OrdinancePropertyHolder.fields (self : OrdinancePropertyHolder) : List Field :=
  Field.uint32 1 :: Field.uint32 (self.properties.length % 2 ^ 32) ::
    recordFields (self.properties.take (self.properties.length % 2 ^ 32))

/-- The byte `OrdinanceBase::WriteBool` writes for a flag. -/
def boolByte (value : Bool) : Field := Field.byte (if value then 1 else 0)

/-- The fields `OrdinanceBase::Write` emits, in order. -/
def OrdinanceBase.fields (self : OrdinanceBase) : List Field :=
  [Field.uint32 1, Field.uint32 self.clsid, Field.gzstr self.name,
    Field.gzstr self.description, Field.sint64 self.enactmentIncome,
    Field.sint64 self.retracmentIncome, Field.sint64 self.retracmentIncome,
    Field.sint64 self.monthlyConstantIncome, Field.sint64 self.monthlyAdjustedIncome,
    Field.float32 self.monthlyIncomeFactor, boolByte self.isIncomeOrdinance]
  ++ self.miscProperties.fields
  ++ [boolByte self.initialized, boolByte self.available, boolByte self.on_,
    boolByte self.enabled]

/-- The fields `CityLotteryOrdinance::Write` emits, in order. -/
def CityLotteryOrdinance.fields (self : CityLotteryOrdinance) : List Field :=
  [Field.uint32 1, Field.uint32 self.clsid, Field.gzstr self.name,
    Field.gzstr self.description, Field.sint64 self.enactmentIncome,
    Field.sint64 self.retracmentIncome, Field.sint64 self.retracmentIncome,
    Field.sint64 self.monthlyConstantIncome, Field.sint64 self.monthlyAdjustedIncome,
    Field.float32 self.residentialLowWealthIncomeFactor,
    Field.float32 self.residentialMedWealthIncomeFactor,
    Field.float32 self.residentialHighWealthIncomeFactor,
    boolByte self.isIncomeOrdinance]
  ++ self.miscProperties.fields
  ++ [boolByte self.initialized, boolByte self.available, boolByte self.on_,
    boolByte self.enabled]

/-! ## Literals and sample objects -/

/-- The `float` literal `0.05f`. -/
def F32.lit_0_05 : F32 := ⟨0x3D4CCCCD⟩

/-- The `float` literal `0.03f`. -/
def F32.lit_0_03 : F32 := ⟨0x3CF5C28F⟩

/-- The `float` value `10000`. -/
def F32.lit_10000 : F32 := ⟨0x461C4000⟩

/-- The `float` value `5000`. -/
def F32.lit_5000 : F32 := ⟨0x459C4000⟩

/-- The `float` value `9999`. -/
def F32.lit_9999 : F32 := ⟨0x461C3C00⟩

/-- The `float` value `1000000`. -/
def F32.lit_1000000 : F32 := ⟨0x49742400⟩

/-- The `float` value `2 ^ 20` (`1048576`). -/
def F32.lit_2_pow_20 : F32 := ⟨0x49800000⟩

/-- The `float` value `2 ^ 42`. -/
def F32.lit_2_pow_42 : F32 := ⟨0x54800000⟩

/-- A `float` is zero or negative (NaN is neither). -/
def F32.isZeroOrNegative (f : F32) : Bool :=
  match f.toFp with
  | Fp.fin m _ => decide (m ≤ 0)
  | Fp.inf neg => neg
  | Fp.nan => false

/-- The three residential wealth groups of the lottery. -/
inductive WealthGroup where
  | low : WealthGroup
  | med : WealthGroup
  | high : WealthGroup
deriving DecidableEq, Repr

/-- The demand group id `GetCurrentMonthlyIncome` queries for a wealth
group. -/
def WealthGroup.groupID : WealthGroup → Nat
  | WealthGroup.low => 0x1011
  | WealthGroup.med => 0x1021
  | WealthGroup.high => 0x1031

/-- The income factor member of a wealth group. -/
def CityLotteryOrdinance.incomeFactor (self : CityLotteryOrdinance) : WealthGroup → F32
  | WealthGroup.low => self.residentialLowWealthIncomeFactor
  | WealthGroup.med => self.residentialMedWealthIncomeFactor
  | WealthGroup.high => self.residentialHighWealthIncomeFactor

/-- The saturating conversion of a `double` to `int64_t` the specification
names: truncation toward zero, clamped to the range of `int64_t` (NaN is
sent to `0`). -/
def saturatingInt64 : Fp → Int
  | Fp.fin m e =>
      let t := Fp.truncFin m e
      if t < INT64_MIN then INT64_MIN else if INT64_MAX < t then INT64_MAX else t
  | Fp.inf neg => if neg then INT64_MIN else INT64_MAX
  | Fp.nan => 0

/-- The specification's income formula of the lottery: the constant income
plus, for exactly the wealth groups whose factor is `> 0` and whose
population is `> 0`, factor times population in double precision, the
groups taken in the order low, medium, high. -/
def specLotterySum (c : Int) (factors populations : WealthGroup → F32) : Fp :=
  (([WealthGroup.low, WealthGroup.med, WealthGroup.high].filter fun g =>
      F32.gt (factors g) F32.zero && Fp.gt (Fp.ofFloat (populations g)) Fp.zero).foldl
    (fun acc g => Fp.add64 acc (Fp.mul64 (Fp.ofFloat (populations g)) (Fp.ofFloat (factors g))))
    (Fp.ofInt64 c))

/-- The specification's result of the lottery income: the saturating
conversion of `specLotterySum`. -/
def specLotteryIncome (c : Int) (factors populations : WealthGroup → F32) : Int :=
  saturatingInt64 (specLotterySum c factors populations)

/-- The specification's result of the generic income formula: the saturating
conversion of `double(c) + double(f) * double(p)`. -/
def specBaseIncome (c : Int) (f : F32) (p : Int) : Int :=
  saturatingInt64 (Fp.add64 (Fp.ofInt64 c) (Fp.mul64 (Fp.ofFloat f) (Fp.ofInt32 p)))

/-- A sample effects bag: the three default effects of the lottery
(`102.0f`, `1.01f`, `1.10f`). -/
def sampleEffects : OrdinancePropertyHolder :=
  ⟨0, [⟨0xA92D9D7A, cIGZVariant.Float32 ⟨0x42CC0000⟩⟩,
    ⟨0x2A653110, cIGZVariant.Float32 ⟨0x3F8147AE⟩⟩,
    ⟨0x28ED0380, cIGZVariant.Float32 ⟨0x3F8CCCCD⟩⟩]⟩

/-- A sample unbound ordinance. -/
def sampleBase : OrdinanceBase :=
  { clsid := 0xE95F7779
    name := "City-wide Lottery Program"
    description := "A city-wide lottery program."
    enactmentIncome := 0
    retracmentIncome := -20
    monthlyConstantIncome := 500
    monthlyAdjustedIncome := 1150
    monthlyIncomeFactor := F32.lit_0_05
    isIncomeOrdinance := true
    miscProperties := sampleEffects
    initialized := false
    available := true
    on_ := true
    enabled := false
    haveDeserialized := false
    refCount := 1
    pResidentialSimulator := none
    pSimulator := none
    nameKey := ⟨0xE8D16EC8, 0xE34CDA8D⟩
    descriptionKey := ⟨0xE8D16EC8, 0x39385372⟩ }

/-- A sample ordinance that differs from `sampleBase` in every serialized
member: the target of a read. -/
def sampleTarget : OrdinanceBase :=
  { clsid := 7
    name := "x"
    description := "y"
    enactmentIncome := 1
    retracmentIncome := 2
    monthlyConstantIncome := 3
    monthlyAdjustedIncome := 4
    monthlyIncomeFactor := F32.zero
    isIncomeOrdinance := false
    miscProperties := ⟨5, [⟨1, cIGZVariant.Uint32 9⟩]⟩
    initialized := true
    available := false
    on_ := false
    enabled := true
    haveDeserialized := false
    refCount := 0
    pResidentialSimulator := none
    pSimulator := none
    nameKey := ⟨0, 0⟩
    descriptionKey := ⟨0, 0⟩ }

/-- A sample demand simulator: populations `10000`, `5000` and `9999` for the
low, medium and high wealth groups, and no demand for any other group. -/
def sampleDemandSimulator : cISC4DemandSimulator :=
  ⟨fun groupID _ =>
    if groupID = 0x1011 then some ⟨F32.lit_10000⟩
    else if groupID = 0x1021 then some ⟨F32.lit_5000⟩
    else if groupID = 0x1031 then some ⟨F32.lit_9999⟩
    else none⟩

/-- The sample demand simulator with the high wealth population changed to
`1000000`. -/
def sampleDemandSimulatorHigh : cISC4DemandSimulator :=
  ⟨fun groupID _ =>
    if groupID = 0x1011 then some ⟨F32.lit_10000⟩
    else if groupID = 0x1021 then some ⟨F32.lit_5000⟩
    else if groupID = 0x1031 then some ⟨F32.lit_1000000⟩
    else none⟩

/-- A sample lottery ordinance: constant income `500`, factors `0.05f`,
`0.03f` and `0.0f`, bound to `sampleDemandSimulator`. -/
def sampleLottery : CityLotteryOrdinance :=
  { sampleBase with
    pDemandSimulator := some sampleDemandSimulator
    residentialLowWealthIncomeFactor := F32.lit_0_05
    residentialMedWealthIncomeFactor := F32.lit_0_03
    residentialHighWealthIncomeFactor := F32.zero }

/-- A sample lottery ordinance that differs from `sampleLottery` in every
serialized member: the target of a read. -/
def sampleLotteryTarget : CityLotteryOrdinance :=
  { sampleTarget with
    pDemandSimulator := none
    residentialLowWealthIncomeFactor := F32.lit_9999
    residentialMedWealthIncomeFactor := F32.lit_9999
    residentialHighWealthIncomeFactor := F32.lit_9999 }

/-- A sample output stream: no error, room for a hundred fields. -/
def sampleOStream : cIGZOStream := ⟨0, 100, [], []⟩

/-- A sample output stream reporting the error `3`. -/
def sampleErrorOStream : cIGZOStream := ⟨3, 100, [], []⟩

/-- A sample output stream that accepts twelve fields, refuses the
thirteenth write and would accept fifty fields after that. -/
def sampleRecoveringOStream : cIGZOStream := ⟨0, 12, [], [50]⟩

/-- One wealth group block of `CityLotteryOrdinance::GetCurrentMonthlyIncome`:
the value of `monthlyIncome` after the block of group `g`, given its value
before. -/
def CityLotteryOrdinance.addWealthGroup (self : CityLotteryOrdinance) (monthlyIncome : Fp)
    (g : WealthGroup) : Fp :=
  if F32.gt (self.incomeFactor g) F32.zero then
    if Fp.gt (Fp.ofFloat (self.GetCityPopulation g.groupID)) Fp.zero then
      Fp.add64 monthlyIncome
        (Fp.mul64 (Fp.ofFloat (self.GetCityPopulation g.groupID))
          (Fp.ofFloat (self.incomeFactor g)))
    else monthlyIncome
  else monthlyIncome

/-- The sample lottery with constant income `INT64_MAX` and the three
income factors `0.0f`. -/
def lotteryMaxConstant : CityLotteryOrdinance :=
  { sampleLottery with
    monthlyConstantIncome := INT64_MAX
    residentialLowWealthIncomeFactor := F32.zero
    residentialMedWealthIncomeFactor := F32.zero
    residentialHighWealthIncomeFactor := F32.zero }

/-- A lottery with constant income `2 ^ 62` whose low wealth group has the
factor `2 ^ 42` and the population `2 ^ 20`, the other groups having the
factor `0.0f`. -/
def lotteryTierOverflow : CityLotteryOrdinance :=
  { sampleLottery with
    monthlyConstantIncome := 2 ^ 62
    pDemandSimulator :=
      some ⟨fun groupID _ => if groupID = 0x1011 then some ⟨F32.lit_2_pow_20⟩ else none⟩
    residentialLowWealthIncomeFactor := F32.lit_2_pow_42
    residentialMedWealthIncomeFactor := F32.zero
    residentialHighWealthIncomeFactor := F32.zero }

/-- The sample ordinance bound to a city of population `0`, with constant
income `INT64_MAX` and income factor `0.0f`. -/
def baseMaxConstant : OrdinanceBase :=
  { sampleBase with
    monthlyConstantIncome := INT64_MAX
    monthlyIncomeFactor := F32.zero
    pResidentialSimulator := some ⟨0⟩ }

/-- The sample ordinance, unbound, with the constant income `2 ^ 53 + 1`. -/
def baseUnboundOdd : OrdinanceBase :=
  { sampleBase with monthlyConstantIncome := 2 ^ 53 + 1 }

/-- The sample lottery without demand simulator. -/
def lotteryUnbound : CityLotteryOrdinance :=
  { sampleLottery with pDemandSimulator := none }

/-- The conversion block that ends both `GetCurrentMonthlyIncome` functions:
the two clamps and the final `static_cast<int64_t>`. -/
def clampedInt64 (monthlyIncome : Fp) : Option Int :=
  if Fp.lt monthlyIncome (Fp.ofInt64 INT64_MIN) then some INT64_MIN
  else if Fp.gt monthlyIncome (Fp.ofInt64 INT64_MAX) then some INT64_MAX
  else Fp.toInt64 monthlyIncome

/-- A value that is zero, positive or `+inf`. -/
def Fp.isNonneg : Fp → Bool
  | Fp.nan => false
  | Fp.inf neg => !neg
  | Fp.fin m _ => decide (0 ≤ m)

/-- A value that is not NaN, not `-inf` and, when negative, of magnitude
below `2 ^ b`. -/
def Fp.boundedBelow (b : Int) : Fp → Bool
  | Fp.nan => false
  | Fp.inf neg => !neg
  | Fp.fin m e => decide (0 ≤ m ∨ (bitLength m.natAbs : Int) + e ≤ b)

/-- A value that is positive or `+inf`. -/
def Fp.isPos : Fp → Bool
  | Fp.nan => false
  | Fp.inf neg => !neg
  | Fp.fin m _ => decide (0 < m)

/-! ## OrdinanceBase: flags -/

/-- The function `OrdinanceBase::IsAvailable`. -/
def OrdinanceBase.IsAvailable (self : OrdinanceBase) : Bool := self.available

/-- The function `OrdinanceBase::IsOn`. -/
def OrdinanceBase.IsOn (self : OrdinanceBase) : Bool :=
  let result : Bool := self.available && self.on_
  result

/-- The function `OrdinanceBase::SetAvailable`: the value returned and the object
afterwards. -/
def OrdinanceBase.SetAvailable (self : OrdinanceBase) (isAvailable : Bool) :
    Bool × OrdinanceBase :=
  let self := { self with available := isAvailable }
  let self := { self with monthlyAdjustedIncome := 0 }
  (true, self)

/-- The function `OrdinanceBase::SetOn`: the value returned and the object
afterwards. -/
def OrdinanceBase.SetOn (self : OrdinanceBase) (isOn : Bool) : Bool × OrdinanceBase :=
  let self := { self with on_ := isOn }
  let self :=
    if isOn then { self with monthlyAdjustedIncome := self.enactmentIncome }
    else { self with monthlyAdjustedIncome := self.retracmentIncome }
  (true, self)

/-! ## Property holder: lookup, insertion, removal -/

/-- The range-for loop of `OrdinancePropertyHolder::HasProperty` over the
records still to be visited. -/
def OrdinancePropertyHolder.hasLoop (dwProperty : Nat) : List cSCBaseProperty → Bool
  | [] => false
  | property :: rest =>
      if property.GetPropertyID = dwProperty then true
      else OrdinancePropertyHolder.hasLoop dwProperty rest

/-- The function `OrdinancePropertyHolder::HasProperty`. -/
def OrdinancePropertyHolder.HasProperty (self : OrdinancePropertyHolder) (dwProperty : Nat) :
    Bool :=
  OrdinancePropertyHolder.hasLoop dwProperty self.properties

/-- The range-for loop of `OrdinancePropertyHolder::GetProperty(uint32_t)`
over the records still to be visited, the first of which is at position
`i` of the vector.  The pointer returned addresses a record of the vector
and is given as the position of that record; `none` is the null pointer. -/
def OrdinancePropertyHolder.getLoop (dwProperty : Nat) :
    List cSCBaseProperty → Nat → Option Nat
  | [], _ => none
  | property :: rest, i =>
      if property.GetPropertyID = dwProperty then some i
      else OrdinancePropertyHolder.getLoop dwProperty rest (i + 1)

/-- The function `OrdinancePropertyHolder::GetProperty(uint32_t dwProperty)`: the
position in the vector of the record the returned pointer addresses, or
`none` for the null pointer.  (The reference count that `AddRef` raises
belongs to the host's record class and is not kept here.) -/
def OrdinancePropertyHolder.GetProperty (self : OrdinancePropertyHolder) (dwProperty : Nat) :
    Option Nat :=
  OrdinancePropertyHolder.getLoop dwProperty self.properties 0

/-- The overload `AddProperty(uint32_t dwProperty, uint32_t dwValue, bool)`:
the value returned and the holder afterwards. -/
def OrdinancePropertyHolder.AddProperty_uint32 (self : OrdinancePropertyHolder)
    (dwProperty dwValue : Nat) : Bool × OrdinancePropertyHolder :=
  (true, { self with
    properties := self.properties ++ [⟨dwProperty, cIGZVariant.Uint32 dwValue⟩] })

/-- The overload `AddProperty(uint32_t dwProperty, int32_t lValue, bool)`: the
value returned and the holder afterwards. -/
def OrdinancePropertyHolder.AddProperty_sint32 (self : OrdinancePropertyHolder)
    (dwProperty : Nat) (lValue : Int) : Bool × OrdinancePropertyHolder :=
  (true, { self with
    properties := self.properties ++ [⟨dwProperty, cIGZVariant.Sint32 lValue⟩] })

/-- The overload `AddProperty(uint32_t dwProperty, float value)`: the value
returned and the holder afterwards. -/
def OrdinancePropertyHolder.AddProperty_float (self : OrdinancePropertyHolder)
    (dwProperty : Nat) (value : F32) : Bool × OrdinancePropertyHolder :=
  (true, { self with
    properties := self.properties ++ [⟨dwProperty, cIGZVariant.Float32 value⟩] })

/-- The loop of `OrdinancePropertyHolder::RemoveProperty`,
`for (it = properties.begin(); it != properties.end();)`, whose body never
advances `it`.  `it` is the position the iterator is at, and `fuel` the
number of iterations allowed: the result is `none` when the loop has not
returned after `fuel` iterations, and otherwise the value returned with the
vector afterwards. -/
def OrdinancePropertyHolder.removeLoop (dwProperty : Nat) (properties : List cSCBaseProperty) :
    Nat → Nat → Option (Bool × List cSCBaseProperty)
  | 0, _ => none
  | fuel + 1, it =>
      match properties[it]? with
      | none => some (false, properties)
      | some property =>
          if property.GetPropertyID = dwProperty then some (true, properties.eraseIdx it)
          else OrdinancePropertyHolder.removeLoop dwProperty properties fuel it

/-- The function `OrdinancePropertyHolder::RemoveProperty`, run for at most `fuel`
iterations of its loop: `none` when it has not returned by then, otherwise
the value returned and the holder afterwards. -/
def OrdinancePropertyHolder.RemoveProperty (self : OrdinancePropertyHolder) (dwProperty : Nat)
    (fuel : Nat) : Option (Bool × OrdinancePropertyHolder) :=
  match OrdinancePropertyHolder.removeLoop dwProperty self.properties fuel 0 with
  | none => none
  | some (result, properties) => some (result, { self with properties := properties })

/-- The specification's removal: the sequence without its first record of
the given id. -/
def specRemoveFirst (dwProperty : Nat) : List cSCBaseProperty → List cSCBaseProperty
  | [] => []
  | property :: rest =>
      if property.propertyID = dwProperty then rest
      else property :: specRemoveFirst dwProperty rest

/-- The specification's decoding of `n` records one after the other: the
records in the order read and the stream left, or `none` when one of them
fails to decode. -/
def specDecodeRecords : Nat → cIGZIStream → Option (List cSCBaseProperty × cIGZIStream)
  | 0, stream => some ([], stream)
  | n + 1, stream =>
      match cSCBaseProperty.default.Read stream with
      | (false, _, _) => none
      | (true, prop, stream1) =>
          match specDecodeRecords n stream1 with
          | none => none
          | some (props, stream2) => some (prop :: props, stream2)

/-- A sample input stream that opens with the version `2`. -/
def sampleBadVersionStream : cIGZIStream :=
  ⟨0, [Field.uint32 2, Field.uint32 7, Field.gzstr "x"]⟩

/-- A sample input stream holding a bag of two valid records, followed by
one more field. -/
def sampleBagStream : cIGZIStream :=
  ⟨0, [Field.uint32 1, Field.uint32 2,
    Field.uint32 10, Field.typeTag 1, Field.uint32 5,
    Field.uint32 11, Field.typeTag 2, Field.sint32 (-3),
    Field.byte 1]⟩

/-- A sample input stream announcing two records, the second of which has an
unknown type tag. -/
def sampleBrokenBagStream : cIGZIStream :=
  ⟨0, [Field.uint32 1, Field.uint32 2,
    Field.uint32 10, Field.typeTag 1, Field.uint32 5,
    Field.uint32 11, Field.typeTag 9, Field.sint32 (-3)]⟩

/-- A sample input stream whose count field is missing. -/
def sampleNoCountStream : cIGZIStream := ⟨0, [Field.uint32 1]⟩

/-- The id of the mayor rating effect, which the sample effects do not
hold. -/
def mayorRatingID : Nat := 0xAA5B8407

/-- The id of the crime effect, the third record of the sample effects. -/
def crimeEffectID : Nat := 0x28ED0380

/-! ## Writing a field sequence -/

/-- The fields of a list written to the stream by one call each, in order,
up to the first call that fails: the result of the last call made and the
stream afterwards. -/
def cIGZOStream.putAll : cIGZOStream → List Field → Bool × cIGZOStream
  | stream, [] => (true, stream)
  | stream, f :: fs => andThen (stream.put f) fun stream1 => stream1.putAll fs

/-- What a `Write` method does on a stream that writes the sequence `fs`:
nothing on a stream in error, and otherwise one field after the other up
to the first write that fails: the stream then holds the fields before the
one refused, has met one failed write, and is not written to any further,
whatever room it has again. -/
def specWrite (fs : List Field) (stream : cIGZOStream) : Bool × cIGZOStream :=
  if stream.error ≠ 0 then (false, stream)
  else if fs.length ≤ stream.room then (true, stream.append fs)
  else
    (false,
      { stream with
        room := stream.later.headD 0
        written := stream.written ++ fs.take stream.room
        later := stream.later.tail })

/-- The result `r` of writing to a stream, returned by a `Write` method
that leaves its object `self` as it is. -/
def withObject {σ : Type} (self : σ) (r : Bool × cIGZOStream) : Bool × σ × cIGZOStream :=
  (r.1, self, r.2)

/-- The layout of a generic ordinance record, field by field; `bag` is the
nested record of the property bag. -/
def specBaseLayout (clsid : Nat) (name description : String)
    (enactmentIncome retracmentIncome retracmentIncomeAgain monthlyConstantIncome
      monthlyAdjustedIncome : Int)
    (monthlyIncomeFactor : F32) (isIncomeOrdinance : Nat) (bag : List Field)
    (initialized available on_ enabled : Nat) : List Field :=
  [Field.uint32 1, Field.uint32 clsid, Field.gzstr name, Field.gzstr description,
    Field.sint64 enactmentIncome, Field.sint64 retracmentIncome,
    Field.sint64 retracmentIncomeAgain, Field.sint64 monthlyConstantIncome,
    Field.sint64 monthlyAdjustedIncome, Field.float32 monthlyIncomeFactor,
    Field.byte isIncomeOrdinance]
  ++ bag
  ++ [Field.byte initialized, Field.byte available, Field.byte on_, Field.byte enabled]

/-- The layout of a lottery record, field by field; `bag` is the nested
record of the property bag. -/
def specLotteryLayout (clsid : Nat) (name description : String)
    (enactmentIncome retracmentIncome retracmentIncomeAgain monthlyConstantIncome
      monthlyAdjustedIncome : Int)
    (low med high : F32) (isIncomeOrdinance : Nat) (bag : List Field)
    (initialized available on_ enabled : Nat) : List Field :=
  [Field.uint32 1, Field.uint32 clsid, Field.gzstr name, Field.gzstr description,
    Field.sint64 enactmentIncome, Field.sint64 retracmentIncome,
    Field.sint64 retracmentIncomeAgain, Field.sint64 monthlyConstantIncome,
    Field.sint64 monthlyAdjustedIncome, Field.float32 low, Field.float32 med,
    Field.float32 high, Field.byte isIncomeOrdinance]
  ++ bag
  ++ [Field.byte initialized, Field.byte available, Field.byte on_, Field.byte enabled]

/-- The byte value of a flag: `static_cast<uint8_t>(value)`. -/
def flagByte (value : Bool) : Nat := if value then 1 else 0

/-! ## OrdinanceBase: life cycle -/

/-- The city of the host, as far as the ordinance calls it: each getter
returns an object or null. -/
structure cISC4City where
  GetResidentialSimulator : Option cISC4ResidentialSimulator
  GetSimulator : Option cISC4Simulator
  GetDemandSimulator : Option cISC4DemandSimulator

/-- The class `StringResourceManager`, whose source is not among the files of
the ordinance: its lookup `GetLocalizedString(key, &out)` is taken as it
comes, `none` standing for the result `false`. -/
structure StringResourceManager where
  GetLocalizedString : StringResourceKey → Option String

/-- Modelled from the spec: the host call `a->IsEqual(b, caseSensitive)` on
strings. -/
def cIGZString.IsEqual (a b : String) (caseSensitive : Bool) : Bool :=
  if caseSensitive then decide (a = b) else decide (a.toLower = b.toLower)

/-- The function `OrdinanceBase::Init`. -/
def OrdinanceBase.Init (self : OrdinanceBase) : Bool × OrdinanceBase :=
  let self := if !self.haveDeserialized then { self with enabled := true } else self
  (true, self)

/-- The function `OrdinanceBase::Shutdown`. -/
def OrdinanceBase.Shutdown (self : OrdinanceBase) : Bool × OrdinanceBase :=
  let self := { self with enabled := false }
  (true, self)

/-- The function `OrdinanceBase::LoadLocalizedStringResources`. -/
def OrdinanceBase.LoadLocalizedStringResources (self : OrdinanceBase)
    (resources : StringResourceManager) : OrdinanceBase :=
  match resources.GetLocalizedString self.nameKey with
  | none => self
  | some localizedName =>
      match resources.GetLocalizedString self.descriptionKey with
      | none => self
      | some localizedDescription =>
          let self :=
            if localizedName.length > 0 ∧ cIGZString.IsEqual localizedName self.name false = false
            then { self with name := localizedName } else self
          let self :=
            if localizedDescription.length > 0
              ∧ cIGZString.IsEqual localizedDescription self.description false = false
            then { self with description := localizedDescription } else self
          self

/-- The function `OrdinanceBase::PostCityInit`; a null `pCity` is `none`. -/
def OrdinanceBase.PostCityInit (self : OrdinanceBase) (resources : StringResourceManager)
    (pCity : Option cISC4City) : Bool × OrdinanceBase :=
  let result := false
  match pCity with
  | none => (result, self)
  | some city =>
      let self := { self with pResidentialSimulator := city.GetResidentialSimulator }
      let self := { self with pSimulator := city.GetSimulator }
      if self.pResidentialSimulator.isSome ∧ self.pSimulator.isSome then
        match self.Init with
        | (true, self) => (true, self.LoadLocalizedStringResources resources)
        | (false, self) => (false, self)
      else (result, self)

/-- The function `OrdinanceBase::PreCityShutdown`; the argument is not used. -/
def OrdinanceBase.PreCityShutdown (self : OrdinanceBase) (_pCity : Option cISC4City) :
    Bool × OrdinanceBase :=
  match self.Shutdown with
  | (result, self) =>
      let self := { self with pResidentialSimulator := none }
      let self := { self with pSimulator := none }
      (result, self)

/-- The function `OrdinanceBase::GetYearFirstAvailable`. -/
def OrdinanceBase.GetYearFirstAvailable (_self : OrdinanceBase) : Nat := 0

/-- The function `OrdinanceBase::CheckConditions`. -/
def OrdinanceBase.CheckConditions (self : OrdinanceBase) : Bool :=
  let result := false
  if self.enabled then
    match self.pSimulator with
    | none => result
    | some pSimulator =>
        match pSimulator.GetSimDate with
        | none => result
        | some simDate => decide (simDate.Year ≥ self.GetYearFirstAvailable)
  else result

/-- The function `OrdinanceBase::GetMonthlyAdjustedIncome`. -/
def OrdinanceBase.GetMonthlyAdjustedIncome (self : OrdinanceBase) : Int :=
  self.monthlyAdjustedIncome

/-- The function `OrdinanceBase::Simulate` on an object whose dynamic type is
`OrdinanceBase`; `none` when the call of `GetCurrentMonthlyIncome` has no
defined result. -/
def OrdinanceBase.Simulate (self : OrdinanceBase) : Option (Bool × OrdinanceBase) :=
  match self.GetCurrentMonthlyIncome with
  | none => none
  | some income => some (true, { self with monthlyAdjustedIncome := income })

/-! ## CityLotteryOrdinance: life cycle -/

/-- The function `CityLotteryOrdinance::PostCityInit`; `none` when `pCity` is
dereferenced while null. -/
def CityLotteryOrdinance.PostCityInit (self : CityLotteryOrdinance)
    (resources : StringResourceManager) (pCity : Option cISC4City) :
    Option (Bool × CityLotteryOrdinance) :=
  match self.toOrdinanceBase.PostCityInit resources pCity with
  | (false, base) => some (false, { self with toOrdinanceBase := base })
  | (true, base) =>
      let self := { self with toOrdinanceBase := base }
      match pCity with
      | none => none
      | some city =>
          let self := { self with pDemandSimulator := city.GetDemandSimulator }
          some (self.pDemandSimulator.isSome, self)

/-- The function `CityLotteryOrdinance::PreCityShutdown`. -/
def CityLotteryOrdinance.PreCityShutdown (self : CityLotteryOrdinance)
    (pCity : Option cISC4City) : Bool × CityLotteryOrdinance :=
  match self.toOrdinanceBase.PreCityShutdown pCity with
  | (result, base) =>
      let self := { self with toOrdinanceBase := base }
      let self := { self with pDemandSimulator := none }
      (result, self)

/-- The function `OrdinanceBase::Simulate` on a `CityLotteryOrdinance`, which
does not override it: the virtual call of `GetCurrentMonthlyIncome`
reaches the override of the lottery. -/
def CityLotteryOrdinance.Simulate (self : CityLotteryOrdinance) :
    Option (Bool × CityLotteryOrdinance) :=
  match self.GetCurrentMonthlyIncome with
  | none => none
  | some income => some (true, { self with monthlyAdjustedIncome := income })

/-- A sample city that supplies the three simulators; the date is in the
year 2000 and the population is 1200. -/
def sampleCity : cISC4City :=
  ⟨some ⟨1200⟩, some ⟨some ⟨2000⟩⟩, some sampleDemandSimulator⟩

/-- A sample city that supplies a residential simulator and nothing else. -/
def sampleCityNoSimulator : cISC4City := ⟨some ⟨1200⟩, none, none⟩

/-- A sample city that supplies no demand simulator. -/
def sampleCityNoDemand : cISC4City := ⟨some ⟨1200⟩, some ⟨some ⟨2000⟩⟩, none⟩

/-- A string resource lookup that finds nothing. -/
def sampleResources : StringResourceManager := ⟨fun _ => none⟩

/-! ## Settings -/

/-- The `float` comparison `a < b`. -/
def F32.lt (a b : F32) : Bool := Fp.lt a.toFp b.toFp

/-- The C++ comparison `a == b` on floating-point values (false as soon as
one side is NaN). -/
def Fp.eq : Fp → Fp → Bool
  | Fp.fin m1 e1, Fp.fin m2 e2 =>
      let e := min e1 e2
      decide (shl m1 (e1 - e).toNat = shl m2 (e2 - e).toNat)
  | Fp.inf n1, Fp.inf n2 => decide (n1 = n2)
  | _, _ => false

/-- The `float` comparison `a != b`. -/
def F32.ne (a b : F32) : Bool := !Fp.eq a.toFp b.toFp

/-- The `float` literal `0.01f`. -/
def F32.lit_0_01 : F32 := ⟨0x3C23D70A⟩

/-- The `float` literal `1.0f`. -/
def F32.lit_1 : F32 := ⟨0x3F800000⟩

/-- The `float` literal `2.0f`. -/
def F32.lit_2 : F32 := ⟨0x40000000⟩

/-- The `float` literal `3.0f`. -/
def F32.lit_3 : F32 := ⟨0x40400000⟩

/-- The `int` `100` converted to `float`. -/
def F32.lit_100 : F32 := ⟨0x42C80000⟩

/-- The `int` `200` converted to `float`. -/
def F32.lit_200 : F32 := ⟨0x43480000⟩

/-- What the settings code throws: a `std::runtime_error` whose message is a
literal, a `std::runtime_error` whose message is printed by `snprintf` (kept
as the format and its two arguments), the exception of a lookup of the
property tree that finds no usable value, or the exception of the parser
of the file. -/
inductive SettingsError where
  | runtime_error (message : String) : SettingsError
  | runtime_error_format (format name : String) (arg : F32) : SettingsError
  | ptree_error (key : String) : SettingsError
  | ini_parser_error : SettingsError
deriving DecidableEq, Repr

/-- The function `CheckValueRange` of `Settings.cpp`: the value returned, or
the exception thrown. -/
def CheckValueRange (value min max : F32) (name : String) : Except SettingsError F32 :=
  if F32.lt value min then
    Except.error (SettingsError.runtime_error_format "%s is less than %f." name min)
  else if F32.gt value max then
    Except.error (SettingsError.runtime_error_format "%s is less than %f." name min)
  else Except.ok value

/-- Modelled from the spec: the property tree read from the settings file
(a class of the Boost library, not part of the repository), as far as
`Load` uses it: the lookups `tree.get<int64_t>(key)` and
`tree.get<float>(key)`, where `none` stands for the exception thrown when
the key is missing or its text does not convert. -/
structure ptree where
  get_int64 : String → Option Int
  get_float : String → Option F32

/-- What opening and parsing the settings file gives: a stream that cannot be
opened, a text that is no INI file, or a property tree. -/
inductive SettingsFile where
  | unreadable : SettingsFile
  | malformed : SettingsFile
  | parsed (tree : ptree) : SettingsFile

/-- The data members of `Settings`. -/
structure Settings where
  monthlyConstantIncome : Int
  residentialLowWealthFactor : F32
  residentialMedWealthFactor : F32
  residentialHighWealthFactor : F32
  cityLotteryOrdinanceEffects : OrdinancePropertyHolder

/-- The function `OrdinancePropertyHolder::RemoveAllProperties`. -/
def OrdinancePropertyHolder.RemoveAllProperties (self : OrdinancePropertyHolder) :
    Bool × OrdinancePropertyHolder :=
  (true, { self with properties := [] })

/-- A lookup `tree.get<T>(key)` of `Load` followed by the rest of the
function: when the lookup throws, the exception leaves `Load` with the
object as it is at that point. -/
def getThen {α : Type} (r : Option α) (key : String) (self : Settings)
    (rest : α → Option SettingsError × Settings) : Option SettingsError × Settings :=
  match r with
  | none => (some (SettingsError.ptree_error key), self)
  | some v => rest v

/-- A call of `CheckValueRange` in `Load` followed by the rest of the
function: when the check throws, the exception leaves `Load` with the object
as it is at that point. -/
def checkThen (r : Except SettingsError F32) (self : Settings)
    (rest : F32 → Option SettingsError × Settings) : Option SettingsError × Settings :=
  match r with
  | Except.error e => (some e, self)
  | Except.ok v => rest v

/-- The function `Settings::Load`: the exception that leaves it, if any, and
the object afterwards. -/
def Settings.Load (self : Settings) (file : SettingsFile) : Option SettingsError × Settings :=
  match file with
  | SettingsFile.unreadable =>
      (some (SettingsError.runtime_error "Failed top open the settings file."), self)
  | SettingsFile.malformed => (some SettingsError.ini_parser_error, self)
  | SettingsFile.parsed tree =>
  getThen (tree.get_int64 "CityLotteryOrdinance.MonthlyConstantIncome")
    "CityLotteryOrdinance.MonthlyConstantIncome" self fun v =>
  let self := { self with monthlyConstantIncome := v }
  getThen (tree.get_float "CityLotteryOrdinance.R$IncomeFactor")
    "CityLotteryOrdinance.R$IncomeFactor" self fun v =>
  let self := { self with residentialLowWealthFactor := v }
  getThen (tree.get_float "CityLotteryOrdinance.R$$IncomeFactor")
    "CityLotteryOrdinance.R$$IncomeFactor" self fun v =>
  let self := { self with residentialMedWealthFactor := v }
  getThen (tree.get_float "CityLotteryOrdinance.R$$$IncomeFactor")
    "CityLotteryOrdinance.R$$$IncomeFactor" self fun v =>
  let self := { self with residentialHighWealthFactor := v }
  getThen (tree.get_float "CityLotteryOrdinance.CrimeEffectMultiplier")
    "CityLotteryOrdinance.CrimeEffectMultiplier" self fun v =>
  checkThen (CheckValueRange v F32.lit_0_01 F32.lit_2 "CrimeEffectMultiplier") self
    fun crimeEffectMultiplier =>
  getThen (tree.get_float "CityLotteryOrdinance.Cs$DemandEffect")
    "CityLotteryOrdinance.Cs$DemandEffect" self fun v =>
  checkThen (CheckValueRange v F32.lit_0_01 F32.lit_2 "Cs$DemandEffect") self
    fun cs1Demandffect =>
  getThen (tree.get_float "CityLotteryOrdinance.SchoolEQBoostEffect")
    "CityLotteryOrdinance.SchoolEQBoostEffect" self fun v =>
  checkThen (CheckValueRange v F32.zero F32.lit_200 "SchoolEQBoostEffect") self
    fun schoolEQBoostEffect =>
  let self :=
    { self with
      cityLotteryOrdinanceEffects := self.cityLotteryOrdinanceEffects.RemoveAllProperties.2 }
  let self :=
    if F32.ne crimeEffectMultiplier F32.lit_1 then
      { self with
        cityLotteryOrdinanceEffects :=
          (self.cityLotteryOrdinanceEffects.AddProperty_float 0x28ed0380
            crimeEffectMultiplier).2 }
    else self
  let self :=
    if F32.ne cs1Demandffect F32.lit_1 then
      { self with
        cityLotteryOrdinanceEffects :=
          (self.cityLotteryOrdinanceEffects.AddProperty_float 0x2a653110 cs1Demandffect).2 }
    else self
  let self :=
    if F32.ne schoolEQBoostEffect F32.lit_100 then
      { self with
        cityLotteryOrdinanceEffects :=
          (self.cityLotteryOrdinanceEffects.AddProperty_float 0xa92d9d7a
            schoolEQBoostEffect).2 }
    else self
  (none, self)

/-- The order `a ≤ b` of two floating-point values, none of them NaN:
`-inf` is least, `+inf` is greatest, and two finite numbers compare as the
numbers they are. -/
def specLe : Fp → Fp → Bool
  | Fp.nan, _ => false
  | _, Fp.nan => false
  | Fp.inf true, _ => true
  | Fp.inf false, Fp.inf false => true
  | Fp.inf false, _ => false
  | Fp.fin _ _, Fp.inf neg => !neg
  | Fp.fin m1 e1, Fp.fin m2 e2 =>
      let e := min e1 e2
      decide (shl m1 (e1 - e).toNat ≤ shl m2 (e2 - e).toNat)

/-- The condition `min ≤ value ≤ max` on `float` values. -/
def specInRange (value min max : F32) : Bool :=
  specLe min.toFp value.toFp && specLe value.toFp max.toFp

/-- The settings a fresh `Settings` object holds. -/
def Settings.default : Settings :=
  { monthlyConstantIncome := 500
    residentialLowWealthFactor := F32.lit_0_05
    residentialMedWealthFactor := F32.lit_0_03
    residentialHighWealthFactor := F32.lit_0_01
    cityLotteryOrdinanceEffects := ⟨0, []⟩ }

/-- A sample property tree: the keys of the settings file with the given
values of the three effects. -/
def sampleTree (crime cs school : F32) : ptree :=
  { get_int64 := fun key =>
      if key = "CityLotteryOrdinance.MonthlyConstantIncome" then some 750 else none
    get_float := fun key =>
      if key = "CityLotteryOrdinance.R$IncomeFactor" then some F32.lit_0_05
      else if key = "CityLotteryOrdinance.R$$IncomeFactor" then some F32.lit_0_03
      else if key = "CityLotteryOrdinance.R$$$IncomeFactor" then some F32.lit_0_01
      else if key = "CityLotteryOrdinance.CrimeEffectMultiplier" then some crime
      else if key = "CityLotteryOrdinance.Cs$DemandEffect" then some cs
      else if key = "CityLotteryOrdinance.SchoolEQBoostEffect" then some school
      else none }

/-! ## Construction, assignment and the remaining setters -/

/-- The `float` literal `102.0f`. -/
def F32.lit_102 : F32 := ⟨0x42CC0000⟩

/-- The `float` literal `1.01f`. -/
def F32.lit_1_01 : F32 := ⟨0x3F8147AE⟩

/-- The `float` literal `1.10f`. -/
def F32.lit_1_10 : F32 := ⟨0x3F8CCCCD⟩

/-- The default constructor `OrdinancePropertyHolder()`. -/
def OrdinancePropertyHolder.construct : OrdinancePropertyHolder :=
  { refCount := 0, properties := [] }

/-- The copy constructor `OrdinancePropertyHolder(const OrdinancePropertyHolder&)`
(the move constructor builds the same object). -/
def OrdinancePropertyHolder.copy (other : OrdinancePropertyHolder) : OrdinancePropertyHolder :=
  { refCount := 0, properties := other.properties }

/-- The assignment `OrdinancePropertyHolder::operator=` (copy and move alike);
`sameObject` is the outcome of the test `this == &other`. -/
def OrdinancePropertyHolder.operator_assign (self other : OrdinancePropertyHolder)
    (sameObject : Bool) : OrdinancePropertyHolder :=
  if sameObject then self
  else { self with properties := other.properties }

/-- The constructor of `OrdinanceBase` that takes the effects of the ordinance. -/
def OrdinanceBase.construct (clsid : Nat) (name : String) (nameKey : StringResourceKey)
    (description : String) (descriptionKey : StringResourceKey)
    (enactmentIncome retracmentIncome monthlyConstantIncome : Int)
    (monthlyIncomeFactor : F32) (isIncomeOrdinance : Bool)
    (properties : OrdinancePropertyHolder) : OrdinanceBase :=
  { clsid := clsid
    refCount := 0
    name := name
    nameKey := nameKey
    description := description
    descriptionKey := descriptionKey
    enactmentIncome := enactmentIncome
    retracmentIncome := retracmentIncome
    monthlyConstantIncome := monthlyConstantIncome
    monthlyIncomeFactor := monthlyIncomeFactor
    isIncomeOrdinance := isIncomeOrdinance
    monthlyAdjustedIncome := 0
    initialized := false
    available := false
    on_ := false
    enabled := false
    haveDeserialized := false
    pResidentialSimulator := none
    pSimulator := none
    miscProperties := OrdinancePropertyHolder.copy properties }

/-- The copy assignment `OrdinanceBase::operator=(const OrdinanceBase&)`;
`sameObject` is the outcome of the test `this == &other`.  The statement
`name = name;` of the source assigns the member to itself. -/
def OrdinanceBase.operator_assign (self other : OrdinanceBase) (sameObject : Bool) :
    OrdinanceBase :=
  if sameObject then self
  else
    { self with
      clsid := other.clsid
      refCount := 0
      name := self.name
      nameKey := other.nameKey
      description := other.description
      descriptionKey := other.descriptionKey
      enactmentIncome := other.enactmentIncome
      retracmentIncome := other.retracmentIncome
      monthlyConstantIncome := other.monthlyConstantIncome
      monthlyIncomeFactor := other.monthlyIncomeFactor
      isIncomeOrdinance := other.isIncomeOrdinance
      monthlyAdjustedIncome := other.monthlyAdjustedIncome
      initialized := other.initialized
      available := other.available
      on_ := other.on_
      enabled := other.enabled
      haveDeserialized := other.haveDeserialized
      pResidentialSimulator := other.pResidentialSimulator
      pSimulator := other.pSimulator
      miscProperties := self.miscProperties.operator_assign other.miscProperties false }

/-- The copy constructor `OrdinanceBase(const OrdinanceBase&)`. -/
def OrdinanceBase.copy (other : OrdinanceBase) : OrdinanceBase :=
  { clsid := other.clsid
    refCount := 0
    name := other.name
    nameKey := other.nameKey
    description := other.description
    descriptionKey := other.descriptionKey
    enactmentIncome := other.enactmentIncome
    retracmentIncome := other.retracmentIncome
    monthlyConstantIncome := other.monthlyConstantIncome
    monthlyIncomeFactor := other.monthlyIncomeFactor
    isIncomeOrdinance := other.isIncomeOrdinance
    monthlyAdjustedIncome := other.monthlyAdjustedIncome
    initialized := other.initialized
    available := other.available
    on_ := other.on_
    enabled := other.enabled
    haveDeserialized := other.haveDeserialized
    pResidentialSimulator := other.pResidentialSimulator
    pSimulator := other.pSimulator
    miscProperties := OrdinancePropertyHolder.copy other.miscProperties }

/-- The function `OrdinanceBase::IsEnabled`. -/
def OrdinanceBase.IsEnabled (self : OrdinanceBase) : Bool := self.enabled

/-- The function `OrdinanceBase::SetEnabled`: the value returned and the object
afterwards. -/
def OrdinanceBase.SetEnabled (self : OrdinanceBase) (isEnabled : Bool) :
    Bool × OrdinanceBase :=
  let self := { self with enabled := isEnabled }
  (true, self)

/-- The function `OrdinanceBase::ForceAvailable`. -/
def OrdinanceBase.ForceAvailable (self : OrdinanceBase) (isAvailable : Bool) :
    Bool × OrdinanceBase :=
  self.SetAvailable isAvailable

/-- The function `OrdinanceBase::ForceOn`. -/
def OrdinanceBase.ForceOn (self : OrdinanceBase) (isOn : Bool) : Bool × OrdinanceBase :=
  self.SetOn isOn

/-- The function `OrdinanceBase::ForceEnabled`. -/
def OrdinanceBase.ForceEnabled (self : OrdinanceBase) (isEnabled : Bool) :
    Bool × OrdinanceBase :=
  self.SetEnabled isEnabled

/-- The function `OrdinanceBase::ForceMonthlyAdjustedIncome`: the value returned and the
object afterwards.  Its one assignment, `monthlyAdjustedIncome =
monthlyAdjustedIncome;`, names the parameter on both sides, the parameter
hiding the member of the same name: the parameter is assigned to itself
and no member is written. -/
def OrdinanceBase.ForceMonthlyAdjustedIncome (self : OrdinanceBase)
    (monthlyAdjustedIncome : Int) : Bool × OrdinanceBase :=
  let parameter : Int := monthlyAdjustedIncome
  let _parameter : Int := parameter
  (true, self)

/-! ## CityLotteryOrdinance: construction and settings -/

/-- The constant `kCityLotteryOrdianceCLSID`. -/
def kCityLotteryOrdianceCLSID : Nat := 0xe95f7779

/-- The function `CreateDefaultOrdinanceEffects` of `CityLotteryOrdinance.cpp`. -/
def CreateDefaultOrdinanceEffects : OrdinancePropertyHolder :=
  let properties := OrdinancePropertyHolder.construct
  let properties := (properties.AddProperty_float 0xA92D9D7A F32.lit_102).2
  let properties := (properties.AddProperty_float 0x2a653110 F32.lit_1_01).2
  let properties := (properties.AddProperty_float 0x28ED0380 F32.lit_1_10).2
  OrdinancePropertyHolder.copy properties

/-- The constructor `CityLotteryOrdinance()`. -/
def CityLotteryOrdinance.construct : CityLotteryOrdinance :=
  { toOrdinanceBase :=
      OrdinanceBase.construct kCityLotteryOrdianceCLSID "City-wide Lottery Program"
        ⟨0xE8D16EC8, 0xE34CDA8D⟩
        ("A city-wide lottery program. Provides a slight boost to EQ and Cs§ demand at "
          ++ "the cost of increased crime. "
          ++ "The monthly income factor is based on the city's residential population.")
        ⟨0xE8D16EC8, 0x39385372⟩ 0 0 500 F32.zero true CreateDefaultOrdinanceEffects
    pDemandSimulator := none
    residentialLowWealthIncomeFactor := F32.lit_0_05
    residentialMedWealthIncomeFactor := F32.lit_0_03
    residentialHighWealthIncomeFactor := F32.lit_0_01 }

/-- The interface `ISettings`: what its five getters return. -/
structure ISettings where
  MonthlyConstantIncome : Int
  ResidentialLowWealthFactor : F32
  ResidentialMedWealthFactor : F32
  ResidentialHighWealthFactor : F32
  OrdinanceEffects : OrdinancePropertyHolder

/-- The class `Settings` seen through `ISettings`: the getters of `Settings.cpp`
return the members, `OrdinanceEffects()` returning a copy of the bag. -/
def Settings.toISettings (self : Settings) : ISettings :=
  { MonthlyConstantIncome := self.monthlyConstantIncome
    ResidentialLowWealthFactor := self.residentialLowWealthFactor
    ResidentialMedWealthFactor := self.residentialMedWealthFactor
    ResidentialHighWealthFactor := self.residentialHighWealthFactor
    OrdinanceEffects := OrdinancePropertyHolder.copy self.cityLotteryOrdinanceEffects }

/-- The function `CityLotteryOrdinance::UpdateOrdinanceData`. -/
def CityLotteryOrdinance.UpdateOrdinanceData (self : CityLotteryOrdinance)
    (settings : ISettings) : CityLotteryOrdinance :=
  let self := { self with monthlyConstantIncome := settings.MonthlyConstantIncome }
  let self :=
    { self with residentialLowWealthIncomeFactor := settings.ResidentialLowWealthFactor }
  let self :=
    { self with residentialMedWealthIncomeFactor := settings.ResidentialMedWealthFactor }
  let self :=
    { self with residentialHighWealthIncomeFactor := settings.ResidentialHighWealthFactor }
  let self :=
    { self with
      miscProperties := self.miscProperties.operator_assign settings.OrdinanceEffects false }
  self

/-! ## Sequences of calls -/

/-- One call of an operation of the ordinance, with its arguments. -/
inductive Call where
  | PostCityInit (resources : StringResourceManager) (pCity : Option cISC4City) : Call
  | PreCityShutdown (pCity : Option cISC4City) : Call
  | Simulate : Call
  | SetAvailable (isAvailable : Bool) : Call
  | SetOn (isOn : Bool) : Call
  | SetEnabled (isEnabled : Bool) : Call
  | ForceAvailable (isAvailable : Bool) : Call
  | ForceOn (isOn : Bool) : Call
  | ForceEnabled (isEnabled : Bool) : Call
  | ForceMonthlyAdjustedIncome (monthlyAdjustedIncome : Int) : Call
  | Write (stream : cIGZOStream) : Call

/-- The object after one call on an `OrdinanceBase`; `none` when the call has
no defined result. -/
def OrdinanceBase.call (self : OrdinanceBase) : Call → Option OrdinanceBase
  | Call.PostCityInit resources pCity => some (self.PostCityInit resources pCity).2
  | Call.PreCityShutdown pCity => some (self.PreCityShutdown pCity).2
  | Call.Simulate => self.Simulate.map Prod.snd
  | Call.SetAvailable isAvailable => some (self.SetAvailable isAvailable).2
  | Call.SetOn isOn => some (self.SetOn isOn).2
  | Call.SetEnabled isEnabled => some (self.SetEnabled isEnabled).2
  | Call.ForceAvailable isAvailable => some (self.ForceAvailable isAvailable).2
  | Call.ForceOn isOn => some (self.ForceOn isOn).2
  | Call.ForceEnabled isEnabled => some (self.ForceEnabled isEnabled).2
  | Call.ForceMonthlyAdjustedIncome monthlyAdjustedIncome =>
      some (self.ForceMonthlyAdjustedIncome monthlyAdjustedIncome).2
  | Call.Write stream => some (self.Write stream).2.1

/-- The object after a sequence of calls on an `OrdinanceBase`. -/
def OrdinanceBase.calls (self : OrdinanceBase) : List Call → Option OrdinanceBase
  | [] => some self
  | c :: rest =>
      match self.call c with
      | none => none
      | some next => next.calls rest

/-- The object after one call on a `CityLotteryOrdinance`: the overrides of the
lottery where it has them, the inherited function otherwise. -/
def CityLotteryOrdinance.call (self : CityLotteryOrdinance) :
    Call → Option CityLotteryOrdinance
  | Call.PostCityInit resources pCity => (self.PostCityInit resources pCity).map Prod.snd
  | Call.PreCityShutdown pCity => some (self.PreCityShutdown pCity).2
  | Call.Simulate => self.Simulate.map Prod.snd
  | Call.Write stream => some (self.Write stream).2.1
  | c => (self.toOrdinanceBase.call c).map fun base => { self with toOrdinanceBase := base }

/-- The object after a sequence of calls on a `CityLotteryOrdinance`. -/
def CityLotteryOrdinance.calls (self : CityLotteryOrdinance) :
    List Call → Option CityLotteryOrdinance
  | [] => some self
  | c :: rest =>
      match self.call c with
      | none => none
      | some next => next.calls rest

/-- A property tree that has the income and the three factors, and no key of
an effect. -/
def sampleTreeNoEffects : ptree :=
  { get_int64 := fun key =>
      if key = "CityLotteryOrdinance.MonthlyConstantIncome" then some 750 else none
    get_float := fun key =>
      if key = "CityLotteryOrdinance.R$IncomeFactor" then some F32.lit_1
      else if key = "CityLotteryOrdinance.R$$IncomeFactor" then some F32.lit_2
      else if key = "CityLotteryOrdinance.R$$$IncomeFactor" then some F32.lit_3
      else none }

/-- A sample settings object whose bag holds one record. -/
def sampleSettings : Settings :=
  { monthlyConstantIncome := 900
    residentialLowWealthFactor := F32.lit_0_03
    residentialMedWealthFactor := F32.lit_0_01
    residentialHighWealthFactor := F32.lit_0_05
    cityLotteryOrdinanceEffects := ⟨4, [⟨0x28ED0380, cIGZVariant.Float32 F32.lit_2⟩]⟩ }

/-! ## Settings: the effects of a loaded file -/

/-- The records the effects bag is to hold for the three configured values:
the crime record unless the multiplier is `1.0`, the Cs$ demand record
unless the effect is `1.0`, the school record unless the boost is `100`. -/
def specEffects (crime cs school : F32) : List cSCBaseProperty :=
  (if F32.ne crime F32.lit_1 then [⟨0x28ed0380, cIGZVariant.Float32 crime⟩] else [])
  ++ (if F32.ne cs F32.lit_1 then [⟨0x2a653110, cIGZVariant.Float32 cs⟩] else [])
  ++ (if F32.ne school F32.lit_100 then [⟨0xa92d9d7a, cIGZVariant.Float32 school⟩] else [])

/-! ## Theorems: streams and the property holder -/

theorem put_ok (stream : cIGZOStream) (f : Field) (h : 0 < stream.room) :
    stream.put f = (true, stream.append [f]) := by
  unfold cIGZOStream.put cIGZOStream.append
  have h0 : stream.room ≠ 0 := by omega
  simp [h0]

theorem append_append (stream : cIGZOStream) (fs gs : List Field) :
    (stream.append fs).append gs = stream.append (fs ++ gs) := by
  simp [cIGZOStream.append, Nat.sub_sub]

theorem append_error (stream : cIGZOStream) (fs : List Field) :
    (stream.append fs).error = stream.error := rfl

theorem append_room (stream : cIGZOStream) (fs : List Field) :
    (stream.append fs).room = stream.room - fs.length := rfl

theorem record_fields_length (prop : cSCBaseProperty) : prop.fields.length = 3 := rfl

theorem recordFields_length (props : List cSCBaseProperty) :
    (recordFields props).length = 3 * props.length := by
  induction props with
  | nil => rfl
  | cons prop rest ih =>
      simp only [recordFields, List.length_append, List.length_cons, ih,
        record_fields_length]
      omega

theorem andThen_put_ok (stream : cIGZOStream) (f : Field)
    (rest : cIGZOStream → Bool × cIGZOStream) (h : 0 < stream.room) :
    andThen (stream.put f) rest = rest (stream.append [f]) := by
  simp [put_ok stream f h, andThen]

theorem record_Write_ok (prop : cSCBaseProperty) (stream : cIGZOStream)
    (herr : stream.error = 0) (hroom : 3 ≤ stream.room) :
    prop.Write stream = (true, stream.append prop.fields) := by
  obtain ⟨id, value⟩ := prop
  have h0 : stream.GetError = 0 := herr
  cases value <;>
  · simp only [cSCBaseProperty.Write, h0, ne_eq, not_true_eq_false, if_false,
      cIGZOStream.SetUint32, cIGZOStream.SetSint32, cIGZOStream.SetFloat32]
    rw [andThen_put_ok _ _ _ (by omega),
      andThen_put_ok _ _ _ (by simp only [append_room, List.length_singleton]; omega),
      put_ok _ _ (by simp only [append_room, List.length_singleton]; omega)]
    simp only [append_append, cSCBaseProperty.fields, List.cons_append, List.nil_append]

theorem put_error (stream : cIGZOStream) (f : Field) :
    (stream.put f).2.error = stream.error := by
  unfold cIGZOStream.put
  split <;> rfl

theorem andThen_congr (r : Bool × cIGZOStream) (f g : cIGZOStream → Bool × cIGZOStream)
    (h : r.1 = true → f r.2 = g r.2) : andThen r f = andThen r g := by
  unfold andThen
  by_cases hr : r.1 = true
  · simp only [hr, if_true, h hr]
  · simp only [hr, Bool.false_eq_true, if_false]

theorem andThen_error (r : Bool × cIGZOStream) (f : cIGZOStream → Bool × cIGZOStream)
    (h : ∀ stream1 : cIGZOStream, stream1.error = r.2.error → (f stream1).2.error = r.2.error) :
    (andThen r f).2.error = r.2.error := by
  unfold andThen
  split
  · exact h _ rfl
  · rfl

theorem putAll_error (fs : List Field) :
    ∀ stream : cIGZOStream, (stream.putAll fs).2.error = stream.error := by
  induction fs with
  | nil => intro stream; rfl
  | cons f fs ih =>
      intro stream
      simp only [cIGZOStream.putAll]
      rw [andThen_error, put_error]
      intro stream1 h1
      rw [ih, h1]

theorem andThen_assoc (r : Bool × cIGZOStream) (f g : cIGZOStream → Bool × cIGZOStream) :
    andThen (andThen r f) g = andThen r fun stream => andThen (f stream) g := by
  unfold andThen
  by_cases hr : r.1 = true
  · simp only [hr, if_true]
  · simp only [hr, Bool.false_eq_true, if_false]

theorem putAll_append (fs gs : List Field) :
    ∀ stream : cIGZOStream,
      stream.putAll (fs ++ gs) = andThen (stream.putAll fs) fun stream1 => stream1.putAll gs := by
  induction fs with
  | nil => intro stream; simp [cIGZOStream.putAll, andThen]
  | cons f fs ih =>
      intro stream
      rw [List.cons_append]
      simp only [cIGZOStream.putAll]
      simp only [ih, andThen_assoc]

theorem putAll_eq (fs : List Field) :
    ∀ stream : cIGZOStream,
      stream.putAll fs
        = if fs.length ≤ stream.room then (true, stream.append fs)
          else
            (false,
              { stream with
                room := stream.later.headD 0
                written := stream.written ++ fs.take stream.room
                later := stream.later.tail }) := by
  induction fs with
  | nil =>
      intro stream
      simp [cIGZOStream.putAll, cIGZOStream.append]
  | cons f fs ih =>
      intro stream
      obtain ⟨error, room, written, later⟩ := stream
      cases room with
      | zero => simp [cIGZOStream.putAll, cIGZOStream.put, andThen]
      | succ k =>
          simp only [cIGZOStream.putAll, cIGZOStream.put, andThen, ih, List.length_cons,
            Nat.add_one_ne_zero, if_false, if_true, Nat.add_sub_cancel,
            Nat.add_le_add_iff_right, List.take_succ_cons, cIGZOStream.append,
            Nat.add_sub_add_right, List.append_assoc, List.singleton_append]

theorem andThen_pure (r : Bool × cIGZOStream) :
    (andThen r fun stream => (true, stream)) = r := by
  obtain ⟨ok, stream⟩ := r
  cases ok <;> rfl

theorem withObject_andThen {σ : Type} (self : σ) (r : Bool × cIGZOStream)
    (g : cIGZOStream → Bool × cIGZOStream) :
    withObject self (andThen r g) = writeThen r self fun stream => withObject self (g stream) := by
  unfold andThen writeThen
  split <;> rfl

theorem withObject_true {σ : Type} (self : σ) (stream : cIGZOStream) :
    withObject self (true, stream) = (true, self, stream) := rfl

theorem writeThen_congr {σ : Type} (r : Bool × cIGZOStream) (self : σ)
    (f g : cIGZOStream → Bool × σ × cIGZOStream) (h : r.1 = true → f r.2 = g r.2) :
    writeThen r self f = writeThen r self g := by
  unfold writeThen
  by_cases hr : r.1 = true
  · simp only [hr, if_true, h hr]
  · simp only [hr, Bool.false_eq_true, if_false]

theorem writeThen_put_congr {σ : Type} (stream : cIGZOStream) (fld : Field) (self : σ)
    (f g : cIGZOStream → Bool × σ × cIGZOStream)
    (h : ∀ stream1 : cIGZOStream, stream1.error = stream.error → f stream1 = g stream1) :
    writeThen (stream.put fld) self f = writeThen (stream.put fld) self g :=
  writeThen_congr _ self f g (fun _ => h _ (put_error stream fld))

theorem record_Write_eq_putAll (prop : cSCBaseProperty) (stream : cIGZOStream)
    (herr : stream.error = 0) : prop.Write stream = stream.putAll prop.fields := by
  have h0 : stream.GetError = 0 := herr
  cases hv : prop.value <;>
    simp only [cSCBaseProperty.Write, h0, cSCBaseProperty.fields, cIGZOStream.putAll, hv,
      cIGZOStream.SetUint32, cIGZOStream.SetSint32, cIGZOStream.SetFloat32, andThen_pure,
      ne_eq, not_true_eq_false, if_false]

theorem writeLoop_eq_putAll (self : OrdinancePropertyHolder) (props : List cSCBaseProperty) :
    ∀ stream : cIGZOStream, stream.error = 0 →
      self.writeLoop props stream = withObject self (stream.putAll (recordFields props)) := by
  induction props with
  | nil => intro stream _; rfl
  | cons prop rest ih =>
      intro stream herr
      simp only [OrdinancePropertyHolder.writeLoop, recordFields, putAll_append,
        record_Write_eq_putAll prop stream herr, withObject_andThen]
      apply writeThen_congr
      intro _
      exact ih _ (by rw [putAll_error, herr])

theorem holder_Write_eq_putAll (self : OrdinancePropertyHolder) (stream : cIGZOStream)
    (herr : stream.error = 0) :
    self.Write stream = withObject self (stream.putAll self.fields) := by
  have h0 : stream.GetError = 0 := herr
  simp only [OrdinancePropertyHolder.Write, h0, ne_eq, not_true_eq_false, if_false,
    cIGZOStream.SetUint32, OrdinancePropertyHolder.fields, cIGZOStream.putAll,
    withObject_andThen]
  refine writeThen_put_congr _ _ _ _ _ (fun s1 h1 => ?_)
  refine writeThen_put_congr _ _ _ _ _ (fun s2 h2 => ?_)
  exact writeLoop_eq_putAll _ _ s2 (by rw [h2, h1, herr])

theorem specWrite_eq_putAll (fs : List Field) (stream : cIGZOStream) (herr : stream.error = 0) :
    specWrite fs stream = stream.putAll fs := by
  rw [putAll_eq]
  simp only [specWrite, herr, ne_eq, not_true_eq_false, if_false]

theorem holder_Write_eq_spec (self : OrdinancePropertyHolder) (stream : cIGZOStream) :
    self.Write stream = withObject self (specWrite self.fields stream) := by
  by_cases herr : stream.error = 0
  · rw [holder_Write_eq_putAll self stream herr, specWrite_eq_putAll _ _ herr]
  · have h0 : stream.GetError ≠ 0 := herr
    simp only [OrdinancePropertyHolder.Write, specWrite, withObject, h0, herr, ne_eq,
      not_false_eq_true, if_true]

theorem specWrite_ok (fs : List Field) (stream : cIGZOStream) (herr : stream.error = 0)
    (hroom : fs.length ≤ stream.room) : specWrite fs stream = (true, stream.append fs) := by
  simp only [specWrite, herr, hroom, ne_eq, not_true_eq_false, if_false, if_true]

theorem holder_fields_length_le (self : OrdinancePropertyHolder) :
    self.fields.length ≤ 2 + 3 * self.properties.length := by
  simp only [OrdinancePropertyHolder.fields, List.length_cons, recordFields_length,
    List.length_take]
  omega

theorem holder_Write_ok (self : OrdinancePropertyHolder)
    (stream : cIGZOStream) (herr : stream.error = 0)
    (hroom : 2 + 3 * self.properties.length ≤ stream.room) :
    self.Write stream = (true, self, stream.append self.fields) := by
  have hfl := holder_fields_length_le self
  rw [holder_Write_eq_spec, specWrite_ok _ _ herr (by omega)]
  rfl

theorem base_Write_eq_putAll (self : OrdinanceBase) (stream : cIGZOStream)
    (herr : stream.error = 0) :
    self.Write stream = withObject self (stream.putAll self.fields) := by
  have h0 : stream.GetError = 0 := herr
  have hw : ∀ s : cIGZOStream, s.error = 0 →
      self.miscProperties.Write s
        = withObject self.miscProperties (s.putAll self.miscProperties.fields) :=
    fun s h => holder_Write_eq_putAll _ s h
  simp only [OrdinanceBase.fields, boolByte, List.cons_append, List.nil_append,
    List.append_assoc]
  generalize self.miscProperties.fields = bag at hw ⊢
  simp only [OrdinanceBase.Write, h0, ne_eq, not_true_eq_false, if_false,
    cIGZOStream.SetUint32, cIGZOStream.SetSint64, cIGZOStream.SetFloat32,
    cIGZOStream.SetGZStr, cIGZOStream.SetVoid1, OrdinanceBase.WriteBool,
    cIGZOStream.putAll, putAll_append, withObject_andThen, withObject_true]
  refine writeThen_put_congr _ _ _ _ _ (fun s1 h1 => ?_)
  refine writeThen_put_congr _ _ _ _ _ (fun s2 h2 => ?_)
  refine writeThen_put_congr _ _ _ _ _ (fun s3 h3 => ?_)
  refine writeThen_put_congr _ _ _ _ _ (fun s4 h4 => ?_)
  refine writeThen_put_congr _ _ _ _ _ (fun s5 h5 => ?_)
  refine writeThen_put_congr _ _ _ _ _ (fun s6 h6 => ?_)
  refine writeThen_put_congr _ _ _ _ _ (fun s7 h7 => ?_)
  refine writeThen_put_congr _ _ _ _ _ (fun s8 h8 => ?_)
  refine writeThen_put_congr _ _ _ _ _ (fun s9 h9 => ?_)
  refine writeThen_put_congr _ _ _ _ _ (fun s10 h10 => ?_)
  refine writeThen_put_congr _ _ _ _ _ (fun s11 h11 => ?_)
  rw [hw s11 (by omega)]
  rcases s11.putAll bag with ⟨ok, s12⟩
  cases ok <;> rfl

theorem lottery_Write_eq_putAll (self : CityLotteryOrdinance) (stream : cIGZOStream)
    (herr : stream.error = 0) :
    self.Write stream = withObject self (stream.putAll self.fields) := by
  have h0 : stream.GetError = 0 := herr
  have hw : ∀ s : cIGZOStream, s.error = 0 →
      self.miscProperties.Write s
        = withObject self.miscProperties (s.putAll self.miscProperties.fields) :=
    fun s h => holder_Write_eq_putAll _ s h
  simp only [CityLotteryOrdinance.fields, boolByte, List.cons_append, List.nil_append,
    List.append_assoc]
  generalize self.miscProperties.fields = bag at hw ⊢
  simp only [CityLotteryOrdinance.Write, h0, ne_eq, not_true_eq_false, if_false,
    cIGZOStream.SetUint32, cIGZOStream.SetSint64, cIGZOStream.SetFloat32,
    cIGZOStream.SetGZStr, cIGZOStream.SetVoid1, OrdinanceBase.WriteBool,
    cIGZOStream.putAll, putAll_append, withObject_andThen, withObject_true]
  refine writeThen_put_congr _ _ _ _ _ (fun s1 h1 => ?_)
  refine writeThen_put_congr _ _ _ _ _ (fun s2 h2 => ?_)
  refine writeThen_put_congr _ _ _ _ _ (fun s3 h3 => ?_)
  refine writeThen_put_congr _ _ _ _ _ (fun s4 h4 => ?_)
  refine writeThen_put_congr _ _ _ _ _ (fun s5 h5 => ?_)
  refine writeThen_put_congr _ _ _ _ _ (fun s6 h6 => ?_)
  refine writeThen_put_congr _ _ _ _ _ (fun s7 h7 => ?_)
  refine writeThen_put_congr _ _ _ _ _ (fun s8 h8 => ?_)
  refine writeThen_put_congr _ _ _ _ _ (fun s9 h9 => ?_)
  refine writeThen_put_congr _ _ _ _ _ (fun s10 h10 => ?_)
  refine writeThen_put_congr _ _ _ _ _ (fun s11 h11 => ?_)
  refine writeThen_put_congr _ _ _ _ _ (fun s12 h12 => ?_)
  refine writeThen_put_congr _ _ _ _ _ (fun s13 h13 => ?_)
  rw [hw s13 (by omega)]
  rcases s13.putAll bag with ⟨ok, s14⟩
  cases ok <;> rfl

theorem base_Write_eq_spec (self : OrdinanceBase) (stream : cIGZOStream) :
    self.Write stream = withObject self (specWrite self.fields stream) := by
  by_cases herr : stream.error = 0
  · rw [base_Write_eq_putAll self stream herr, specWrite_eq_putAll _ _ herr]
  · have h0 : stream.GetError ≠ 0 := herr
    simp only [OrdinanceBase.Write, specWrite, withObject, h0, herr, ne_eq,
      not_false_eq_true, if_true]

theorem lottery_Write_eq_spec (self : CityLotteryOrdinance) (stream : cIGZOStream) :
    self.Write stream = withObject self (specWrite self.fields stream) := by
  by_cases herr : stream.error = 0
  · rw [lottery_Write_eq_putAll self stream herr, specWrite_eq_putAll _ _ herr]
  · have h0 : stream.GetError ≠ 0 := herr
    simp only [CityLotteryOrdinance.Write, specWrite, withObject, h0, herr, ne_eq,
      not_false_eq_true, if_true]

theorem holder_Write_self (self : OrdinancePropertyHolder) (stream : cIGZOStream) :
    (self.Write stream).2.1 = self := by
  rw [holder_Write_eq_spec]
  rfl

theorem base_Write_self (self : OrdinanceBase) (stream : cIGZOStream) :
    (self.Write stream).2.1 = self := by
  rw [base_Write_eq_spec]
  rfl

theorem lottery_Write_self (self : CityLotteryOrdinance) (stream : cIGZOStream) :
    (self.Write stream).2.1 = self := by
  rw [lottery_Write_eq_spec]
  rfl

theorem base_fields_length_le (self : OrdinanceBase) :
    self.fields.length ≤ 17 + 3 * self.miscProperties.properties.length := by
  have hfl := holder_fields_length_le self.miscProperties
  simp only [OrdinanceBase.fields, List.length_append, List.length_cons, List.length_nil]
  omega

theorem lottery_fields_length_le (self : CityLotteryOrdinance) :
    self.fields.length ≤ 19 + 3 * self.miscProperties.properties.length := by
  have hfl := holder_fields_length_le self.miscProperties
  simp only [CityLotteryOrdinance.fields, List.length_append, List.length_cons,
    List.length_nil]
  omega

theorem base_Write_ok (self : OrdinanceBase) (stream : cIGZOStream)
    (herr : stream.error = 0)
    (hroom : 17 + 3 * self.miscProperties.properties.length ≤ stream.room) :
    self.Write stream = (true, self, stream.append self.fields) := by
  have hfl := base_fields_length_le self
  rw [base_Write_eq_spec, specWrite_ok _ _ herr (by omega)]
  rfl

theorem lottery_Write_ok (self : CityLotteryOrdinance) (stream : cIGZOStream)
    (herr : stream.error = 0)
    (hroom : 19 + 3 * self.miscProperties.properties.length ≤ stream.room) :
    self.Write stream = (true, self, stream.append self.fields) := by
  have hfl := lottery_fields_length_le self
  rw [lottery_Write_eq_spec, specWrite_ok _ _ herr (by omega)]
  rfl

theorem record_Read_fields (self prop : cSCBaseProperty) (rest : List Field) :
    self.Read ⟨0, prop.fields ++ rest⟩ = (true, prop, ⟨0, rest⟩) := by
  obtain ⟨id, value⟩ := prop
  cases value <;>
    simp [cSCBaseProperty.Read, cIGZIStream.GetError, readThen, cIGZIStream.GetUint32,
      cIGZIStream.GetSint32, cIGZIStream.GetFloat32, cSCBaseProperty.fields,
      cIGZVariant.typeTag]

theorem readLoop_fields (props : List cSCBaseProperty) :
    ∀ (acc : List cSCBaseProperty) (rest : List Field),
      OrdinancePropertyHolder.readLoop props.length acc ⟨0, recordFields props ++ rest⟩
        = (true, acc ++ props, ⟨0, rest⟩) := by
  induction props with
  | nil =>
      intro acc rest
      simp [OrdinancePropertyHolder.readLoop, recordFields]
  | cons prop tail ih =>
      intro acc rest
      simp [OrdinancePropertyHolder.readLoop, recordFields, List.append_assoc,
        record_Read_fields, ih]

theorem holder_Read_fields (target self : OrdinancePropertyHolder)
    (rest : List Field) (hsize : self.properties.length < 2 ^ 32) :
    target.Read ⟨0, self.fields ++ rest⟩
      = (true, { target with properties := self.properties }, ⟨0, rest⟩) := by
  have hmod : self.properties.length % 2 ^ 32 = self.properties.length :=
    Nat.mod_eq_of_lt hsize
  have hloop := readLoop_fields self.properties [] rest
  simp only [OrdinancePropertyHolder.fields, hmod, List.take_length]
  simp only [OrdinancePropertyHolder.Read, cIGZIStream.GetError, readThen,
    cIGZIStream.GetUint32, List.cons_append, ne_eq, not_true_eq_false, if_false, hloop,
    List.nil_append]

theorem andThen_true (stream : cIGZOStream) (rest : cIGZOStream → Bool × cIGZOStream) :
    andThen (true, stream) rest = rest stream := rfl

theorem ReadBool_boolByte (value : Bool) (rest : List Field) :
    OrdinanceBase.ReadBool ⟨0, boolByte value :: rest⟩ = some (value, ⟨0, rest⟩) := by
  cases value <;> simp [OrdinanceBase.ReadBool, cIGZIStream.GetVoid1, boolByte]

/-! ## Theorems: persistence of the ordinance -/

theorem base_Read_fields (target self : OrdinanceBase) (rest : List Field)
    (hsize : self.miscProperties.properties.length < 2 ^ 32) :
    target.Read ⟨0, self.fields ++ rest⟩ =
      (true,
        { target with
          clsid := self.clsid
          name := self.name
          description := self.description
          enactmentIncome := self.enactmentIncome
          retracmentIncome := self.retracmentIncome
          monthlyConstantIncome := self.monthlyConstantIncome
          monthlyAdjustedIncome := self.monthlyAdjustedIncome
          monthlyIncomeFactor := self.monthlyIncomeFactor
          isIncomeOrdinance := self.isIncomeOrdinance
          miscProperties :=
            { target.miscProperties with properties := self.miscProperties.properties }
          initialized := self.initialized
          available := self.available
          on_ := self.on_
          enabled := self.enabled
          haveDeserialized := true },
        ⟨0, rest⟩) := by
  simp only [OrdinanceBase.fields, List.cons_append, List.nil_append, List.append_assoc]
  simp only [OrdinanceBase.Read, cIGZIStream.GetError, readThen, cIGZIStream.GetUint32,
    cIGZIStream.GetSint64, cIGZIStream.GetFloat32, cIGZIStream.GetGZStr, ne_eq,
    not_true_eq_false, if_false, ReadBool_boolByte,
    holder_Read_fields _ _ _ hsize]

theorem lottery_Read_fields (target self : CityLotteryOrdinance)
    (rest : List Field) (hsize : self.miscProperties.properties.length < 2 ^ 32) :
    target.Read ⟨0, self.fields ++ rest⟩ =
      (true,
        { target with
          clsid := self.clsid
          name := self.name
          description := self.description
          enactmentIncome := self.enactmentIncome
          retracmentIncome := self.retracmentIncome
          monthlyConstantIncome := self.monthlyConstantIncome
          monthlyAdjustedIncome := self.monthlyAdjustedIncome
          residentialLowWealthIncomeFactor := self.residentialLowWealthIncomeFactor
          residentialMedWealthIncomeFactor := self.residentialMedWealthIncomeFactor
          residentialHighWealthIncomeFactor := self.residentialHighWealthIncomeFactor
          isIncomeOrdinance := self.isIncomeOrdinance
          miscProperties :=
            { target.miscProperties with properties := self.miscProperties.properties }
          initialized := self.initialized
          available := self.available
          on_ := self.on_
          enabled := self.enabled
          haveDeserialized := true },
        ⟨0, rest⟩) := by
  simp only [CityLotteryOrdinance.fields, List.cons_append, List.nil_append,
    List.append_assoc]
  simp only [CityLotteryOrdinance.Read, cIGZIStream.GetError, readThen,
    cIGZIStream.GetUint32, cIGZIStream.GetSint64, cIGZIStream.GetFloat32,
    cIGZIStream.GetGZStr, ne_eq, not_true_eq_false, if_false, ReadBool_boolByte,
    holder_Read_fields _ _ _ hsize]

theorem lt_two_pow_bitLengthAux (fuel : Nat) :
    ∀ n : Nat, n ≤ fuel → n < 2 ^ bitLengthAux fuel n := by
  induction fuel with
  | zero =>
      intro n hn
      have : n = 0 := by omega
      subst this
      simp [bitLengthAux]
  | succ fuel ih =>
      intro n hn
      by_cases h0 : n = 0
      · subst h0
        simp [bitLengthAux]
      · have hdiv : n / 2 ≤ fuel := by omega
        have := ih (n / 2) hdiv
        simp only [bitLengthAux, h0, if_false, pow_succ]
        omega

theorem bitLengthAux_le (fuel : Nat) :
    ∀ n k : Nat, n ≤ fuel → n < 2 ^ k → bitLengthAux fuel n ≤ k := by
  induction fuel with
  | zero =>
      intro n k _ _
      simp [bitLengthAux]
  | succ fuel ih =>
      intro n k hn hk
      by_cases h0 : n = 0
      · subst h0
        simp [bitLengthAux]
      · cases k with
        | zero =>
            simp only [pow_zero] at hk
            omega
        | succ k =>
            have hdiv : n / 2 ≤ fuel := by omega
            have hlt : n / 2 < 2 ^ k := by
              rw [pow_succ] at hk
              omega
            have := ih (n / 2) k hdiv hlt
            simp only [bitLengthAux, h0, if_false]
            omega

theorem lt_two_pow_bitLength (n : Nat) : n < 2 ^ bitLength n :=
  lt_two_pow_bitLengthAux n n (le_refl n)

theorem bitLength_le (n k : Nat) (h : n < 2 ^ k) : bitLength n ≤ k :=
  bitLengthAux_le n n k (le_refl n) h

theorem ofInt64_INT64_MIN : Fp.ofInt64 INT64_MIN = Fp.fin (-(2 ^ 52)) 11 := by decide

theorem ofInt64_INT64_MAX : Fp.ofInt64 INT64_MAX = Fp.fin (2 ^ 53) 10 := by decide

theorem shl_add (a : Int) (p c : Nat) : shl a (p + c) = shl a p * ((2 ^ c : Nat) : Int) := by
  unfold shl
  push_cast
  rw [pow_add]
  ring

theorem shl_lt_shl_add (a b : Int) (p q c : Nat) :
    shl a (p + c) < shl b (q + c) ↔ shl a p < shl b q := by
  have hpos : (0 : Int) < ((2 ^ c : Nat) : Int) := by positivity
  rw [shl_add, shl_add]
  exact mul_lt_mul_right hpos

/-- The literal `0.05f` is `13421773 * 2 ^ (-28)`, which lies within half a
unit in the last place of `1 / 20`. -/
theorem lit_0_05_value :
    F32.lit_0_05.toFp = Fp.fin 13421773 (-28) ∧ |(13421773 : Int) * 20 - 2 ^ 28| * 2 < 20 := by
  decide

/-- The literal `0.03f` is `16106127 * 2 ^ (-29)`, which lies within half a
unit in the last place of `3 / 100`. -/
theorem lit_0_03_value :
    F32.lit_0_03.toFp = Fp.fin 16106127 (-29)
      ∧ |(16106127 : Int) * 100 - 3 * 2 ^ 29| * 2 < 100 := by
  decide

/-- The populations of the sample demand simulators are the integers
`10000`, `5000`, `9999` and `1000000`; the two remaining sample values are
the powers `2 ^ 20` and `2 ^ 42`. -/
theorem population_values :
    F32.lit_10000.toFp = Fp.fin (10000 * 2 ^ 10) (-10)
      ∧ F32.lit_5000.toFp = Fp.fin (5000 * 2 ^ 11) (-11)
      ∧ F32.lit_9999.toFp = Fp.fin (9999 * 2 ^ 10) (-10)
      ∧ F32.lit_1000000.toFp = Fp.fin (1000000 * 2 ^ 4) (-4)
      ∧ F32.lit_2_pow_20.toFp = Fp.fin (2 ^ 23) (-3)
      ∧ F32.lit_2_pow_42.toFp = Fp.fin (2 ^ 23) 19 := by
  decide

theorem gt_zero_of_isZeroOrNegative (f : F32) (h : f.isZeroOrNegative = true) :
    F32.gt f F32.zero = false := by
  have hz : F32.zero.toFp = Fp.fin 0 (-149) := by decide
  unfold F32.isZeroOrNegative at h
  unfold F32.gt Fp.gt
  rw [hz]
  cases hf : f.toFp with
  | nan => rfl
  | inf neg =>
      rw [hf] at h
      simp only at h
      subst h
      rfl
  | fin m e =>
      rw [hf] at h
      simp only [decide_eq_true_eq] at h
      simp only [Fp.lt, Fp.finLt, shl, decide_eq_false_iff_not, not_lt, zero_mul]
      exact Int.mul_nonpos_of_nonpos_of_nonneg h (by positivity)

/-- C4, at an input where it fails: with constant income `INT64_MAX` and no
contributing wealth group the income sum is the `double` `2 ^ 63`; the
saturating conversion of the specification is `INT64_MAX`, but the code falls
through both clamps and converts `2 ^ 63` with `static_cast<int64_t>`, which
is not defined. -/
theorem C4_lottery_income_at_INT64_MAX :
    lotteryMaxConstant.monthlyIncomeSum = Fp.fin (2 ^ 53) 10
      ∧ specLotteryIncome lotteryMaxConstant.monthlyConstantIncome
          lotteryMaxConstant.incomeFactor
          (fun g => lotteryMaxConstant.GetCityPopulation g.groupID) = INT64_MAX
      ∧ lotteryMaxConstant.GetCurrentMonthlyIncome = none := by
  decide

/-- C5: with constant income `500`, low wealth factor `0.05f` and population
`10000`, medium wealth factor `0.03f` and population `5000`, high wealth
factor `0.0f` and population `9999`, `GetCurrentMonthlyIncome` returns
`1150`. -/
theorem C5_lottery_income_example (self : CityLotteryOrdinance)
    (sim : cISC4DemandSimulator)
    (hC : self.monthlyConstantIncome = 500)
    (hL : self.residentialLowWealthIncomeFactor = F32.lit_0_05)
    (hM : self.residentialMedWealthIncomeFactor = F32.lit_0_03)
    (hH : self.residentialHighWealthIncomeFactor = F32.zero)
    (hsim : self.pDemandSimulator = some sim)
    (hpL : sim.GetDemand 0x1011 0 = some ⟨F32.lit_10000⟩)
    (hpM : sim.GetDemand 0x1021 0 = some ⟨F32.lit_5000⟩)
    (hpH : sim.GetDemand 0x1031 0 = some ⟨F32.lit_9999⟩) :
    self.GetCurrentMonthlyIncome = some 1150 := by
  simp only [CityLotteryOrdinance.GetCurrentMonthlyIncome,
    CityLotteryOrdinance.monthlyIncomeSum, CityLotteryOrdinance.GetCityPopulation,
    OrdinanceBase.GetMonthlyConstantIncome, hC, hL, hM, hH, hsim, hpL, hpM, hpH]
  decide

/-- Witness of C5: the sample lottery meets the hypotheses and returns `1150`. -/
theorem C5_lottery_income_example_witness :
    (sampleLottery.monthlyConstantIncome = 500
      ∧ sampleLottery.residentialLowWealthIncomeFactor = F32.lit_0_05
      ∧ sampleLottery.residentialMedWealthIncomeFactor = F32.lit_0_03
      ∧ sampleLottery.residentialHighWealthIncomeFactor = F32.zero
      ∧ sampleLottery.pDemandSimulator = some sampleDemandSimulator
      ∧ sampleDemandSimulator.GetDemand 0x1011 0 = some ⟨F32.lit_10000⟩
      ∧ sampleDemandSimulator.GetDemand 0x1021 0 = some ⟨F32.lit_5000⟩
      ∧ sampleDemandSimulator.GetDemand 0x1031 0 = some ⟨F32.lit_9999⟩)
      ∧ sampleLottery.GetCurrentMonthlyIncome = some 1150 :=
  ⟨⟨rfl, rfl, rfl, rfl, rfl, rfl, rfl, rfl⟩,
    C5_lottery_income_example sampleLottery sampleDemandSimulator rfl rfl rfl rfl rfl rfl rfl
      rfl⟩

theorem lottery_sum_eq_steps (self : CityLotteryOrdinance) :
    self.monthlyIncomeSum
      = self.addWealthGroup
          (self.addWealthGroup
            (self.addWealthGroup (Fp.ofInt64 self.monthlyConstantIncome) WealthGroup.low)
            WealthGroup.med)
          WealthGroup.high := rfl

theorem groupID_injective (g g' : WealthGroup) (h : g.groupID = g'.groupID) :
    g = g' := by
  cases g <;> cases g' <;> first | rfl | (exact absurd h (by decide))

/-- C6: when the income factor of a wealth group is zero or negative, the
result of `GetCurrentMonthlyIncome` does not depend on the population of
that group: two demand simulators that agree on every other group give the
same result. -/
theorem C6_excluded_group_population_irrelevant (self : CityLotteryOrdinance)
    (g : WealthGroup) (sim sim' : cISC4DemandSimulator)
    (hf : (self.incomeFactor g).isZeroOrNegative = true)
    (hsame : ∀ groupID : Nat, groupID ≠ g.groupID →
      sim'.GetDemand groupID 0 = sim.GetDemand groupID 0) :
    ({ self with pDemandSimulator := some sim' } : CityLotteryOrdinance).GetCurrentMonthlyIncome
      = ({ self with pDemandSimulator := some sim } :
          CityLotteryOrdinance).GetCurrentMonthlyIncome := by
  have hgt := gt_zero_of_isZeroOrNegative _ hf
  have hfac : ∀ (s : cISC4DemandSimulator) (g' : WealthGroup),
      ({ self with pDemandSimulator := some s } : CityLotteryOrdinance).incomeFactor g'
        = self.incomeFactor g' := by
    intro s g'
    cases g' <;> rfl
  have hstep : ∀ (g' : WealthGroup) (acc : Fp),
      ({ self with pDemandSimulator := some sim' } : CityLotteryOrdinance).addWealthGroup acc g'
        = ({ self with pDemandSimulator := some sim } :
            CityLotteryOrdinance).addWealthGroup acc g' := by
    intro g' acc
    by_cases hg : g' = g
    · subst hg
      simp only [CityLotteryOrdinance.addWealthGroup, hfac, hgt, Bool.false_eq_true, if_false]
    · have hne : g'.groupID ≠ g.groupID := fun h => hg (groupID_injective _ _ h)
      simp only [CityLotteryOrdinance.addWealthGroup, hfac,
        CityLotteryOrdinance.GetCityPopulation, hsame _ hne]
  simp only [CityLotteryOrdinance.GetCurrentMonthlyIncome,
    lottery_sum_eq_steps, hstep]

/-- Witness of C6: the high wealth factor of the sample lottery is `0.0f`, and
changing the high wealth population from `9999` to `1000000` leaves the
result unchanged. -/
theorem C6_excluded_group_population_irrelevant_witness :
    ((sampleLottery.incomeFactor WealthGroup.high).isZeroOrNegative = true
      ∧ ∀ groupID : Nat, groupID ≠ WealthGroup.high.groupID →
        sampleDemandSimulatorHigh.GetDemand groupID 0
          = sampleDemandSimulator.GetDemand groupID 0)
      ∧ ({ sampleLottery with pDemandSimulator := some sampleDemandSimulatorHigh } :
            CityLotteryOrdinance).GetCurrentMonthlyIncome
          = ({ sampleLottery with pDemandSimulator := some sampleDemandSimulator } :
            CityLotteryOrdinance).GetCurrentMonthlyIncome :=
  have hsame : ∀ groupID : Nat, groupID ≠ WealthGroup.high.groupID →
      sampleDemandSimulatorHigh.GetDemand groupID 0
        = sampleDemandSimulator.GetDemand groupID 0 := by
    intro groupID h
    have h' : groupID ≠ 0x1031 := h
    simp [sampleDemandSimulatorHigh, sampleDemandSimulator, h']
  ⟨⟨by decide, hsame⟩,
    C6_excluded_group_population_irrelevant sampleLottery WealthGroup.high
      sampleDemandSimulator sampleDemandSimulatorHigh (by decide) hsame⟩

/-- C7, at an input where it fails: with constant income `2 ^ 62`, low
wealth factor `2 ^ 42` and low wealth population `2 ^ 20` the income sum is
the `double` `2 ^ 63`, which is more than `INT64_MAX`; the code does not
return `INT64_MAX` but converts `2 ^ 63` with `static_cast<int64_t>`, which
is not defined. -/
theorem C7_lottery_income_at_two_pow_63 :
    lotteryTierOverflow.monthlyIncomeSum = Fp.fin (2 ^ 52) 11
      ∧ Fp.toInt64 (Fp.fin (2 ^ 52) 11) = none
      ∧ lotteryTierOverflow.GetCurrentMonthlyIncome = none :=
  ⟨by decide, by decide, by decide⟩

/-- C8, at an input where it fails: a bound ordinance with constant income
`INT64_MAX`, income factor `0.0f` and population `0` has the income sum
`2 ^ 63`, which is above `INT64_MAX`; the clamped conversion of the
specification is `INT64_MAX`, but the code converts `2 ^ 63` with
`static_cast<int64_t>`, which is not defined. -/
theorem C8_base_income_at_INT64_MAX :
    baseMaxConstant.pResidentialSimulator = some ⟨0⟩
      ∧ specBaseIncome baseMaxConstant.monthlyConstantIncome
          baseMaxConstant.monthlyIncomeFactor 0 = INT64_MAX
      ∧ baseMaxConstant.GetCurrentMonthlyIncome = none :=
  ⟨rfl, by decide, by decide⟩

/-- C9: an ordinance without residential simulator returns its
`monthlyConstantIncome` itself, whatever 64-bit value it has. -/
theorem C9_unbound_base_income (self : OrdinanceBase)
    (h : self.pResidentialSimulator = none) :
    self.GetCurrentMonthlyIncome = some self.monthlyConstantIncome := by
  simp only [OrdinanceBase.GetCurrentMonthlyIncome, h, OrdinanceBase.GetMonthlyConstantIncome]

/-- Witness of C9: the unbound sample ordinance with constant income
`2 ^ 53 + 1`, a value no `double` holds. -/
theorem C9_unbound_base_income_witness :
    baseUnboundOdd.pResidentialSimulator = none
      ∧ baseUnboundOdd.GetCurrentMonthlyIncome = some (2 ^ 53 + 1) :=
  ⟨rfl, C9_unbound_base_income baseUnboundOdd rfl⟩

theorem tdiv_le_of_le_mul (m k p : Int) (hp : 0 < p) (h : m ≤ k * p) : Int.tdiv m p ≤ k := by
  by_cases hm : 0 ≤ m
  · rw [Int.tdiv_eq_ediv hm (le_of_lt hp)]
    have : m / p < k + 1 := Int.ediv_lt_of_lt_mul hp (by linarith)
    omega
  · have hneg : 0 ≤ -m := by omega
    have hrw : Int.tdiv m p = -Int.tdiv (-m) p := by rw [Int.neg_tdiv, neg_neg]
    rw [hrw, Int.tdiv_eq_ediv hneg (le_of_lt hp)]
    have : -k ≤ -m / p := Int.le_ediv_of_mul_le hp (by linarith)
    omega

theorem le_tdiv_of_mul_le (m k p : Int) (hp : 0 < p) (h : k * p ≤ m) : k ≤ Int.tdiv m p := by
  by_cases hm : 0 ≤ m
  · rw [Int.tdiv_eq_ediv hm (le_of_lt hp)]
    exact Int.le_ediv_of_mul_le hp h
  · have hneg : 0 ≤ -m := by omega
    have hrw : Int.tdiv m p = -Int.tdiv (-m) p := by rw [Int.neg_tdiv, neg_neg]
    rw [hrw, Int.tdiv_eq_ediv hneg (le_of_lt hp)]
    have : -m / p < -k + 1 := Int.ediv_lt_of_lt_mul hp (by linarith)
    omega

theorem tdiv_lt_of_lt_mul (m k p : Int) (hp : 0 < p) (hk : 0 < k) (h : m < k * p) :
    Int.tdiv m p < k := by
  by_cases hm : 0 ≤ m
  · rw [Int.tdiv_eq_ediv hm (le_of_lt hp)]
    exact Int.ediv_lt_of_lt_mul hp h
  · have := tdiv_le_of_le_mul m 0 p hp (by linarith)
    omega

/-- How the comparison of `m * 2 ^ e` with an integer `mk * 2 ^ ek` reads on
its integral part. -/
theorem finLt_truncFin_left (m e mk ek : Int) (hek : 0 ≤ ek) :
    (Fp.finLt m e mk ek = true → Fp.truncFin m e ≤ shl mk ek.toNat)
      ∧ (Fp.finLt m e mk ek = false → shl mk ek.toNat ≤ Fp.truncFin m e)
      ∧ (Fp.finLt m e mk ek = true → 0 < mk → Fp.truncFin m e < shl mk ek.toNat) := by
  by_cases he : 0 ≤ e
  · have hiff : Fp.finLt m e mk ek = true ↔ shl m e.toNat < shl mk ek.toNat := by
      unfold Fp.finLt
      simp only [decide_eq_true_eq]
      have h1 : e.toNat = (e - min e ek).toNat + (min e ek).toNat := by omega
      have h2 : ek.toNat = (ek - min e ek).toNat + (min e ek).toNat := by omega
      rw [h1, h2, shl_lt_shl_add]
    have hT : Fp.truncFin m e = shl m e.toNat := by simp only [Fp.truncFin, he, if_true]
    rw [hT]
    refine ⟨fun h => le_of_lt (hiff.mp h), fun h => ?_, fun h _ => hiff.mp h⟩
    have : ¬ (shl m e.toNat < shl mk ek.toNat) := fun hlt => by
      rw [hiff.mpr hlt] at h
      exact Bool.noConfusion h
    omega
  · have hmin : min e ek = e := by omega
    have hiff : Fp.finLt m e mk ek = true
        ↔ m < shl mk ek.toNat * ((2 ^ (-e).toNat : Nat) : Int) := by
      unfold Fp.finLt
      simp only [decide_eq_true_eq, hmin]
      have h1 : (e - e).toNat = 0 := by omega
      have h2 : (ek - e).toNat = ek.toNat + (-e).toNat := by omega
      rw [h1, h2, shl_add]
      simp only [shl, pow_zero, Nat.cast_one, mul_one]
    have hT : Fp.truncFin m e = Int.tdiv m ((2 ^ (-e).toNat : Nat) : Int) := by
      simp only [Fp.truncFin, he, if_false]
    have hpos : (0 : Int) < ((2 ^ (-e).toNat : Nat) : Int) := by positivity
    rw [hT]
    refine ⟨fun h => tdiv_le_of_le_mul _ _ _ hpos (le_of_lt (hiff.mp h)), fun h => ?_,
      fun h hk => tdiv_lt_of_lt_mul _ _ _ hpos ?_ (hiff.mp h)⟩
    · have : ¬ (m < shl mk ek.toNat * ((2 ^ (-e).toNat : Nat) : Int)) := fun hlt => by
        rw [hiff.mpr hlt] at h
        exact Bool.noConfusion h
      exact le_tdiv_of_mul_le _ _ _ hpos (not_lt.mp this)
    · unfold shl
      positivity

/-- How the comparison of an integer `mk * 2 ^ ek` with `m * 2 ^ e` reads on
the integral part of the latter. -/
theorem finLt_truncFin_right (m e mk ek : Int) (hek : 0 ≤ ek) :
    (Fp.finLt mk ek m e = true → shl mk ek.toNat ≤ Fp.truncFin m e)
      ∧ (Fp.finLt mk ek m e = false → Fp.truncFin m e ≤ shl mk ek.toNat) := by
  by_cases he : 0 ≤ e
  · have hiff : Fp.finLt mk ek m e = true ↔ shl mk ek.toNat < shl m e.toNat := by
      unfold Fp.finLt
      simp only [decide_eq_true_eq]
      have h1 : e.toNat = (e - min ek e).toNat + (min ek e).toNat := by omega
      have h2 : ek.toNat = (ek - min ek e).toNat + (min ek e).toNat := by omega
      rw [h1, h2, shl_lt_shl_add]
    have hT : Fp.truncFin m e = shl m e.toNat := by simp only [Fp.truncFin, he, if_true]
    rw [hT]
    refine ⟨fun h => le_of_lt (hiff.mp h), fun h => ?_⟩
    have : ¬ (shl mk ek.toNat < shl m e.toNat) := fun hlt => by
      rw [hiff.mpr hlt] at h
      exact Bool.noConfusion h
    omega
  · have hmin : min ek e = e := by omega
    have hiff : Fp.finLt mk ek m e = true
        ↔ shl mk ek.toNat * ((2 ^ (-e).toNat : Nat) : Int) < m := by
      unfold Fp.finLt
      simp only [decide_eq_true_eq, hmin]
      have h1 : (e - e).toNat = 0 := by omega
      have h2 : (ek - e).toNat = ek.toNat + (-e).toNat := by omega
      rw [h1, h2, shl_add]
      simp only [shl, pow_zero, Nat.cast_one, mul_one]
    have hT : Fp.truncFin m e = Int.tdiv m ((2 ^ (-e).toNat : Nat) : Int) := by
      simp only [Fp.truncFin, he, if_false]
    have hpos : (0 : Int) < ((2 ^ (-e).toNat : Nat) : Int) := by positivity
    rw [hT]
    refine ⟨fun h => le_tdiv_of_mul_le _ _ _ hpos (le_of_lt (hiff.mp h)), fun h => ?_⟩
    have : ¬ (shl mk ek.toNat * ((2 ^ (-e).toNat : Nat) : Int) < m) := fun hlt => by
      rw [hiff.mpr hlt] at h
      exact Bool.noConfusion h
    exact tdiv_le_of_le_mul _ _ _ hpos (not_lt.mp this)

/-- The clamps of the code agree with the saturating conversion on every
value that is not NaN and not the `double` `2 ^ 63` (the value of
`static_cast<double>(INT64_MAX)`). -/
theorem clampedInt64_eq_saturating (x : Fp) (hnan : x ≠ Fp.nan)
    (hne : Fp.lt x (Fp.ofInt64 INT64_MAX) = true ∨ Fp.gt x (Fp.ofInt64 INT64_MAX) = true) :
    clampedInt64 x = some (saturatingInt64 x) := by
  unfold clampedInt64
  rw [ofInt64_INT64_MIN, ofInt64_INT64_MAX] at *
  cases x with
  | nan => exact absurd rfl hnan
  | inf neg => cases neg <;> rfl
  | fin m e =>
      have hmin : shl (-(2 ^ 52)) (11 : Int).toNat = -(2 ^ 63) := by decide
      have hmax : shl (2 ^ 53) (10 : Int).toNat = 2 ^ 63 := by decide
      obtain ⟨a1, a2, _⟩ := finLt_truncFin_left m e (-(2 ^ 52)) 11 (by decide)
      obtain ⟨b1, b2, b3⟩ := finLt_truncFin_left m e (2 ^ 53) 10 (by decide)
      obtain ⟨c1, c2⟩ := finLt_truncFin_right m e (2 ^ 53) 10 (by decide)
      rw [hmin] at a1 a2
      rw [hmax] at b1 b2 b3 c1 c2
      simp only [Fp.lt, Fp.gt] at hne ⊢
      simp only [saturatingInt64, Fp.toInt64, INT64_MIN, INT64_MAX]
      cases h1 : Fp.finLt m e (-(2 ^ 52)) 11
      · cases h2 : Fp.finLt (2 ^ 53) 10 m e
        · have hlt : Fp.finLt m e (2 ^ 53) 10 = true := by
            rcases hne with h | h
            · exact h
            · rw [h2] at h
              exact Bool.noConfusion h
          have ha := a2 h1
          have hb := b3 hlt (by decide)
          have hr : -(2 ^ 63 : Int) ≤ Fp.truncFin m e ∧ Fp.truncFin m e ≤ 2 ^ 63 - 1 := by
            omega
          have hn1 : ¬ (Fp.truncFin m e < -(2 ^ 63 : Int)) := by omega
          have hn2 : ¬ ((2 ^ 63 - 1 : Int) < Fp.truncFin m e) := by omega
          simp only [Bool.false_eq_true, if_false, hr, and_self, if_true, hn1, hn2]
        · have hc := c1 h2
          have hn1 : ¬ (Fp.truncFin m e < -(2 ^ 63 : Int)) := by omega
          have hn2 : (2 ^ 63 - 1 : Int) < Fp.truncFin m e := by omega
          simp only [Bool.false_eq_true, if_false, if_true, hn1, hn2]
      · have ha := a1 h1
        by_cases hlt : Fp.truncFin m e < -(2 ^ 63 : Int)
        · simp only [if_true, hlt]
        · have heq : Fp.truncFin m e = -(2 ^ 63 : Int) := by omega
          rw [heq]
          simp only [if_true]
          decide

theorem lottery_income_eq_clamped (self : CityLotteryOrdinance) :
    self.GetCurrentMonthlyIncome = clampedInt64 self.monthlyIncomeSum := rfl

theorem lottery_steps_foldl (self : CityLotteryOrdinance)
    (gs : List WealthGroup) :
    ∀ acc : Fp,
      (gs.filter fun g =>
          F32.gt (self.incomeFactor g) F32.zero
            && Fp.gt (Fp.ofFloat (self.GetCityPopulation g.groupID)) Fp.zero).foldl
        (fun acc g => Fp.add64 acc
          (Fp.mul64 (Fp.ofFloat (self.GetCityPopulation g.groupID))
            (Fp.ofFloat (self.incomeFactor g)))) acc
      = gs.foldl self.addWealthGroup acc := by
  induction gs with
  | nil => intro acc; rfl
  | cons g rest ih =>
      intro acc
      cases h1 : F32.gt (self.incomeFactor g) F32.zero <;>
        cases h2 : Fp.gt (Fp.ofFloat (self.GetCityPopulation g.groupID)) Fp.zero <;>
        simp [List.filter, List.foldl, h1, h2, ih, CityLotteryOrdinance.addWealthGroup]

/-- The income sum of the code is the sum the specification describes. -/
theorem lottery_sum_eq_spec (self : CityLotteryOrdinance) :
    self.monthlyIncomeSum
      = specLotterySum self.monthlyConstantIncome self.incomeFactor
          (fun g => self.GetCityPopulation g.groupID) := by
  rw [lottery_sum_eq_steps, specLotterySum,
    lottery_steps_foldl]
  rfl

/-- The lottery income agrees with the specification's formula on every
input whose income sum is not NaN and not the `double` `2 ^ 63`. -/
theorem lottery_income_eq_spec (self : CityLotteryOrdinance)
    (hnan : self.monthlyIncomeSum ≠ Fp.nan)
    (hne : Fp.lt self.monthlyIncomeSum (Fp.ofInt64 INT64_MAX) = true
      ∨ Fp.gt self.monthlyIncomeSum (Fp.ofInt64 INT64_MAX) = true) :
    self.GetCurrentMonthlyIncome
      = some (specLotteryIncome self.monthlyConstantIncome self.incomeFactor
          (fun g => self.GetCityPopulation g.groupID)) := by
  rw [lottery_income_eq_clamped,
    clampedInt64_eq_saturating _ hnan hne, specLotteryIncome,
    lottery_sum_eq_spec]

/-- Whenever the lottery income sum is more than the `double` `2 ^ 63`, the
result is `INT64_MAX`. -/
theorem lottery_income_above (self : CityLotteryOrdinance)
    (h : Fp.gt self.monthlyIncomeSum (Fp.ofInt64 INT64_MAX) = true) :
    self.GetCurrentMonthlyIncome = some INT64_MAX := by
  have hlt : Fp.lt self.monthlyIncomeSum (Fp.ofInt64 INT64_MIN) = false := by
    rw [ofInt64_INT64_MIN]
    rw [ofInt64_INT64_MAX] at h
    cases hx : self.monthlyIncomeSum with
    | nan => rfl
    | inf neg =>
        rw [hx] at h
        cases neg
        · rfl
        · exact Bool.noConfusion h
    | fin m e =>
        rw [hx] at h
        simp only [Fp.gt, Fp.lt] at h ⊢
        have hc := (finLt_truncFin_right m e (2 ^ 53) 10 (by decide)).1 h
        have hmax : shl (2 ^ 53) (10 : Int).toNat = 2 ^ 63 := by decide
        have hmin : shl (-(2 ^ 52)) (11 : Int).toNat = -(2 ^ 63) := by decide
        rw [hmax] at hc
        cases h1 : Fp.finLt m e (-(2 ^ 52)) 11
        · rfl
        · have ha := (finLt_truncFin_left m e (-(2 ^ 52)) 11 (by decide)).1 h1
          rw [hmin] at ha
          omega
  simp only [CityLotteryOrdinance.GetCurrentMonthlyIncome, hlt, h, Bool.false_eq_true,
    if_false, if_true]

/-- The generic income of a bound ordinance agrees with the specification's
formula on every input whose income sum is not NaN and not the `double`
`2 ^ 63`. -/
theorem base_income_eq_spec (self : OrdinanceBase)
    (sim : cISC4ResidentialSimulator) (hsim : self.pResidentialSimulator = some sim)
    (hnan : Fp.add64 (Fp.ofInt64 self.monthlyConstantIncome)
      (Fp.mul64 (Fp.ofFloat self.monthlyIncomeFactor) (Fp.ofInt32 sim.GetPopulation)) ≠ Fp.nan)
    (hne : Fp.lt (Fp.add64 (Fp.ofInt64 self.monthlyConstantIncome)
        (Fp.mul64 (Fp.ofFloat self.monthlyIncomeFactor) (Fp.ofInt32 sim.GetPopulation)))
        (Fp.ofInt64 INT64_MAX) = true
      ∨ Fp.gt (Fp.add64 (Fp.ofInt64 self.monthlyConstantIncome)
        (Fp.mul64 (Fp.ofFloat self.monthlyIncomeFactor) (Fp.ofInt32 sim.GetPopulation)))
        (Fp.ofInt64 INT64_MAX) = true) :
    self.GetCurrentMonthlyIncome
      = some (specBaseIncome self.monthlyConstantIncome self.monthlyIncomeFactor
          sim.GetPopulation) := by
  have h := clampedInt64_eq_saturating _ hnan hne
  simp only [OrdinanceBase.GetCurrentMonthlyIncome, hsim,
    OrdinanceBase.GetMonthlyConstantIncome, OrdinanceBase.GetMonthlyIncomeFactor,
    specBaseIncome]
  exact h

/-! ## Theorems: the round trips -/

/-- C1: on an output stream without error and with room for the record,
`OrdinanceBase::Write` succeeds, and `OrdinanceBase::Read` applied (on any
target object) to the fields written succeeds, consumes exactly these
fields, and leaves the target equal to the written object on every
serialized member, with `haveDeserialized` set.  The effects vector has
fewer than `2 ^ 32` records, the range of its 32-bit size. -/
theorem C1_OrdinanceBase_roundtrip (s target : OrdinanceBase) (stream : cIGZOStream)
    (rest : List Field)
    (hsize : s.miscProperties.properties.length < 2 ^ 32)
    (herr : stream.error = 0)
    (hroom : 17 + 3 * s.miscProperties.properties.length ≤ stream.room) :
    ∃ (written : List Field) (r : OrdinanceBase),
      s.Write stream = (true, s, stream.append written)
        ∧ target.Read ⟨0, written ++ rest⟩ = (true, r, ⟨0, rest⟩)
        ∧ r.clsid = s.clsid ∧ r.name = s.name ∧ r.description = s.description
        ∧ r.enactmentIncome = s.enactmentIncome ∧ r.retracmentIncome = s.retracmentIncome
        ∧ r.monthlyConstantIncome = s.monthlyConstantIncome
        ∧ r.monthlyAdjustedIncome = s.monthlyAdjustedIncome
        ∧ r.monthlyIncomeFactor = s.monthlyIncomeFactor
        ∧ r.isIncomeOrdinance = s.isIncomeOrdinance
        ∧ r.miscProperties.properties = s.miscProperties.properties
        ∧ r.initialized = s.initialized ∧ r.available = s.available ∧ r.on_ = s.on_
        ∧ r.enabled = s.enabled ∧ r.haveDeserialized = true :=
  ⟨s.fields, _, base_Write_ok s stream herr hroom,
    base_Read_fields target s rest hsize,
    rfl, rfl, rfl, rfl, rfl, rfl, rfl, rfl, rfl, rfl, rfl, rfl, rfl, rfl, rfl⟩

/-- Witness of C1: the sample ordinance written to the sample stream and read
back into an ordinance that differs in every serialized member, one
further field following the record. -/
theorem C1_OrdinanceBase_roundtrip_witness :
    (sampleBase.miscProperties.properties.length < 2 ^ 32
      ∧ sampleOStream.error = 0
      ∧ 17 + 3 * sampleBase.miscProperties.properties.length ≤ sampleOStream.room)
      ∧ ∃ (written : List Field) (r : OrdinanceBase),
        sampleBase.Write sampleOStream = (true, sampleBase, sampleOStream.append written)
          ∧ sampleTarget.Read ⟨0, written ++ [Field.byte 7]⟩ = (true, r, ⟨0, [Field.byte 7]⟩)
          ∧ r.clsid = sampleBase.clsid ∧ r.name = sampleBase.name
          ∧ r.description = sampleBase.description
          ∧ r.enactmentIncome = sampleBase.enactmentIncome
          ∧ r.retracmentIncome = sampleBase.retracmentIncome
          ∧ r.monthlyConstantIncome = sampleBase.monthlyConstantIncome
          ∧ r.monthlyAdjustedIncome = sampleBase.monthlyAdjustedIncome
          ∧ r.monthlyIncomeFactor = sampleBase.monthlyIncomeFactor
          ∧ r.isIncomeOrdinance = sampleBase.isIncomeOrdinance
          ∧ r.miscProperties.properties = sampleBase.miscProperties.properties
          ∧ r.initialized = sampleBase.initialized ∧ r.available = sampleBase.available
          ∧ r.on_ = sampleBase.on_ ∧ r.enabled = sampleBase.enabled
          ∧ r.haveDeserialized = true :=
  ⟨⟨by decide, rfl, by decide⟩,
    C1_OrdinanceBase_roundtrip sampleBase sampleTarget sampleOStream [Field.byte 7]
      (by decide) rfl (by decide)⟩

/-- C2: on an output stream without error and with room for the record,
`CityLotteryOrdinance::Write` succeeds, and `CityLotteryOrdinance::Read`
applied (on any target object) to the fields written succeeds, consumes
exactly these fields, and restores every serialized member, the three
wealth group factors included, with `haveDeserialized` set.  The effects
vector has fewer than `2 ^ 32` records, the range of its 32-bit size. -/
theorem C2_CityLotteryOrdinance_roundtrip (s target : CityLotteryOrdinance)
    (stream : cIGZOStream) (rest : List Field)
    (hsize : s.miscProperties.properties.length < 2 ^ 32)
    (herr : stream.error = 0)
    (hroom : 19 + 3 * s.miscProperties.properties.length ≤ stream.room) :
    ∃ (written : List Field) (r : CityLotteryOrdinance),
      s.Write stream = (true, s, stream.append written)
        ∧ target.Read ⟨0, written ++ rest⟩ = (true, r, ⟨0, rest⟩)
        ∧ r.clsid = s.clsid ∧ r.name = s.name ∧ r.description = s.description
        ∧ r.enactmentIncome = s.enactmentIncome ∧ r.retracmentIncome = s.retracmentIncome
        ∧ r.monthlyConstantIncome = s.monthlyConstantIncome
        ∧ r.monthlyAdjustedIncome = s.monthlyAdjustedIncome
        ∧ r.residentialLowWealthIncomeFactor = s.residentialLowWealthIncomeFactor
        ∧ r.residentialMedWealthIncomeFactor = s.residentialMedWealthIncomeFactor
        ∧ r.residentialHighWealthIncomeFactor = s.residentialHighWealthIncomeFactor
        ∧ r.isIncomeOrdinance = s.isIncomeOrdinance
        ∧ r.miscProperties.properties = s.miscProperties.properties
        ∧ r.initialized = s.initialized ∧ r.available = s.available ∧ r.on_ = s.on_
        ∧ r.enabled = s.enabled ∧ r.haveDeserialized = true :=
  ⟨s.fields, _, lottery_Write_ok s stream herr hroom,
    lottery_Read_fields target s rest hsize,
    rfl, rfl, rfl, rfl, rfl, rfl, rfl, rfl, rfl, rfl, rfl, rfl, rfl, rfl, rfl, rfl, rfl⟩

/-- Witness of C2: the sample lottery written to the sample stream and read
back into a lottery that differs in every serialized member, one further
field following the record. -/
theorem C2_CityLotteryOrdinance_roundtrip_witness :
    (sampleLottery.miscProperties.properties.length < 2 ^ 32
      ∧ sampleOStream.error = 0
      ∧ 19 + 3 * sampleLottery.miscProperties.properties.length ≤ sampleOStream.room)
      ∧ ∃ (written : List Field) (r : CityLotteryOrdinance),
        sampleLottery.Write sampleOStream
            = (true, sampleLottery, sampleOStream.append written)
          ∧ sampleLotteryTarget.Read ⟨0, written ++ [Field.byte 7]⟩
            = (true, r, ⟨0, [Field.byte 7]⟩)
          ∧ r.clsid = sampleLottery.clsid ∧ r.name = sampleLottery.name
          ∧ r.description = sampleLottery.description
          ∧ r.enactmentIncome = sampleLottery.enactmentIncome
          ∧ r.retracmentIncome = sampleLottery.retracmentIncome
          ∧ r.monthlyConstantIncome = sampleLottery.monthlyConstantIncome
          ∧ r.monthlyAdjustedIncome = sampleLottery.monthlyAdjustedIncome
          ∧ r.residentialLowWealthIncomeFactor = sampleLottery.residentialLowWealthIncomeFactor
          ∧ r.residentialMedWealthIncomeFactor = sampleLottery.residentialMedWealthIncomeFactor
          ∧ r.residentialHighWealthIncomeFactor
            = sampleLottery.residentialHighWealthIncomeFactor
          ∧ r.isIncomeOrdinance = sampleLottery.isIncomeOrdinance
          ∧ r.miscProperties.properties = sampleLottery.miscProperties.properties
          ∧ r.initialized = sampleLottery.initialized
          ∧ r.available = sampleLottery.available
          ∧ r.on_ = sampleLottery.on_ ∧ r.enabled = sampleLottery.enabled
          ∧ r.haveDeserialized = true :=
  ⟨⟨by decide, rfl, by decide⟩,
    C2_CityLotteryOrdinance_roundtrip sampleLottery sampleLotteryTarget sampleOStream
      [Field.byte 7] (by decide) rfl (by decide)⟩

/-- C3: on an output stream without error and with room for the bag,
`OrdinancePropertyHolder::Write` succeeds, and `OrdinancePropertyHolder::Read`
applied to the fields written succeeds, consumes exactly these fields, and
leaves the target bag with the records of the written bag in the same
order, whatever the target held before.  The record codec is the one of
`cSCBaseProperty`, whose read undoes its write
(`record_Read_fields`); the vector has fewer than `2 ^ 32`
records, the range of its 32-bit size. -/
theorem C3_OrdinancePropertyHolder_roundtrip (b target : OrdinancePropertyHolder)
    (stream : cIGZOStream) (rest : List Field)
    (hsize : b.properties.length < 2 ^ 32)
    (herr : stream.error = 0)
    (hroom : 2 + 3 * b.properties.length ≤ stream.room) :
    ∃ written : List Field,
      b.Write stream = (true, b, stream.append written)
        ∧ target.Read ⟨0, written ++ rest⟩
          = (true, { target with properties := b.properties }, ⟨0, rest⟩) :=
  ⟨b.fields, holder_Write_ok b stream herr hroom,
    holder_Read_fields target b rest hsize⟩

/-- Witness of C3: the sample effects written to the sample stream and read
back into a bag that held another record, one further field following the
record. -/
theorem C3_OrdinancePropertyHolder_roundtrip_witness :
    (sampleEffects.properties.length < 2 ^ 32
      ∧ sampleOStream.error = 0
      ∧ 2 + 3 * sampleEffects.properties.length ≤ sampleOStream.room)
      ∧ ∃ written : List Field,
        sampleEffects.Write sampleOStream
            = (true, sampleEffects, sampleOStream.append written)
          ∧ sampleTarget.miscProperties.Read ⟨0, written ++ [Field.byte 7]⟩
            = (true, { sampleTarget.miscProperties with
                properties := sampleEffects.properties }, ⟨0, [Field.byte 7]⟩) :=
  ⟨⟨by decide, rfl, by decide⟩,
    C3_OrdinancePropertyHolder_roundtrip sampleEffects sampleTarget.miscProperties
      sampleOStream [Field.byte 7] (by decide) rfl (by decide)⟩

/-! ## Theorems: the lottery income sum is never NaN -/

theorem bitLength_mono (n n' : Nat) (h : n ≤ n') : bitLength n ≤ bitLength n' :=
  bitLength_le n _ (lt_of_le_of_lt h (lt_two_pow_bitLength n'))

theorem bitLength_mul_two_pow (n a : Nat) : bitLength (n * 2 ^ a) ≤ bitLength n + a := by
  apply bitLength_le
  rw [pow_add]
  exact Nat.mul_lt_mul_of_pos_right (lt_two_pow_bitLength n) (by positivity)

theorem roundShift_le (n k : Nat) : roundShift n k ≤ n / 2 ^ k + 1 := by
  unfold roundShift
  simp only
  split
  · omega
  · split
    · omega
    · split <;> omega

/-- The significand that rounding keeps has at most one binary digit more
than the part of the argument above the unit in the last place. -/
theorem bitLength_roundShift (n k : Nat) :
    (k ≤ bitLength n → bitLength (roundShift n k) + k ≤ bitLength n + 1)
      ∧ (bitLength n < k → bitLength (roundShift n k) ≤ 1) := by
  have hle := roundShift_le n k
  have hn := lt_two_pow_bitLength n
  constructor
  · intro hkb
    have hsplit : 2 ^ bitLength n = 2 ^ k * 2 ^ (bitLength n - k) := by
      rw [← pow_add]
      congr 1
      omega
    have hq0 : n / 2 ^ k < 2 ^ (bitLength n - k) := by
      apply Nat.div_lt_of_lt_mul
      rw [← hsplit]
      exact hn
    have hpos : 0 < 2 ^ (bitLength n - k) := by positivity
    have hq1 : roundShift n k < 2 ^ (bitLength n - k + 1) := by
      rw [pow_succ]
      omega
    have := bitLength_le _ _ hq1
    omega
  · intro hkb
    have hpow : 2 ^ bitLength n ≤ 2 ^ k := Nat.pow_le_pow_right (by decide) (le_of_lt hkb)
    have hq0 : n / 2 ^ k = 0 := Nat.div_eq_of_lt (lt_of_lt_of_le hn hpow)
    have hq1 : roundShift n k < 2 ^ 1 := by
      rw [hq0] at hle
      simp only [pow_one]
      omega
    exact bitLength_le _ _ hq1

theorem round64_isNonneg (m e : Int) (hm : 0 ≤ m) : (Fp.round64 m e).isNonneg = true := by
  have hneg : ¬ (m < 0) := by omega
  unfold Fp.round64 Fp.round
  simp only [hneg, if_false, decide_False]
  by_cases hq : roundSig m.natAbs e
      (max (e + (bitLength m.natAbs : Int) - ((53 : Nat) : Int)) (-1074)) = 0
  · simp only [hq, if_true]
    rfl
  · simp only [hq, if_false]
    split
    · rfl
    · simp only [Fp.isNonneg, decide_eq_true_eq]
      exact Int.ofNat_nonneg _

theorem round64_boundedBelow (m e b : Int) (hlo : -1074 ≤ b) (hhi : b ≤ 1023)
    (h : 0 ≤ m ∨ (bitLength m.natAbs : Int) + e ≤ b) :
    (Fp.round64 m e).boundedBelow (b + 1) = true := by
  by_cases hm : 0 ≤ m
  · have := round64_isNonneg m e hm
    cases hx : Fp.round64 m e with
    | nan => rw [hx] at this; exact Bool.noConfusion this
    | inf neg => rw [hx] at this; exact this
    | fin m' e' =>
        rw [hx] at this
        simp only [Fp.isNonneg, decide_eq_true_eq] at this
        simp only [Fp.boundedBelow, decide_eq_true_eq]
        exact Or.inl this
  · have hb : (bitLength m.natAbs : Int) + e ≤ b := by
      rcases h with h | h
      · exact absurd h hm
      · exact h
    have hneg : m < 0 := by omega
    unfold Fp.round64 Fp.round
    simp only [hneg, if_true, decide_True]
    generalize hlsb : max (e + (bitLength m.natAbs : Int) - ((53 : Nat) : Int)) (-1074) = lsb
    generalize hqdef : roundSig m.natAbs e lsb = q
    have hkey : (bitLength q : Int) + lsb ≤ b + 1 := by
      unfold roundSig at hqdef
      by_cases hexact : lsb ≤ e
      · simp only [hexact, if_true] at hqdef
        have h1 := bitLength_mul_two_pow m.natAbs (e - lsb).toNat
        rw [hqdef] at h1
        omega
      · simp only [hexact, if_false] at hqdef
        obtain ⟨h1, h2⟩ := bitLength_roundShift m.natAbs (lsb - e).toNat
        rw [hqdef] at h1 h2
        by_cases hkb : (lsb - e).toNat ≤ bitLength m.natAbs
        · have := h1 hkb
          omega
        · have := h2 (by omega)
          have hl : lsb = -1074 := by
            rw [← hlsb]
            apply max_eq_right
            push_cast
            omega
          omega
    by_cases hq : q = 0
    · simp only [hq, if_true]
      rfl
    · have hov : ¬ ((1024 : Int) < lsb + (bitLength q : Int)) := by omega
      simp only [hq, hov, if_false, Fp.boundedBelow, decide_eq_true_eq, Int.natAbs_neg,
        Int.natAbs_ofNat]
      right
      omega

theorem isPos_of_gt_zero (x : Fp) (h : Fp.gt x Fp.zero = true) : x.isPos = true := by
  cases x with
  | nan => exact Bool.noConfusion h
  | inf neg =>
      cases neg
      · rfl
      · exact Bool.noConfusion h
  | fin m e =>
      simp only [Fp.gt, Fp.zero, Fp.lt, Fp.finLt, shl, zero_mul, decide_eq_true_eq] at h
      simp only [Fp.isPos, decide_eq_true_eq]
      have hpos : (0 : Int) < ((2 ^ (e - min 0 e).toNat : Nat) : Int) := by positivity
      exact pos_of_mul_pos_left h (le_of_lt hpos)

theorem mul64_isNonneg (a b : Fp) (ha : a.isPos = true) (hb : b.isPos = true) :
    (Fp.mul64 a b).isNonneg = true := by
  cases a with
  | nan => exact Bool.noConfusion ha
  | inf na =>
      cases na
      · cases b with
        | nan => exact Bool.noConfusion hb
        | inf nb =>
            cases nb
            · rfl
            · exact Bool.noConfusion hb
        | fin m e =>
            simp only [Fp.isPos, decide_eq_true_eq] at hb
            have h0 : m ≠ 0 := by omega
            have h1 : ¬ (m < 0) := by omega
            simp only [Fp.mul64, h0, if_false, h1, decide_False]
            rfl
      · exact Bool.noConfusion ha
  | fin m e =>
      simp only [Fp.isPos, decide_eq_true_eq] at ha
      cases b with
      | nan => exact Bool.noConfusion hb
      | inf nb =>
          cases nb
          · have h0 : m ≠ 0 := by omega
            have h1 : ¬ (m < 0) := by omega
            simp only [Fp.mul64, h0, if_false, h1, decide_False]
            rfl
          · exact Bool.noConfusion hb
      | fin m' e' =>
          simp only [Fp.isPos, decide_eq_true_eq] at hb
          exact round64_isNonneg _ _ (le_of_lt (mul_pos ha hb))

theorem boundedBelow_mono (x : Fp) (b b' : Int) (hbb : b ≤ b')
    (h : x.boundedBelow b = true) : x.boundedBelow b' = true := by
  cases x with
  | nan => exact h
  | inf neg => exact h
  | fin m e =>
      simp only [Fp.boundedBelow, decide_eq_true_eq] at h ⊢
      rcases h with h | h
      · exact Or.inl h
      · exact Or.inr (le_trans h hbb)

theorem add64_boundedBelow (acc t : Fp) (b : Int) (hlo : -1074 ≤ b) (hhi : b ≤ 1023)
    (hacc : acc.boundedBelow b = true) (ht : t.isNonneg = true) :
    (Fp.add64 acc t).boundedBelow (b + 1) = true := by
  cases acc with
  | nan => exact Bool.noConfusion hacc
  | inf na =>
      cases na
      · cases t with
        | nan => exact Bool.noConfusion ht
        | inf nt =>
            cases nt
            · rfl
            · exact Bool.noConfusion ht
        | fin m e => rfl
      · exact Bool.noConfusion hacc
  | fin m1 e1 =>
      cases t with
      | nan => exact Bool.noConfusion ht
      | inf nt =>
          cases nt
          · rfl
          · exact Bool.noConfusion ht
      | fin m2 e2 =>
          simp only [Fp.isNonneg, decide_eq_true_eq] at ht
          simp only [Fp.boundedBelow, decide_eq_true_eq] at hacc
          simp only [Fp.add64]
          apply round64_boundedBelow _ _ _ hlo hhi
          have hp1 : (0 : Int) ≤ ((2 ^ (e1 - min e1 e2).toNat : Nat) : Int) := by positivity
          have hp2 : (0 : Int) ≤ ((2 ^ (e2 - min e1 e2).toNat : Nat) : Int) := by positivity
          have h2 : 0 ≤ shl m2 (e2 - min e1 e2).toNat := mul_nonneg ht hp2
          by_cases hs : 0 ≤ shl m1 (e1 - min e1 e2).toNat + shl m2 (e2 - min e1 e2).toNat
          · exact Or.inl hs
          · right
            have hm1 : ¬ (0 ≤ m1) := fun h0 => hs (add_nonneg (mul_nonneg h0 hp1) h2)
            have hb1 : (bitLength m1.natAbs : Int) + e1 ≤ b := by
              rcases hacc with h | h
              · exact absurd h hm1
              · exact h
            have hle : (shl m1 (e1 - min e1 e2).toNat
                + shl m2 (e2 - min e1 e2).toNat).natAbs
                ≤ m1.natAbs * 2 ^ (e1 - min e1 e2).toNat := by
              have habs : (shl m1 (e1 - min e1 e2).toNat).natAbs
                  = m1.natAbs * 2 ^ (e1 - min e1 e2).toNat := by
                simp only [shl, Int.natAbs_mul, Int.natAbs_ofNat]
              rw [← habs]
              omega
            have h3 := bitLength_mono _ _ hle
            have h4 := bitLength_mul_two_pow m1.natAbs (e1 - min e1 e2).toNat
            omega

theorem ofInt64_boundedBelow (c : Int) (hc : INT64_MIN ≤ c) :
    (Fp.ofInt64 c).boundedBelow 65 = true := by
  apply round64_boundedBelow c 0 64 (by decide) (by decide)
  by_cases h0 : 0 ≤ c
  · exact Or.inl h0
  · right
    have hlt : c.natAbs < 2 ^ 64 := by
      simp only [INT64_MIN] at hc
      omega
    have := bitLength_le _ _ hlt
    omega

theorem addWealthGroup_boundedBelow (self : CityLotteryOrdinance) (acc : Fp)
    (g : WealthGroup) (b : Int) (hlo : -1074 ≤ b) (hhi : b ≤ 1023)
    (hacc : acc.boundedBelow b = true) :
    (self.addWealthGroup acc g).boundedBelow (b + 1) = true := by
  unfold CityLotteryOrdinance.addWealthGroup
  by_cases h1 : F32.gt (self.incomeFactor g) F32.zero = true
  · by_cases h2 : Fp.gt (Fp.ofFloat (self.GetCityPopulation g.groupID)) Fp.zero = true
    · simp only [h1, h2, if_true]
      have hz : F32.zero.toFp = Fp.fin 0 (-149) := by decide
      have hf : (Fp.ofFloat (self.incomeFactor g)).isPos = true := by
        apply isPos_of_gt_zero
        unfold F32.gt Fp.gt at h1
        rw [hz] at h1
        unfold Fp.ofFloat Fp.gt Fp.zero
        cases hx : (self.incomeFactor g).toFp with
        | nan => rw [hx] at h1; exact Bool.noConfusion h1
        | inf neg => rw [hx] at h1; exact h1
        | fin m e =>
            rw [hx] at h1
            simp only [Fp.lt, Fp.finLt, shl, zero_mul, decide_eq_true_eq] at h1 ⊢
            have hp : (0 : Int) < ((2 ^ (e - min (-149) e).toNat : Nat) : Int) := by positivity
            have hp' : (0 : Int) < ((2 ^ (e - min 0 e).toNat : Nat) : Int) := by positivity
            exact mul_pos (pos_of_mul_pos_left h1 (le_of_lt hp)) hp'
      exact add64_boundedBelow _ _ _ hlo hhi hacc
        (mul64_isNonneg _ _ (isPos_of_gt_zero _ h2) hf)
    · simp only [h1, h2, if_true, if_false]
      exact boundedBelow_mono _ _ _ (by omega) hacc
  · simp only [h1, if_false]
    exact boundedBelow_mono _ _ _ (by omega) hacc

/-- The income sum of the lottery is never NaN and never `-inf`, whatever the
factors and the populations are. -/
theorem lottery_sum_boundedBelow (self : CityLotteryOrdinance)
    (hc : INT64_MIN ≤ self.monthlyConstantIncome) :
    self.monthlyIncomeSum.boundedBelow 68 = true := by
  rw [lottery_sum_eq_steps]
  have h0 := ofInt64_boundedBelow self.monthlyConstantIncome hc
  have h1 := addWealthGroup_boundedBelow self _ WealthGroup.low 65 (by decide) (by decide) h0
  have h2 := addWealthGroup_boundedBelow self _ WealthGroup.med 66 (by decide) (by decide) h1
  exact addWealthGroup_boundedBelow self _ WealthGroup.high 67 (by decide) (by decide) h2

theorem saturatingInt64_range (x : Fp) :
    INT64_MIN ≤ saturatingInt64 x ∧ saturatingInt64 x ≤ INT64_MAX := by
  cases x with
  | nan => decide
  | inf neg => cases neg <;> decide
  | fin m e =>
      simp only [saturatingInt64]
      have h1 : INT64_MIN ≤ INT64_MAX := by decide
      split
      · exact ⟨le_refl _, h1⟩
      · split
        · exact ⟨h1, le_refl _⟩
        · constructor <;> omega

/-- On every input whose income sum is not the `double` `2 ^ 63`, the lottery
income is defined, lies in the range of `int64_t` and is the value of the
specification's formula. -/
theorem lottery_income_defined (self : CityLotteryOrdinance)
    (hc : INT64_MIN ≤ self.monthlyConstantIncome)
    (hne : Fp.lt self.monthlyIncomeSum (Fp.ofInt64 INT64_MAX) = true
      ∨ Fp.gt self.monthlyIncomeSum (Fp.ofInt64 INT64_MAX) = true) :
    ∃ v : Int, self.GetCurrentMonthlyIncome = some v ∧ INT64_MIN ≤ v ∧ v ≤ INT64_MAX
      ∧ v = specLotteryIncome self.monthlyConstantIncome self.incomeFactor
          (fun g => self.GetCityPopulation g.groupID) := by
  have hb := lottery_sum_boundedBelow self hc
  have hnan : self.monthlyIncomeSum ≠ Fp.nan := by
    intro h
    rw [h] at hb
    exact Bool.noConfusion hb
  refine ⟨_, lottery_income_eq_spec self hnan hne, ?_, ?_, rfl⟩
  · exact (saturatingInt64_range _).1
  · exact (saturatingInt64_range _).2

/-! ## Theorems: the flags of the ordinance -/

/-- C11: whatever `monthlyAdjustedIncome` was before, `SetOn(true)` leaves it
equal to `enactmentIncome` and `SetOn(false)` leaves it equal to
`retracmentIncome`; in both cases the raw `on` flag is the argument and the
call returns true. -/
theorem C11_SetOn (self : OrdinanceBase) :
    (self.SetOn true).2.monthlyAdjustedIncome = self.enactmentIncome
      ∧ (self.SetOn false).2.monthlyAdjustedIncome = self.retracmentIncome
      ∧ ∀ isOn : Bool, (self.SetOn isOn).1 = true ∧ (self.SetOn isOn).2.on_ = isOn :=
  ⟨rfl, rfl, fun isOn => ⟨rfl, by cases isOn <;> rfl⟩⟩

/-- C12: for every state and every boolean `b`, `SetAvailable(b)` returns true
and leaves `available = b` and `monthlyAdjustedIncome = 0`. -/
theorem C12_SetAvailable (self : OrdinanceBase) (b : Bool) :
    (self.SetAvailable b).1 = true
      ∧ (self.SetAvailable b).2.available = b
      ∧ (self.SetAvailable b).2.monthlyAdjustedIncome = 0 :=
  ⟨rfl, rfl, rfl⟩

/-- C13: `IsOn()` is true exactly when the `available` flag and the raw `on`
flag are both true; in particular it is false after `SetAvailable(false)`
followed by `SetOn(true)`. -/
theorem C13_IsOn (self : OrdinanceBase) :
    (self.IsOn = true ↔ self.available = true ∧ self.on_ = true)
      ∧ ((self.SetAvailable false).2.SetOn true).2.IsOn = false := by
  constructor
  · simp only [OrdinanceBase.IsOn, Bool.and_eq_true]
  · rfl

/-- C14: on an input stream whose first field is a version other than `1`,
`OrdinanceBase::Read` and `CityLotteryOrdinance::Read` return false and
leave the whole object as it was. -/
theorem C14_Read_bad_version (base : OrdinanceBase) (lottery : CityLotteryOrdinance)
    (stream : cIGZIStream) (version : Nat) (rest : List Field)
    (hfields : stream.fields = Field.uint32 version :: rest) (hversion : version ≠ 1) :
    (base.Read stream).1 = false ∧ (base.Read stream).2.1 = base
      ∧ (lottery.Read stream).1 = false ∧ (lottery.Read stream).2.1 = lottery := by
  by_cases herr : stream.error = 0
  · simp only [OrdinanceBase.Read, CityLotteryOrdinance.Read, cIGZIStream.GetError, herr,
      ne_eq, not_true_eq_false, if_false, cIGZIStream.GetUint32, hfields, readThen, hversion,
      not_false_eq_true, if_true, and_self]
  · simp only [OrdinanceBase.Read, CityLotteryOrdinance.Read, cIGZIStream.GetError, ne_eq,
      herr, not_false_eq_true, if_true, and_self]

/-- Witness of C14: the sample ordinance and the sample lottery on a stream
that opens with the version `2`. -/
theorem C14_Read_bad_version_witness :
    (sampleBadVersionStream.fields
        = Field.uint32 2 :: [Field.uint32 7, Field.gzstr "x"] ∧ (2 : Nat) ≠ 1)
      ∧ (sampleBase.Read sampleBadVersionStream).1 = false
      ∧ (sampleBase.Read sampleBadVersionStream).2.1 = sampleBase
      ∧ (sampleLottery.Read sampleBadVersionStream).1 = false
      ∧ (sampleLottery.Read sampleBadVersionStream).2.1 = sampleLottery :=
  ⟨⟨rfl, by decide⟩,
    C14_Read_bad_version sampleBase sampleLottery sampleBadVersionStream 2
      [Field.uint32 7, Field.gzstr "x"] rfl (by decide)⟩

/-! ## Theorems: lookup, insertion and removal in the property holder -/

theorem removeLoop_stuck (dwProperty : Nat) (properties : List cSCBaseProperty) (it : Nat)
    (property : cSCBaseProperty) (hget : properties[it]? = some property)
    (hne : property.propertyID ≠ dwProperty) :
    ∀ fuel : Nat, OrdinancePropertyHolder.removeLoop dwProperty properties fuel it = none := by
  intro fuel
  induction fuel with
  | zero => rfl
  | succ fuel ih =>
      simp only [OrdinancePropertyHolder.removeLoop, hget, cSCBaseProperty.GetPropertyID, hne,
        if_false, ih]

/-- The removal never returns when the bag is not empty and its first record
has another id. -/
theorem RemoveProperty_stuck (self : OrdinancePropertyHolder) (dwProperty : Nat)
    (property : cSCBaseProperty) (rest : List cSCBaseProperty)
    (hbag : self.properties = property :: rest) (hne : property.propertyID ≠ dwProperty) :
    ∀ fuel : Nat, self.RemoveProperty dwProperty fuel = none := by
  intro fuel
  have hget : self.properties[0]? = some property := by
    rw [hbag, List.getElem?_cons_zero]
  simp only [OrdinancePropertyHolder.RemoveProperty,
    removeLoop_stuck dwProperty self.properties 0 property hget hne fuel]

/-- The removal returns true, with the first record erased, when the first
record of the bag has the id. -/
theorem RemoveProperty_first (self : OrdinancePropertyHolder) (dwProperty : Nat)
    (property : cSCBaseProperty) (rest : List cSCBaseProperty)
    (hbag : self.properties = property :: rest) (heq : property.propertyID = dwProperty)
    (fuel : Nat) :
    self.RemoveProperty dwProperty (fuel + 1) = some (true, { self with properties := rest }) := by
  simp only [OrdinancePropertyHolder.RemoveProperty, OrdinancePropertyHolder.removeLoop, hbag,
    List.getElem?_cons_zero, cSCBaseProperty.GetPropertyID, heq, if_true, List.eraseIdx_cons_zero]

/-- The removal returns false, with the bag as it was, when the bag is
empty. -/
theorem RemoveProperty_empty (self : OrdinancePropertyHolder) (dwProperty : Nat)
    (hbag : self.properties = []) (fuel : Nat) :
    self.RemoveProperty dwProperty (fuel + 1) = some (false, self) := by
  obtain ⟨refCount, properties⟩ := self
  simp only at hbag
  subst hbag
  rfl

/-- C15, at an input where it fails: the sample effects hold no record with
the id of the mayor rating effect, so the removal of that id should return
false; the loop never advances its iterator past the first record, and the
call does not return, however many iterations it is given. -/
theorem C15_RemoveProperty_absent_id_never_returns :
    (∀ property ∈ sampleEffects.properties, property.propertyID ≠ mayorRatingID)
      ∧ ∀ fuel : Nat, sampleEffects.RemoveProperty mayorRatingID fuel = none :=
  ⟨by decide,
    RemoveProperty_stuck sampleEffects mayorRatingID _ _ rfl (by decide)⟩

/-- C16, at an input where it fails: the sample effects hold the crime effect
as their third record, so the removal of its id should leave the first two
records; the loop never advances its iterator past the first record, and
the call does not return, however many iterations it is given. -/
theorem C16_RemoveProperty_later_record_never_returns :
    sampleEffects.properties[2]?.map cSCBaseProperty.propertyID = some crimeEffectID
      ∧ specRemoveFirst crimeEffectID sampleEffects.properties
        = sampleEffects.properties.take 2
      ∧ ∀ fuel : Nat, sampleEffects.RemoveProperty crimeEffectID fuel = none :=
  ⟨by decide, by decide,
    RemoveProperty_stuck sampleEffects crimeEffectID _ _ rfl (by decide)⟩

theorem getLoop_some (dwProperty : Nat) :
    ∀ (properties : List cSCBaseProperty) (k i : Nat),
      OrdinancePropertyHolder.getLoop dwProperty properties k = some i
        ↔ ∃ n : Nat, i = k + n
          ∧ (∃ property, properties[n]? = some property ∧ property.propertyID = dwProperty)
          ∧ ∀ (j : Nat) (property : cSCBaseProperty), j < n →
              properties[j]? = some property → property.propertyID ≠ dwProperty := by
  intro properties
  induction properties with
  | nil =>
      intro k i
      simp [OrdinancePropertyHolder.getLoop]
  | cons q rest ih =>
      intro k i
      by_cases hq : q.propertyID = dwProperty
      · simp only [OrdinancePropertyHolder.getLoop, cSCBaseProperty.GetPropertyID, hq, if_true,
          Option.some.injEq]
        constructor
        · intro h
          refine ⟨0, by omega, ⟨q, List.getElem?_cons_zero, hq⟩, ?_⟩
          intro j property hj
          omega
        · rintro ⟨n, hi, _, hall⟩
          cases n with
          | zero => omega
          | succ n => exact absurd hq (hall 0 q (by omega) List.getElem?_cons_zero)
      · simp only [OrdinancePropertyHolder.getLoop, cSCBaseProperty.GetPropertyID, hq, if_false,
          ih (k + 1) i]
        constructor
        · rintro ⟨n, hi, ⟨p, hp, hpid⟩, hall⟩
          refine ⟨n + 1, by omega, ⟨p, by simpa using hp, hpid⟩, ?_⟩
          intro j property hj hget
          cases j with
          | zero =>
              simp only [List.getElem?_cons_zero, Option.some.injEq] at hget
              rw [← hget]
              exact hq
          | succ j =>
              simp only [List.getElem?_cons_succ] at hget
              exact hall j property (by omega) hget
        · rintro ⟨n, hi, ⟨p, hp, hpid⟩, hall⟩
          cases n with
          | zero =>
              simp only [List.getElem?_cons_zero, Option.some.injEq] at hp
              rw [← hp] at hpid
              exact absurd hpid hq
          | succ n =>
              refine ⟨n, by omega, ⟨p, by simpa using hp, hpid⟩, ?_⟩
              intro j property hj hget
              exact hall (j + 1) property (by omega) (by simpa using hget)

theorem getLoop_none (dwProperty : Nat) :
    ∀ (properties : List cSCBaseProperty) (k : Nat),
      OrdinancePropertyHolder.getLoop dwProperty properties k = none
        ↔ ∀ property ∈ properties, property.propertyID ≠ dwProperty := by
  intro properties
  induction properties with
  | nil =>
      intro k
      simp [OrdinancePropertyHolder.getLoop]
  | cons q rest ih =>
      intro k
      by_cases hq : q.propertyID = dwProperty
      · simp [OrdinancePropertyHolder.getLoop, cSCBaseProperty.GetPropertyID, hq]
      · simp [OrdinancePropertyHolder.getLoop, cSCBaseProperty.GetPropertyID, hq, ih (k + 1)]

theorem hasLoop_eq_getLoop (dwProperty : Nat) :
    ∀ (properties : List cSCBaseProperty) (k : Nat),
      OrdinancePropertyHolder.hasLoop dwProperty properties
        = (OrdinancePropertyHolder.getLoop dwProperty properties k).isSome := by
  intro properties
  induction properties with
  | nil => intro k; rfl
  | cons q rest ih =>
      intro k
      by_cases hq : q.propertyID = dwProperty
      · simp [OrdinancePropertyHolder.hasLoop, OrdinancePropertyHolder.getLoop,
          cSCBaseProperty.GetPropertyID, hq]
      · simp [OrdinancePropertyHolder.hasLoop, OrdinancePropertyHolder.getLoop,
          cSCBaseProperty.GetPropertyID, hq, ih (k + 1)]

/-- C17: `GetProperty(id)` returns the record at position `i` exactly when that
record has the id and no record before it has; it returns null exactly when
no record of the bag has the id; and `HasProperty(id)` is true exactly when
`GetProperty(id)` is not null. -/
theorem C17_GetProperty_first_match (self : OrdinancePropertyHolder) (dwProperty : Nat) :
    (∀ i : Nat, self.GetProperty dwProperty = some i
        ↔ (∃ property, self.properties[i]? = some property
            ∧ property.propertyID = dwProperty)
          ∧ ∀ (j : Nat) (property : cSCBaseProperty), j < i →
              self.properties[j]? = some property → property.propertyID ≠ dwProperty)
      ∧ (self.GetProperty dwProperty = none
        ↔ ∀ property ∈ self.properties, property.propertyID ≠ dwProperty)
      ∧ (self.HasProperty dwProperty = true ↔ self.GetProperty dwProperty ≠ none) := by
  refine ⟨?_, ?_, ?_⟩
  · intro i
    rw [OrdinancePropertyHolder.GetProperty, getLoop_some]
    constructor
    · rintro ⟨n, hi, h1, h2⟩
      have : i = n := by omega
      subst this
      exact ⟨h1, h2⟩
    · rintro ⟨h1, h2⟩
      exact ⟨i, by omega, h1, h2⟩
  · exact getLoop_none dwProperty self.properties 0
  · rw [OrdinancePropertyHolder.HasProperty, OrdinancePropertyHolder.GetProperty,
      hasLoop_eq_getLoop dwProperty self.properties 0, Option.isSome_iff_ne_none]

/-- Witness of C17 on the sample effects: the crime effect is returned at
position `2`, so it is the first record of that id, and the mayor rating
effect is not found, so no record has that id. -/
theorem C17_GetProperty_first_match_witness :
    (sampleEffects.GetProperty crimeEffectID = some 2
        ∧ sampleEffects.HasProperty crimeEffectID = true
        ∧ sampleEffects.GetProperty mayorRatingID = none
        ∧ sampleEffects.HasProperty mayorRatingID = false)
      ∧ ((∃ property, sampleEffects.properties[2]? = some property
            ∧ property.propertyID = crimeEffectID)
          ∧ ∀ (j : Nat) (property : cSCBaseProperty), j < 2 →
              sampleEffects.properties[j]? = some property →
                property.propertyID ≠ crimeEffectID)
      ∧ ∀ property ∈ sampleEffects.properties, property.propertyID ≠ mayorRatingID :=
  ⟨⟨by decide, by decide, by decide, by decide⟩,
    ((C17_GetProperty_first_match sampleEffects crimeEffectID).1 2).mp (by decide),
    (C17_GetProperty_first_match sampleEffects mayorRatingID).2.1.mp (by decide)⟩

/-- C18: each of the unsigned, signed and float overloads of `AddProperty`
returns true and leaves the bag equal to the previous sequence with the one
record `(id, value)` appended at the end, whatever the bag held before. -/
theorem C18_AddProperty_appends (self : OrdinancePropertyHolder) (dwProperty : Nat)
    (dwValue : Nat) (lValue : Int) (value : F32) :
    ((self.AddProperty_uint32 dwProperty dwValue).1 = true
        ∧ (self.AddProperty_uint32 dwProperty dwValue).2.properties
          = self.properties ++ [⟨dwProperty, cIGZVariant.Uint32 dwValue⟩])
      ∧ ((self.AddProperty_sint32 dwProperty lValue).1 = true
        ∧ (self.AddProperty_sint32 dwProperty lValue).2.properties
          = self.properties ++ [⟨dwProperty, cIGZVariant.Sint32 lValue⟩])
      ∧ ((self.AddProperty_float dwProperty value).1 = true
        ∧ (self.AddProperty_float dwProperty value).2.properties
          = self.properties ++ [⟨dwProperty, cIGZVariant.Float32 value⟩]) :=
  ⟨⟨rfl, rfl⟩, ⟨rfl, rfl⟩, ⟨rfl, rfl⟩⟩

/-! ## Theorems: the layout of a written bag, and the outcomes of its read -/

theorem recordFields_eq_flatten (properties : List cSCBaseProperty) :
    recordFields properties = (properties.map cSCBaseProperty.fields).flatten := by
  induction properties with
  | nil => rfl
  | cons property rest ih => simp only [recordFields, List.map_cons, List.flatten_cons, ih]

/-- C19: on an output stream without error and with room for the bag, `Write`
succeeds and adds to the stream exactly the version `1`, the count, which
is the number of records of the bag, and the encodings of the records in
the order of the bag (each one as `cSCBaseProperty::Write` emits it); the
records that follow the count are as many as the count says.  The vector
has fewer than `2 ^ 32` records, the range of its 32-bit size. -/
theorem C19_holder_Write_layout (self : OrdinancePropertyHolder) (stream : cIGZOStream)
    (hsize : self.properties.length < 2 ^ 32)
    (herr : stream.error = 0)
    (hroom : 2 + 3 * self.properties.length ≤ stream.room) :
    self.Write stream
        = (true, self,
            { stream with
              room := stream.room - (2 + 3 * self.properties.length)
              written := stream.written
                ++ (Field.uint32 1 :: Field.uint32 self.properties.length
                  :: (self.properties.map cSCBaseProperty.fields).flatten) })
      ∧ (self.properties.map cSCBaseProperty.fields).length = self.properties.length := by
  have hmod : self.properties.length % 2 ^ 32 = self.properties.length :=
    Nat.mod_eq_of_lt hsize
  have hfields : self.fields
      = Field.uint32 1 :: Field.uint32 self.properties.length
        :: (self.properties.map cSCBaseProperty.fields).flatten := by
    simp only [OrdinancePropertyHolder.fields, hmod, List.take_length, recordFields_eq_flatten]
  have hlen : self.fields.length = 2 + 3 * self.properties.length := by
    simp only [OrdinancePropertyHolder.fields, hmod, List.take_length, List.length_cons,
      recordFields_length]
    omega
  refine ⟨?_, List.length_map _ _⟩
  rw [holder_Write_ok self stream herr hroom, cIGZOStream.append, hlen, hfields]

/-- Witness of C19: the sample effects written to the sample stream. -/
theorem C19_holder_Write_layout_witness :
    (sampleEffects.properties.length < 2 ^ 32
      ∧ sampleOStream.error = 0
      ∧ 2 + 3 * sampleEffects.properties.length ≤ sampleOStream.room)
      ∧ sampleEffects.Write sampleOStream
        = (true, sampleEffects,
            { sampleOStream with
              room := sampleOStream.room - (2 + 3 * sampleEffects.properties.length)
              written := sampleOStream.written
                ++ (Field.uint32 1 :: Field.uint32 sampleEffects.properties.length
                  :: (sampleEffects.properties.map cSCBaseProperty.fields).flatten) })
      ∧ (sampleEffects.properties.map cSCBaseProperty.fields).length
        = sampleEffects.properties.length :=
  ⟨⟨by decide, rfl, by decide⟩,
    C19_holder_Write_layout sampleEffects sampleOStream (by decide) rfl (by decide)⟩

theorem readLoop_of_decode :
    ∀ (n : Nat) (acc : List cSCBaseProperty) (stream : cIGZIStream),
      (∀ props stream1, specDecodeRecords n stream = some (props, stream1) →
          OrdinancePropertyHolder.readLoop n acc stream = (true, acc ++ props, stream1)
            ∧ props.length = n)
        ∧ (specDecodeRecords n stream = none →
          (OrdinancePropertyHolder.readLoop n acc stream).1 = false) := by
  intro n
  induction n with
  | zero =>
      intro acc stream
      constructor
      · intro props stream1 h
        simp only [specDecodeRecords, Option.some.injEq, Prod.mk.injEq] at h
        obtain ⟨h1, h2⟩ := h
        subst h1 h2
        simp [OrdinancePropertyHolder.readLoop]
      · intro h
        simp [specDecodeRecords] at h
  | succ n ih =>
      intro acc stream
      rcases hread : cSCBaseProperty.default.Read stream with ⟨ok, prop, stream1⟩
      cases ok with
      | false =>
          constructor
          · intro props stream2 h
            simp [specDecodeRecords, hread] at h
          · intro _
            simp [OrdinancePropertyHolder.readLoop, hread]
      | true =>
          obtain ⟨ih1, ih2⟩ := ih (acc ++ [prop]) stream1
          constructor
          · intro props stream2 h
            simp only [specDecodeRecords, hread] at h
            cases hrec : specDecodeRecords n stream1 with
            | none => simp [hrec] at h
            | some r =>
                obtain ⟨props1, stream3⟩ := r
                simp only [hrec, Option.some.injEq, Prod.mk.injEq] at h
                obtain ⟨h1, h2⟩ := h
                subst h1 h2
                obtain ⟨h3, h4⟩ := ih1 props1 stream3 hrec
                simp [OrdinancePropertyHolder.readLoop, hread, h3, h4]
          · intro h
            simp only [specDecodeRecords, hread] at h
            cases hrec : specDecodeRecords n stream1 with
            | none =>
                simp [OrdinancePropertyHolder.readLoop, hread, ih2 hrec]
            | some r =>
                obtain ⟨props1, stream3⟩ := r
                simp [hrec] at h

/-- C20: the outcomes of `OrdinancePropertyHolder::Read`.  It returns false,
with the bag as it was, when the stream is in error, when the version
cannot be read or is not `1`, and when the count cannot be read.  After a
version `1` and a count `n` it returns false when one of the `n` records
fails to decode, and otherwise returns true with a bag that holds exactly
the `n` records decoded from the stream, in order, and none of its
previous records.  Whenever it returns true, it is the last case. -/
theorem C20_holder_Read_outcomes (self : OrdinancePropertyHolder) (stream : cIGZIStream) :
    (stream.GetError ≠ 0 → self.Read stream = (false, self, stream))
      ∧ (stream.GetError = 0 → stream.GetUint32 = none →
          self.Read stream = (false, self, stream))
      ∧ (∀ version stream1, stream.GetError = 0 →
          stream.GetUint32 = some (version, stream1) → version ≠ 1 →
          self.Read stream = (false, self, stream1))
      ∧ (∀ stream1, stream.GetError = 0 → stream.GetUint32 = some (1, stream1) →
          stream1.GetUint32 = none → self.Read stream = (false, self, stream1))
      ∧ (∀ stream1 n stream2, stream.GetError = 0 →
          stream.GetUint32 = some (1, stream1) → stream1.GetUint32 = some (n, stream2) →
          specDecodeRecords n stream2 = none → (self.Read stream).1 = false)
      ∧ (∀ stream1 n stream2 records stream3, stream.GetError = 0 →
          stream.GetUint32 = some (1, stream1) → stream1.GetUint32 = some (n, stream2) →
          specDecodeRecords n stream2 = some (records, stream3) →
          self.Read stream = (true, { self with properties := records }, stream3)
            ∧ records.length = n)
      ∧ ((self.Read stream).1 = true →
          ∃ stream1 n stream2 records stream3,
            stream.GetError = 0 ∧ stream.GetUint32 = some (1, stream1)
              ∧ stream1.GetUint32 = some (n, stream2)
              ∧ specDecodeRecords n stream2 = some (records, stream3)
              ∧ (self.Read stream).2.1.properties = records
              ∧ (self.Read stream).2.1.properties.length = n) := by
  have hbad : stream.GetError ≠ 0 → self.Read stream = (false, self, stream) := by
    intro h
    simp only [OrdinancePropertyHolder.Read, h, ne_eq, not_false_eq_true, if_true]
  have hnover : stream.GetError = 0 → stream.GetUint32 = none →
      self.Read stream = (false, self, stream) := by
    intro h0 h1
    simp only [OrdinancePropertyHolder.Read, h0, h1, readThen, ne_eq, not_true_eq_false,
      if_false]
  have hver : ∀ version stream1, stream.GetError = 0 →
      stream.GetUint32 = some (version, stream1) → version ≠ 1 →
      self.Read stream = (false, self, stream1) := by
    intro version stream1 h0 h1 h2
    simp only [OrdinancePropertyHolder.Read, h0, h1, readThen, ne_eq, not_true_eq_false,
      if_false, h2, not_false_eq_true, if_true]
  have hcount : ∀ stream1, stream.GetError = 0 → stream.GetUint32 = some (1, stream1) →
      stream1.GetUint32 = none → self.Read stream = (false, self, stream1) := by
    intro stream1 h0 h1 h2
    simp only [OrdinancePropertyHolder.Read, h0, h1, h2, readThen, ne_eq, not_true_eq_false,
      if_false]
  have hfail : ∀ stream1 n stream2, stream.GetError = 0 →
      stream.GetUint32 = some (1, stream1) → stream1.GetUint32 = some (n, stream2) →
      specDecodeRecords n stream2 = none → (self.Read stream).1 = false := by
    intro stream1 n stream2 h0 h1 h2 h3
    have hloop := (readLoop_of_decode n [] stream2).2 h3
    simp only [OrdinancePropertyHolder.Read, h0, h1, h2, readThen, ne_eq, not_true_eq_false,
      if_false]
    exact hloop
  have hgood : ∀ stream1 n stream2 records stream3, stream.GetError = 0 →
      stream.GetUint32 = some (1, stream1) → stream1.GetUint32 = some (n, stream2) →
      specDecodeRecords n stream2 = some (records, stream3) →
      self.Read stream = (true, { self with properties := records }, stream3)
        ∧ records.length = n := by
    intro stream1 n stream2 records stream3 h0 h1 h2 h3
    obtain ⟨hloop, hlen⟩ := (readLoop_of_decode n [] stream2).1 records stream3 h3
    refine ⟨?_, hlen⟩
    simp only [OrdinancePropertyHolder.Read, h0, h1, h2, readThen, ne_eq, not_true_eq_false,
      if_false, hloop, List.nil_append]
  refine ⟨hbad, hnover, hver, hcount, hfail, hgood, ?_⟩
  intro htrue
  by_cases h0 : stream.GetError = 0
  · cases h1 : stream.GetUint32 with
    | none => rw [hnover h0 h1] at htrue; exact absurd htrue Bool.false_ne_true
    | some r1 =>
        obtain ⟨version, stream1⟩ := r1
        by_cases hv : version = 1
        · subst hv
          cases h2 : stream1.GetUint32 with
          | none => rw [hcount stream1 h0 h1 h2] at htrue; exact absurd htrue Bool.false_ne_true
          | some r2 =>
              obtain ⟨n, stream2⟩ := r2
              cases h3 : specDecodeRecords n stream2 with
              | none =>
                  rw [hfail stream1 n stream2 h0 h1 h2 h3] at htrue
                  exact absurd htrue Bool.false_ne_true
              | some r3 =>
                  obtain ⟨records, stream3⟩ := r3
                  obtain ⟨hread, hlen⟩ := hgood stream1 n stream2 records stream3 h0 h1 h2 h3
                  refine ⟨stream1, n, stream2, records, stream3, h0, rfl, h2, h3, ?_, ?_⟩
                  · rw [hread]
                  · rw [hread]; exact hlen
        · rw [hver version stream1 h0 h1 hv] at htrue; exact absurd htrue Bool.false_ne_true
  · rw [hbad h0] at htrue; exact absurd htrue Bool.false_ne_true

/-- Instances of C20: a stream in error, a stream of version `2`, a stream
without count, a stream whose second record is broken, and a stream of
two valid records read into the bag of the sample effects. -/
theorem C20_holder_Read_outcomes_witness :
    sampleEffects.Read ⟨5, sampleBagStream.fields⟩
        = (false, sampleEffects, ⟨5, sampleBagStream.fields⟩)
      ∧ sampleEffects.Read sampleBadVersionStream
        = (false, sampleEffects, ⟨0, [Field.uint32 7, Field.gzstr "x"]⟩)
      ∧ sampleEffects.Read sampleNoCountStream = (false, sampleEffects, ⟨0, []⟩)
      ∧ (sampleEffects.Read sampleBrokenBagStream).1 = false
      ∧ (sampleEffects.Read sampleBagStream
          = (true,
              { sampleEffects with
                properties := [⟨10, cIGZVariant.Uint32 5⟩, ⟨11, cIGZVariant.Sint32 (-3)⟩] },
              ⟨0, [Field.byte 1]⟩)
        ∧ [(⟨10, cIGZVariant.Uint32 5⟩ : cSCBaseProperty), ⟨11, cIGZVariant.Sint32 (-3)⟩].length
          = 2) :=
  ⟨(C20_holder_Read_outcomes sampleEffects ⟨5, sampleBagStream.fields⟩).1 (by decide),
    (C20_holder_Read_outcomes sampleEffects sampleBadVersionStream).2.2.1 2
      ⟨0, [Field.uint32 7, Field.gzstr "x"]⟩ rfl rfl (by decide),
    (C20_holder_Read_outcomes sampleEffects sampleNoCountStream).2.2.2.1 ⟨0, []⟩ rfl rfl rfl,
    (C20_holder_Read_outcomes sampleEffects sampleBrokenBagStream).2.2.2.2.1
      ⟨0, sampleBrokenBagStream.fields.tail⟩ 2 ⟨0, sampleBrokenBagStream.fields.tail.tail⟩
      rfl rfl rfl rfl,
    (C20_holder_Read_outcomes sampleEffects sampleBagStream).2.2.2.2.2.1
      ⟨0, sampleBagStream.fields.tail⟩ 2 ⟨0, sampleBagStream.fields.tail.tail⟩
      [⟨10, cIGZVariant.Uint32 5⟩, ⟨11, cIGZVariant.Sint32 (-3)⟩] ⟨0, [Field.byte 1]⟩
      rfl rfl rfl rfl⟩

/-! ## Theorems: the layouts of the two ordinance records -/

theorem ReadBool_byte (b : Nat) (rest : List Field) :
    OrdinanceBase.ReadBool ⟨0, Field.byte b :: rest⟩ = some (decide (b ≠ 0), ⟨0, rest⟩) :=
  rfl

theorem flagByte_le_one (value : Bool) : flagByte value ≤ 1 := by
  cases value <;> decide

theorem base_fields_eq_layout (self : OrdinanceBase) :
    self.fields
      = specBaseLayout self.clsid self.name self.description self.enactmentIncome
          self.retracmentIncome self.retracmentIncome self.monthlyConstantIncome
          self.monthlyAdjustedIncome self.monthlyIncomeFactor
          (flagByte self.isIncomeOrdinance) self.miscProperties.fields
          (flagByte self.initialized) (flagByte self.available) (flagByte self.on_)
          (flagByte self.enabled) := rfl

theorem lottery_fields_eq_layout (self : CityLotteryOrdinance) :
    self.fields
      = specLotteryLayout self.clsid self.name self.description self.enactmentIncome
          self.retracmentIncome self.retracmentIncome self.monthlyConstantIncome
          self.monthlyAdjustedIncome self.residentialLowWealthIncomeFactor
          self.residentialMedWealthIncomeFactor self.residentialHighWealthIncomeFactor
          (flagByte self.isIncomeOrdinance) self.miscProperties.fields
          (flagByte self.initialized) (flagByte self.available) (flagByte self.on_)
          (flagByte self.enabled) := rfl

theorem base_Read_layout (target : OrdinanceBase) (clsid : Nat) (name description : String)
    (enactmentIncome retracmentIncome retracmentIncomeAgain monthlyConstantIncome
      monthlyAdjustedIncome : Int)
    (monthlyIncomeFactor : F32) (isIncomeOrdinance : Nat) (bag : OrdinancePropertyHolder)
    (initialized available on_ enabled : Nat) (rest : List Field)
    (hsize : bag.properties.length < 2 ^ 32) :
    target.Read
        ⟨0, specBaseLayout clsid name description enactmentIncome retracmentIncome
          retracmentIncomeAgain monthlyConstantIncome monthlyAdjustedIncome
          monthlyIncomeFactor isIncomeOrdinance bag.fields initialized available on_ enabled
          ++ rest⟩
      = (true,
          { target with
            clsid := clsid
            name := name
            description := description
            enactmentIncome := enactmentIncome
            retracmentIncome := retracmentIncomeAgain
            monthlyConstantIncome := monthlyConstantIncome
            monthlyAdjustedIncome := monthlyAdjustedIncome
            monthlyIncomeFactor := monthlyIncomeFactor
            isIncomeOrdinance := decide (isIncomeOrdinance ≠ 0)
            miscProperties := { target.miscProperties with properties := bag.properties }
            initialized := decide (initialized ≠ 0)
            available := decide (available ≠ 0)
            on_ := decide (on_ ≠ 0)
            enabled := decide (enabled ≠ 0)
            haveDeserialized := true },
          ⟨0, rest⟩) := by
  simp only [specBaseLayout, List.cons_append, List.nil_append, List.append_assoc]
  simp only [OrdinanceBase.Read, cIGZIStream.GetError, readThen, cIGZIStream.GetUint32,
    cIGZIStream.GetSint64, cIGZIStream.GetFloat32, cIGZIStream.GetGZStr, ne_eq,
    not_true_eq_false, if_false, ReadBool_byte,
    holder_Read_fields _ _ _ hsize]

theorem lottery_Read_layout (target : CityLotteryOrdinance) (clsid : Nat)
    (name description : String)
    (enactmentIncome retracmentIncome retracmentIncomeAgain monthlyConstantIncome
      monthlyAdjustedIncome : Int)
    (low med high : F32) (isIncomeOrdinance : Nat) (bag : OrdinancePropertyHolder)
    (initialized available on_ enabled : Nat) (rest : List Field)
    (hsize : bag.properties.length < 2 ^ 32) :
    target.Read
        ⟨0, specLotteryLayout clsid name description enactmentIncome retracmentIncome
          retracmentIncomeAgain monthlyConstantIncome monthlyAdjustedIncome
          low med high isIncomeOrdinance bag.fields initialized available on_ enabled
          ++ rest⟩
      = (true,
          { target with
            clsid := clsid
            name := name
            description := description
            enactmentIncome := enactmentIncome
            retracmentIncome := retracmentIncomeAgain
            monthlyConstantIncome := monthlyConstantIncome
            monthlyAdjustedIncome := monthlyAdjustedIncome
            residentialLowWealthIncomeFactor := low
            residentialMedWealthIncomeFactor := med
            residentialHighWealthIncomeFactor := high
            isIncomeOrdinance := decide (isIncomeOrdinance ≠ 0)
            miscProperties := { target.miscProperties with properties := bag.properties }
            initialized := decide (initialized ≠ 0)
            available := decide (available ≠ 0)
            on_ := decide (on_ ≠ 0)
            enabled := decide (enabled ≠ 0)
            haveDeserialized := true },
          ⟨0, rest⟩) := by
  simp only [specLotteryLayout, List.cons_append, List.nil_append, List.append_assoc]
  simp only [CityLotteryOrdinance.Read, cIGZIStream.GetError, readThen,
    cIGZIStream.GetUint32, cIGZIStream.GetSint64, cIGZIStream.GetFloat32,
    cIGZIStream.GetGZStr, ne_eq, not_true_eq_false, if_false, ReadBool_byte,
    holder_Read_fields _ _ _ hsize]

/-! ## Theorems: a write stops at the first field that fails -/

theorem lottery_Read_frame (self : CityLotteryOrdinance) (stream : cIGZIStream) :
    (self.Read stream).2.1.monthlyIncomeFactor = self.monthlyIncomeFactor
      ∧ ((self.Read stream).1 = true → (self.Read stream).2.1.haveDeserialized = true)
      ∧ ((self.Read stream).1 = false →
          (self.Read stream).2.1.haveDeserialized = self.haveDeserialized) := by
  unfold CityLotteryOrdinance.Read
  simp only [readThen]
  repeat' split
  all_goals simp

theorem base_Read_frame (self : OrdinanceBase) (stream : cIGZIStream) :
    ((self.Read stream).1 = true → (self.Read stream).2.1.haveDeserialized = true)
      ∧ ((self.Read stream).1 = false →
          (self.Read stream).2.1.haveDeserialized = self.haveDeserialized) := by
  unfold OrdinanceBase.Read
  simp only [readThen]
  repeat' split
  all_goals simp

/-- C21: on an output stream without error and with room for the record,
`OrdinanceBase::Write` succeeds and adds to the stream exactly the version
`1`, the class id, the name, the description, `enactmentIncome`,
`retracmentIncome`, `retracmentIncome` a second time,
`monthlyConstantIncome`, `monthlyAdjustedIncome`, `monthlyIncomeFactor`,
the byte of `isIncomeOrdinance`, the record of the property bag and the
bytes of `initialized`, `available`, `on` and `enabled`, every flag byte
being `0` or `1`.  `OrdinanceBase::Read` consumes a record of this layout
field by field in the same order, whatever the values are: of the two
fields read into `retracmentIncome` the second one stays, and a flag is
true when its byte is not `0`. -/
theorem C21_base_record_layout (self target : OrdinanceBase) (stream : cIGZOStream)
    (herr : stream.error = 0) (hroom : self.fields.length ≤ stream.room) :
    self.Write stream
        = (true, self,
            stream.append
              (specBaseLayout self.clsid self.name self.description self.enactmentIncome
                self.retracmentIncome self.retracmentIncome self.monthlyConstantIncome
                self.monthlyAdjustedIncome self.monthlyIncomeFactor
                (flagByte self.isIncomeOrdinance) self.miscProperties.fields
                (flagByte self.initialized) (flagByte self.available) (flagByte self.on_)
                (flagByte self.enabled)))
      ∧ (flagByte self.isIncomeOrdinance ≤ 1 ∧ flagByte self.initialized ≤ 1
          ∧ flagByte self.available ≤ 1 ∧ flagByte self.on_ ≤ 1
          ∧ flagByte self.enabled ≤ 1)
      ∧ ∀ (clsid : Nat) (name description : String)
          (enactmentIncome retracmentIncome retracmentIncomeAgain monthlyConstantIncome
            monthlyAdjustedIncome : Int)
          (monthlyIncomeFactor : F32) (isIncomeOrdinance : Nat) (bag : OrdinancePropertyHolder)
          (initialized available on_ enabled : Nat) (rest : List Field),
          bag.properties.length < 2 ^ 32 →
          target.Read
              ⟨0, specBaseLayout clsid name description enactmentIncome retracmentIncome
                retracmentIncomeAgain monthlyConstantIncome monthlyAdjustedIncome
                monthlyIncomeFactor isIncomeOrdinance bag.fields initialized available on_
                enabled ++ rest⟩
            = (true,
                { target with
                  clsid := clsid
                  name := name
                  description := description
                  enactmentIncome := enactmentIncome
                  retracmentIncome := retracmentIncomeAgain
                  monthlyConstantIncome := monthlyConstantIncome
                  monthlyAdjustedIncome := monthlyAdjustedIncome
                  monthlyIncomeFactor := monthlyIncomeFactor
                  isIncomeOrdinance := decide (isIncomeOrdinance ≠ 0)
                  miscProperties :=
                    { target.miscProperties with properties := bag.properties }
                  initialized := decide (initialized ≠ 0)
                  available := decide (available ≠ 0)
                  on_ := decide (on_ ≠ 0)
                  enabled := decide (enabled ≠ 0)
                  haveDeserialized := true },
                ⟨0, rest⟩) := by
  refine ⟨?_, ⟨flagByte_le_one _, flagByte_le_one _, flagByte_le_one _, flagByte_le_one _,
    flagByte_le_one _⟩, ?_⟩
  · rw [base_Write_eq_spec, ← base_fields_eq_layout, specWrite_ok _ _ herr hroom]
    rfl
  · intro clsid name description enactmentIncome retracmentIncome retracmentIncomeAgain
      monthlyConstantIncome monthlyAdjustedIncome monthlyIncomeFactor isIncomeOrdinance bag
      initialized available on_ enabled rest hsize
    exact base_Read_layout target clsid name description enactmentIncome retracmentIncome
      retracmentIncomeAgain monthlyConstantIncome monthlyAdjustedIncome monthlyIncomeFactor
      isIncomeOrdinance bag initialized available on_ enabled rest hsize

/-- Witness of C21: the sample ordinance written to the sample stream; the
record read is one whose two `retracmentIncome` fields differ. -/
theorem C21_base_record_layout_witness :
    (sampleOStream.error = 0 ∧ sampleBase.fields.length ≤ sampleOStream.room)
      ∧ sampleBase.Write sampleOStream
        = (true, sampleBase,
            ⟨0, 74,
              [Field.uint32 1, Field.uint32 0xE95F7779,
                Field.gzstr "City-wide Lottery Program",
                Field.gzstr "A city-wide lottery program.", Field.sint64 0,
                Field.sint64 (-20), Field.sint64 (-20), Field.sint64 500, Field.sint64 1150,
                Field.float32 F32.lit_0_05, Field.byte 1]
              ++ sampleEffects.fields
              ++ [Field.byte 0, Field.byte 1, Field.byte 1, Field.byte 0],
              []⟩)
      ∧ (sampleTarget.Read
            ⟨0, specBaseLayout 9 "n" "d" 1 2 3 4 5 F32.lit_0_03 7 sampleEffects.fields 0 1 2 0
              ++ [Field.byte 7]⟩).2.1.retracmentIncome = 3 :=
  ⟨⟨rfl, by decide⟩,
    (C21_base_record_layout sampleBase sampleTarget sampleOStream rfl (by decide)).1.trans rfl,
    by
      rw [(C21_base_record_layout sampleBase sampleTarget sampleOStream rfl (by decide)).2.2
        9 "n" "d" 1 2 3 4 5 F32.lit_0_03 7 sampleEffects 0 1 2 0 [Field.byte 7] (by decide)]⟩

/-- C22: on an output stream without error and with room for the record,
`CityLotteryOrdinance::Write` succeeds and adds to the stream exactly the
fields of the generic record with the one `monthlyIncomeFactor` field (the
tenth field) replaced by the low, medium and high wealth factors, in this
order, between `monthlyAdjustedIncome` and the byte of `isIncomeOrdinance`.
What `Write` does never depends on `monthlyIncomeFactor`, and on every input
stream, `CityLotteryOrdinance::Read` leaves `monthlyIncomeFactor` as it was,
whether it succeeds or fails. -/
theorem C22_lottery_record_layout (self : CityLotteryOrdinance) (stream : cIGZOStream)
    (herr : stream.error = 0) (hroom : self.fields.length ≤ stream.room) :
    self.Write stream
        = (true, self,
            stream.append
              (specLotteryLayout self.clsid self.name self.description self.enactmentIncome
                self.retracmentIncome self.retracmentIncome self.monthlyConstantIncome
                self.monthlyAdjustedIncome self.residentialLowWealthIncomeFactor
                self.residentialMedWealthIncomeFactor self.residentialHighWealthIncomeFactor
                (flagByte self.isIncomeOrdinance) self.miscProperties.fields
                (flagByte self.initialized) (flagByte self.available) (flagByte self.on_)
                (flagByte self.enabled)))
      ∧ (self.toOrdinanceBase.fields[9]? = some (Field.float32 self.monthlyIncomeFactor)
          ∧ self.fields
            = self.toOrdinanceBase.fields.take 9
              ++ [Field.float32 self.residentialLowWealthIncomeFactor,
                Field.float32 self.residentialMedWealthIncomeFactor,
                Field.float32 self.residentialHighWealthIncomeFactor]
              ++ self.toOrdinanceBase.fields.drop 10)
      ∧ (∀ (factor : F32) (output : cIGZOStream),
          ({ self with monthlyIncomeFactor := factor } : CityLotteryOrdinance).Write output
            = ((self.Write output).1,
                ({ self with monthlyIncomeFactor := factor } : CityLotteryOrdinance),
                (self.Write output).2.2))
      ∧ ∀ input : cIGZIStream,
          (self.Read input).2.1.monthlyIncomeFactor = self.monthlyIncomeFactor := by
  refine ⟨?_, ⟨rfl, rfl⟩, fun factor output => ?_,
    fun input => (lottery_Read_frame self input).1⟩
  · rw [lottery_Write_eq_spec, ← lottery_fields_eq_layout, specWrite_ok _ _ herr hroom]
    rfl
  · rw [lottery_Write_eq_spec, lottery_Write_eq_spec]
    rfl

/-- Witness of C22: the sample lottery written to the sample stream. -/
theorem C22_lottery_record_layout_witness :
    (sampleOStream.error = 0 ∧ sampleLottery.fields.length ≤ sampleOStream.room)
      ∧ sampleLottery.Write sampleOStream
        = (true, sampleLottery,
            ⟨0, 72,
              [Field.uint32 1, Field.uint32 0xE95F7779,
                Field.gzstr "City-wide Lottery Program",
                Field.gzstr "A city-wide lottery program.", Field.sint64 0,
                Field.sint64 (-20), Field.sint64 (-20), Field.sint64 500, Field.sint64 1150,
                Field.float32 F32.lit_0_05, Field.float32 F32.lit_0_03,
                Field.float32 F32.zero, Field.byte 1]
              ++ sampleEffects.fields
              ++ [Field.byte 0, Field.byte 1, Field.byte 1, Field.byte 0],
              []⟩)
      ∧ (sampleLottery.Read sampleBadVersionStream).2.1.monthlyIncomeFactor
        = sampleLottery.monthlyIncomeFactor :=
  ⟨⟨rfl, by decide⟩,
    (C22_lottery_record_layout sampleLottery sampleOStream rfl (by decide)).1.trans rfl,
    (C22_lottery_record_layout sampleLottery sampleOStream rfl (by decide)).2.2.2
      sampleBadVersionStream⟩

/-- C23: `OrdinanceBase::Write` and `CityLotteryOrdinance::Write` return false
and write nothing on a stream that reports an error.  On a stream without
error on which the write of some field fails (a field of the nested bag
included), they return false at the first such field: the stream holds
exactly the fields before it, has met that one failed write, and is written
to no further, whatever room it has after the failure.  They return true
exactly when the stream reports no error and every field is written, the
stream then holding all the fields in order.  On every stream and on every
exit the ordinance is as it was before the call. -/
theorem C23_Write_stops_at_first_failure (base : OrdinanceBase)
    (lottery : CityLotteryOrdinance) (stream : cIGZOStream) :
    (stream.error ≠ 0 →
        base.Write stream = (false, base, stream)
          ∧ lottery.Write stream = (false, lottery, stream))
      ∧ (stream.error = 0 → stream.room < base.fields.length →
          base.Write stream
            = (false, base,
                { stream with
                  room := stream.later.headD 0
                  written := stream.written ++ base.fields.take stream.room
                  later := stream.later.tail }))
      ∧ (stream.error = 0 → stream.room < lottery.fields.length →
          lottery.Write stream
            = (false, lottery,
                { stream with
                  room := stream.later.headD 0
                  written := stream.written ++ lottery.fields.take stream.room
                  later := stream.later.tail }))
      ∧ (stream.error = 0 → base.fields.length ≤ stream.room →
          base.Write stream = (true, base, stream.append base.fields))
      ∧ (stream.error = 0 → lottery.fields.length ≤ stream.room →
          lottery.Write stream = (true, lottery, stream.append lottery.fields))
      ∧ ((base.Write stream).1 = true
          ↔ stream.error = 0 ∧ base.fields.length ≤ stream.room)
      ∧ ((lottery.Write stream).1 = true
          ↔ stream.error = 0 ∧ lottery.fields.length ≤ stream.room)
      ∧ (base.Write stream).2.1 = base
      ∧ (lottery.Write stream).2.1 = lottery := by
  rw [base_Write_eq_spec, lottery_Write_eq_spec]
  refine ⟨?_, ?_, ?_, ?_, ?_, ?_, ?_, rfl, rfl⟩
  · intro herr
    simp only [withObject, specWrite, herr, ne_eq, not_false_eq_true, if_true, and_self]
  · intro herr hroom
    simp only [withObject, specWrite, herr, ne_eq, not_true_eq_false, if_false,
      Nat.not_le.mpr hroom]
  · intro herr hroom
    simp only [withObject, specWrite, herr, ne_eq, not_true_eq_false, if_false,
      Nat.not_le.mpr hroom]
  · intro herr hroom
    simp only [withObject, specWrite, herr, ne_eq, not_true_eq_false, if_false, hroom, if_true]
  · intro herr hroom
    simp only [withObject, specWrite, herr, ne_eq, not_true_eq_false, if_false, hroom, if_true]
  · unfold withObject specWrite
    by_cases herr : stream.error = 0 <;> by_cases hroom : base.fields.length ≤ stream.room <;>
      simp [herr, hroom]
  · unfold withObject specWrite
    by_cases herr : stream.error = 0 <;>
      by_cases hroom : lottery.fields.length ≤ stream.room <;> simp [herr, hroom]

/-- Instances of C23: a stream in error; and a stream that accepts twelve
fields, refuses the next write and would accept fifty fields after that: the
write of the sample ordinance fails inside the bag, after the version field
of the bag, and nothing is written after it although the stream has room
again. -/
theorem C23_Write_stops_at_first_failure_witness :
    (sampleBase.Write sampleErrorOStream = (false, sampleBase, sampleErrorOStream)
        ∧ sampleLottery.Write sampleErrorOStream
          = (false, sampleLottery, sampleErrorOStream))
      ∧ sampleBase.Write sampleRecoveringOStream
        = (false, sampleBase,
            ⟨0, 50,
              [Field.uint32 1, Field.uint32 0xE95F7779,
                Field.gzstr "City-wide Lottery Program",
                Field.gzstr "A city-wide lottery program.", Field.sint64 0,
                Field.sint64 (-20), Field.sint64 (-20), Field.sint64 500, Field.sint64 1150,
                Field.float32 F32.lit_0_05, Field.byte 1, Field.uint32 1],
              []⟩)
      ∧ (sampleLottery.Write sampleRecoveringOStream).2.2.written.length = 12 :=
  ⟨(C23_Write_stops_at_first_failure sampleBase sampleLottery sampleErrorOStream).1
      (by decide),
    (C23_Write_stops_at_first_failure sampleBase sampleLottery sampleRecoveringOStream).2.1 rfl
      (by decide),
    by
      rw [(C23_Write_stops_at_first_failure sampleBase sampleLottery
        sampleRecoveringOStream).2.2.1 rfl (by decide)]
      rfl⟩

/-! ## Theorems: the life cycle of the ordinance -/

theorem LoadLocalizedStringResources_eq (self : OrdinanceBase)
    (resources : StringResourceManager) :
    ∃ name description : String,
      self.LoadLocalizedStringResources resources
        = { self with name := name, description := description } := by
  unfold OrdinanceBase.LoadLocalizedStringResources
  split
  · exact ⟨self.name, self.description, rfl⟩
  · split
    · exact ⟨self.name, self.description, rfl⟩
    · simp only
      split <;> split <;> exact ⟨_, _, rfl⟩

theorem base_PostCityInit_null (self : OrdinanceBase) (resources : StringResourceManager) :
    self.PostCityInit resources none = (false, self) := rfl

theorem base_PostCityInit_bound (self : OrdinanceBase) (resources : StringResourceManager)
    (city : cISC4City)
    (h : city.GetResidentialSimulator.isSome = true ∧ city.GetSimulator.isSome = true) :
    self.PostCityInit resources (some city)
      = (true,
          ({ self with
            pResidentialSimulator := city.GetResidentialSimulator
            pSimulator := city.GetSimulator
            enabled := if self.haveDeserialized then self.enabled else true }
            : OrdinanceBase).LoadLocalizedStringResources resources) := by
  cases hd : self.haveDeserialized <;>
    simp [OrdinanceBase.PostCityInit, OrdinanceBase.Init, h, hd]

theorem base_PostCityInit_missing (self : OrdinanceBase) (resources : StringResourceManager)
    (city : cISC4City)
    (h : ¬(city.GetResidentialSimulator.isSome = true ∧ city.GetSimulator.isSome = true)) :
    self.PostCityInit resources (some city)
      = (false,
          { self with
            pResidentialSimulator := city.GetResidentialSimulator
            pSimulator := city.GetSimulator }) := by
  simp only [OrdinanceBase.PostCityInit, h, if_false]

theorem base_PostCityInit_true_iff (self : OrdinanceBase) (resources : StringResourceManager)
    (pCity : Option cISC4City) :
    (self.PostCityInit resources pCity).1 = true
      ↔ ∃ city, pCity = some city ∧ city.GetResidentialSimulator.isSome = true
          ∧ city.GetSimulator.isSome = true := by
  cases pCity with
  | none => simp [base_PostCityInit_null]
  | some city =>
      by_cases h : city.GetResidentialSimulator.isSome = true ∧ city.GetSimulator.isSome = true
      · rw [base_PostCityInit_bound self resources city h]
        simp [h]
      · rw [base_PostCityInit_missing self resources city h]
        simp only [Bool.false_eq_true, Option.some.injEq, exists_eq_left', false_iff]
        exact h

theorem base_PostCityInit_flags (self : OrdinanceBase) (resources : StringResourceManager)
    (pCity : Option cISC4City) :
    (self.PostCityInit resources pCity).2.initialized = self.initialized
      ∧ (self.PostCityInit resources pCity).2.available = self.available
      ∧ (self.PostCityInit resources pCity).2.on_ = self.on_
      ∧ (self.PostCityInit resources pCity).2.haveDeserialized = self.haveDeserialized
      ∧ (self.haveDeserialized = true →
          (self.PostCityInit resources pCity).2.enabled = self.enabled)
      ∧ ((self.PostCityInit resources pCity).1 = true → self.haveDeserialized = false →
          (self.PostCityInit resources pCity).2.enabled = true)
      ∧ ((self.PostCityInit resources pCity).1 = false →
          (self.PostCityInit resources pCity).2.enabled = self.enabled) := by
  cases pCity with
  | none => simp [base_PostCityInit_null]
  | some city =>
      by_cases h : city.GetResidentialSimulator.isSome = true ∧ city.GetSimulator.isSome = true
      · rw [base_PostCityInit_bound self resources city h]
        obtain ⟨name, description, hload⟩ :=
          LoadLocalizedStringResources_eq
            ({ self with
              pResidentialSimulator := city.GetResidentialSimulator
              pSimulator := city.GetSimulator
              enabled := if self.haveDeserialized then self.enabled else true }
              : OrdinanceBase) resources
        rw [hload]
        refine ⟨rfl, rfl, rfl, rfl, ?_, ?_, ?_⟩
        · intro hd
          simp [hd]
        · intro _ hd
          simp [hd]
        · intro hfalse
          exact absurd hfalse (by simp)
      · rw [base_PostCityInit_missing self resources city h]
        exact ⟨rfl, rfl, rfl, rfl, fun _ => rfl, fun hres => absurd hres (by simp),
          fun _ => rfl⟩

theorem lottery_PostCityInit_null (self : CityLotteryOrdinance)
    (resources : StringResourceManager) :
    self.PostCityInit resources none = some (false, self) := rfl

theorem lottery_PostCityInit_city (self : CityLotteryOrdinance)
    (resources : StringResourceManager) (city : cISC4City) :
    self.PostCityInit resources (some city)
      = some
          (if (self.toOrdinanceBase.PostCityInit resources (some city)).1 = true then
            (city.GetDemandSimulator.isSome,
              { self with
                toOrdinanceBase := (self.toOrdinanceBase.PostCityInit resources (some city)).2
                pDemandSimulator := city.GetDemandSimulator })
          else
            (false,
              { self with
                toOrdinanceBase :=
                  (self.toOrdinanceBase.PostCityInit resources (some city)).2 })) := by
  unfold CityLotteryOrdinance.PostCityInit
  split
  · rename_i base heq
    simp [heq]
  · rename_i base heq
    simp [heq]

theorem lottery_sum_unbound (self : CityLotteryOrdinance) (h : self.pDemandSimulator = none) :
    (∀ groupID, self.GetCityPopulation groupID = F32.zero)
      ∧ self.monthlyIncomeSum = Fp.ofInt64 self.monthlyConstantIncome := by
  have hpop : ∀ groupID, self.GetCityPopulation groupID = F32.zero := by
    intro groupID
    simp only [CityLotteryOrdinance.GetCityPopulation, h]
  have hzero : Fp.gt (Fp.ofFloat F32.zero) Fp.zero = false := by decide
  have hstep : ∀ (g : WealthGroup) (acc : Fp), self.addWealthGroup acc g = acc := by
    intro g acc
    simp only [CityLotteryOrdinance.addWealthGroup, hpop, hzero, Bool.false_eq_true, if_false,
      ite_self]
  exact ⟨hpop, by simp only [lottery_sum_eq_steps, hstep]⟩

/-- C24: `OrdinanceBase::PostCityInit` returns true exactly when the city is
not null and supplies both a residential simulator and a simulator;
`CityLotteryOrdinance::PostCityInit` always returns (it never dereferences
a null city) and returns true exactly when the city also supplies a
demand simulator.  Whenever either returns true on an instance whose
`haveDeserialized` is false, `enabled` is true afterwards. -/
theorem C24_PostCityInit_result (base : OrdinanceBase) (lottery : CityLotteryOrdinance)
    (resources : StringResourceManager) (pCity : Option cISC4City) :
    ((base.PostCityInit resources pCity).1 = true
        ↔ ∃ city, pCity = some city ∧ city.GetResidentialSimulator.isSome = true
            ∧ city.GetSimulator.isSome = true)
      ∧ ((base.PostCityInit resources pCity).1 = true → base.haveDeserialized = false →
          (base.PostCityInit resources pCity).2.enabled = true)
      ∧ ∃ result : Bool × CityLotteryOrdinance,
          lottery.PostCityInit resources pCity = some result
            ∧ (result.1 = true
              ↔ ∃ city, pCity = some city ∧ city.GetResidentialSimulator.isSome = true
                  ∧ city.GetSimulator.isSome = true ∧ city.GetDemandSimulator.isSome = true)
            ∧ (result.1 = true → lottery.haveDeserialized = false →
              result.2.enabled = true) := by
  refine ⟨base_PostCityInit_true_iff base resources pCity,
    (base_PostCityInit_flags base resources pCity).2.2.2.2.2.1, ?_⟩
  cases pCity with
  | none =>
      refine ⟨_, lottery_PostCityInit_null lottery resources, ?_, ?_⟩
      · simp
      · intro h
        exact absurd h Bool.false_ne_true
  | some city =>
      refine ⟨_, lottery_PostCityInit_city lottery resources city, ?_, ?_⟩
      · have hiff := base_PostCityInit_true_iff lottery.toOrdinanceBase resources (some city)
        by_cases hb : (lottery.toOrdinanceBase.PostCityInit resources (some city)).1 = true
        · obtain ⟨c, hc, h1, h2⟩ := hiff.mp hb
          cases hc
          simp [hb, h1, h2]
        · have hno : ¬(city.GetResidentialSimulator.isSome = true
              ∧ city.GetSimulator.isSome = true) :=
            fun h => hb (hiff.mpr ⟨city, rfl, h.1, h.2⟩)
          simp only [hb, if_false, Bool.false_eq_true, Option.some.injEq, exists_eq_left',
            false_iff]
          exact fun h => hno ⟨h.1, h.2.1⟩
      · have hflags :=
          (base_PostCityInit_flags lottery.toOrdinanceBase resources (some city)).2.2.2.2.2.1
        by_cases hb : (lottery.toOrdinanceBase.PostCityInit resources (some city)).1 = true
        · simp only [hb, if_true]
          intro _ hd
          exact hflags hb hd
        · simp only [hb, if_false]
          intro h
          exact absurd h Bool.false_ne_true

/-- Instances of C24: the fresh sample ordinance and the fresh sample lottery
on a city that supplies everything, and on a city without demand
simulator. -/
theorem C24_PostCityInit_result_witness :
    ((sampleBase.PostCityInit sampleResources (some sampleCity)).1 = true
        ∧ (sampleBase.PostCityInit sampleResources (some sampleCity)).2.enabled = true)
      ∧ (sampleBase.PostCityInit sampleResources (some sampleCityNoSimulator)).1 = false
      ∧ (sampleBase.PostCityInit sampleResources none).1 = false
      ∧ (lotteryUnbound.PostCityInit sampleResources (some sampleCity)).map Prod.fst
        = some true
      ∧ (lotteryUnbound.PostCityInit sampleResources (some sampleCityNoDemand)).map Prod.fst
        = some false :=
  ⟨⟨(C24_PostCityInit_result sampleBase lotteryUnbound sampleResources (some sampleCity)).1.mpr
      ⟨sampleCity, rfl, rfl, rfl⟩,
    (C24_PostCityInit_result sampleBase lotteryUnbound sampleResources (some sampleCity)).2.1
      rfl rfl⟩,
    rfl, rfl, rfl, rfl⟩

/-- C25 as stated fails.  On a city that supplies a residential simulator but
no simulator, `OrdinanceBase::PostCityInit` returns false on the unbound
sample ordinance and leaves it holding the residential simulator.  On a
city that supplies no demand simulator, `CityLotteryOrdinance::PostCityInit`
returns false on the unbound, never enabled sample lottery and leaves it
holding both simulators of the base, with `enabled` set. -/
theorem C25_counterexample :
    (sampleBase.pResidentialSimulator.isSome = false ∧ sampleBase.pSimulator.isSome = false
        ∧ (sampleBase.PostCityInit sampleResources (some sampleCityNoSimulator)).1 = false
        ∧ (sampleBase.PostCityInit sampleResources
            (some sampleCityNoSimulator)).2.pResidentialSimulator.isSome = true)
      ∧ (lotteryUnbound.pResidentialSimulator.isSome = false
        ∧ lotteryUnbound.pSimulator.isSome = false
        ∧ lotteryUnbound.pDemandSimulator.isSome = false
        ∧ lotteryUnbound.enabled = false
        ∧ (lotteryUnbound.PostCityInit sampleResources (some sampleCityNoDemand)).map
            (fun r =>
              (r.1, r.2.pResidentialSimulator.isSome, r.2.pSimulator.isSome, r.2.enabled))
          = some (false, true, true, true)) :=
  ⟨⟨rfl, rfl, rfl, rfl⟩, rfl, rfl, rfl, rfl, rfl⟩

/-- C25, amended: whenever `PostCityInit` returns false on an unbound
ordinance, the ordinance holds no demand simulator.  On a null city it is
unchanged.  On a city that fails to supply the residential simulator or
the simulator, `enabled` is unchanged and the two members hold what the
city supplied, one of them at least being null.  The lottery that fails is
the lottery as it was with its base part as `OrdinanceBase::PostCityInit`
leaves it: when it fails for want of the demand simulator alone, the base
part has run, both simulators of the city are held, and `enabled` is true
on an instance that was never deserialized and unchanged on one that was. -/
theorem C25_PostCityInit_failure (base : OrdinanceBase) (lottery : CityLotteryOrdinance)
    (resources : StringResourceManager) (pCity : Option cISC4City)
    (hbase : base.pResidentialSimulator = none ∧ base.pSimulator = none)
    (hlottery : lottery.pResidentialSimulator = none ∧ lottery.pSimulator = none
      ∧ lottery.pDemandSimulator = none) :
    ((base.PostCityInit resources pCity).1 = false →
        (base.PostCityInit resources pCity).2.enabled = base.enabled
          ∧ (pCity = none →
            (base.PostCityInit resources pCity).2 = base
              ∧ (base.PostCityInit resources pCity).2.pResidentialSimulator = none
              ∧ (base.PostCityInit resources pCity).2.pSimulator = none)
          ∧ ∀ city, pCity = some city →
              (base.PostCityInit resources pCity).2
                  = { base with
                      pResidentialSimulator := city.GetResidentialSimulator
                      pSimulator := city.GetSimulator }
                ∧ (city.GetResidentialSimulator = none ∨ city.GetSimulator = none))
      ∧ ∀ result, lottery.PostCityInit resources pCity = some result → result.1 = false →
          result.2.pDemandSimulator = none
            ∧ result.2
              = { lottery with
                  toOrdinanceBase := (lottery.toOrdinanceBase.PostCityInit resources pCity).2
                  pDemandSimulator := none }
            ∧ (pCity = none → result.2 = lottery)
            ∧ ∀ city, pCity = some city →
                result.2.pResidentialSimulator = city.GetResidentialSimulator
                  ∧ result.2.pSimulator = city.GetSimulator
                  ∧ (city.GetResidentialSimulator = none ∨ city.GetSimulator = none →
                    result.2.enabled = lottery.enabled)
                  ∧ (city.GetResidentialSimulator.isSome = true →
                    city.GetSimulator.isSome = true →
                    city.GetDemandSimulator = none
                      ∧ (lottery.toOrdinanceBase.PostCityInit resources pCity).1 = true
                      ∧ result.2.enabled
                        = (if lottery.haveDeserialized then lottery.enabled else true))
                  ∧ (city.GetResidentialSimulator = none ∨ city.GetSimulator = none
                    ∨ city.GetDemandSimulator = none) := by
  constructor
  · intro hfalse
    refine ⟨(base_PostCityInit_flags base resources pCity).2.2.2.2.2.2 hfalse, ?_, ?_⟩
    · intro hnull
      rw [hnull, base_PostCityInit_null]
      exact ⟨rfl, hbase.1, hbase.2⟩
    · intro city hcity
      subst hcity
      have hno : ¬(city.GetResidentialSimulator.isSome = true
          ∧ city.GetSimulator.isSome = true) := by
        intro h
        have := (base_PostCityInit_true_iff base resources (some city)).mpr ⟨city, rfl, h⟩
        rw [hfalse] at this
        exact Bool.false_ne_true this
      refine ⟨by rw [base_PostCityInit_missing base resources city hno], ?_⟩
      cases h1 : city.GetResidentialSimulator with
      | none => exact Or.inl rfl
      | some _ =>
          cases h2 : city.GetSimulator with
          | none => exact Or.inr rfl
          | some _ => exact absurd ⟨by rw [h1]; rfl, by rw [h2]; rfl⟩ hno
  · intro result hresult hfalse
    have hd := hlottery.2.2
    cases pCity with
    | none =>
        rw [lottery_PostCityInit_null] at hresult
        cases hresult
        refine ⟨hd, ?_, fun _ => rfl, fun city hcity => (by cases hcity)⟩
        rw [base_PostCityInit_null, ← hd]
    | some city =>
        rw [lottery_PostCityInit_city] at hresult
        cases hresult
        by_cases h : city.GetResidentialSimulator.isSome = true
            ∧ city.GetSimulator.isSome = true
        · have hb : (lottery.toOrdinanceBase.PostCityInit resources (some city)).1 = true :=
            (base_PostCityInit_true_iff _ resources (some city)).mpr ⟨city, rfl, h⟩
          simp only [hb, if_true] at hfalse ⊢
          have hdemand : city.GetDemandSimulator = none := by
            cases hdem : city.GetDemandSimulator with
            | none => rfl
            | some _ => rw [hdem] at hfalse; exact absurd hfalse (by simp)
          obtain ⟨name, description, hload⟩ :=
            LoadLocalizedStringResources_eq
              ({ lottery.toOrdinanceBase with
                pResidentialSimulator := city.GetResidentialSimulator
                pSimulator := city.GetSimulator
                enabled := if lottery.haveDeserialized then lottery.enabled else true }
                : OrdinanceBase) resources
          refine ⟨hdemand, by rw [hdemand], fun hc => (by cases hc), ?_⟩
          intro c hc
          cases hc
          rw [base_PostCityInit_bound _ resources city h, hload]
          refine ⟨rfl, rfl, ?_, fun _ _ => ⟨hdemand, trivial, rfl⟩, Or.inr (Or.inr hdemand)⟩
          intro hor
          rcases hor with h1 | h2
          · rw [h1] at h
            exact absurd h.1 (by simp)
          · rw [h2] at h
            exact absurd h.2 (by simp)
        · have hb : ¬(lottery.toOrdinanceBase.PostCityInit resources (some city)).1 = true :=
            fun hb =>
              h (by
                obtain ⟨c, hc, h1, h2⟩ :=
                  (base_PostCityInit_true_iff _ resources (some city)).mp hb
                cases hc
                exact ⟨h1, h2⟩)
          simp only [hb, Bool.false_eq_true, if_false]
          refine ⟨hd, by rw [← hd], fun hc => (by cases hc), ?_⟩
          intro c hc
          cases hc
          rw [base_PostCityInit_missing _ resources city h]
          refine ⟨rfl, rfl, fun _ => rfl, fun h1 h2 => absurd ⟨h1, h2⟩ h, ?_⟩
          cases h1 : city.GetResidentialSimulator with
          | none => exact Or.inl rfl
          | some _ =>
              cases h2 : city.GetSimulator with
              | none => exact Or.inr (Or.inl rfl)
              | some _ => exact absurd ⟨by rw [h1]; rfl, by rw [h2]; rfl⟩ h

/-- Witness of C25, amended: the unbound sample ordinance on a city without
simulator, and the unbound, never deserialized sample lottery on a city
without demand simulator, which fails with `enabled` set. -/
theorem C25_PostCityInit_failure_witness :
    ((sampleBase.pResidentialSimulator = none ∧ sampleBase.pSimulator = none)
        ∧ lotteryUnbound.pResidentialSimulator = none ∧ lotteryUnbound.pSimulator = none
          ∧ lotteryUnbound.pDemandSimulator = none)
      ∧ (sampleBase.PostCityInit sampleResources (some sampleCityNoSimulator)).2.enabled
        = sampleBase.enabled
      ∧ ∃ result,
          lotteryUnbound.PostCityInit sampleResources (some sampleCityNoDemand) = some result
            ∧ result.2.pDemandSimulator = none
            ∧ result.2.enabled = true :=
  ⟨⟨⟨rfl, rfl⟩, rfl, rfl, rfl⟩,
    ((C25_PostCityInit_failure sampleBase lotteryUnbound sampleResources
      (some sampleCityNoSimulator) ⟨rfl, rfl⟩ ⟨rfl, rfl, rfl⟩).1 rfl).1,
    ⟨_, rfl,
      ((C25_PostCityInit_failure sampleBase lotteryUnbound sampleResources
        (some sampleCityNoDemand) ⟨rfl, rfl⟩ ⟨rfl, rfl, rfl⟩).2 _ rfl rfl).1,
      ((((C25_PostCityInit_failure sampleBase lotteryUnbound sampleResources
        (some sampleCityNoDemand) ⟨rfl, rfl⟩ ⟨rfl, rfl, rfl⟩).2 _ rfl rfl).2.2.2
          sampleCityNoDemand rfl).2.2.2.1 rfl rfl).2.2⟩⟩

/-- C26: for every state and every argument, a null city included,
`PreCityShutdown` returns true and leaves `enabled` false and the residential
simulator and the simulator null, every other member being as before; the
override of the lottery leaves the demand simulator null as well.
Afterwards `OrdinanceBase::GetCurrentMonthlyIncome` returns
`monthlyConstantIncome` without a population query, and the lottery finds
the population `0.0f` for every group, so that its income sum is the
constant income converted to `double`. -/
theorem C26_PreCityShutdown (base : OrdinanceBase) (lottery : CityLotteryOrdinance)
    (pCity : Option cISC4City) :
    base.PreCityShutdown pCity
        = (true,
            { base with enabled := false, pResidentialSimulator := none, pSimulator := none })
      ∧ (base.PreCityShutdown pCity).2.GetCurrentMonthlyIncome
        = some base.monthlyConstantIncome
      ∧ lottery.PreCityShutdown pCity
        = (true,
            { lottery with
              enabled := false
              pResidentialSimulator := none
              pSimulator := none
              pDemandSimulator := none })
      ∧ (∀ groupID, (lottery.PreCityShutdown pCity).2.GetCityPopulation groupID = F32.zero)
      ∧ (lottery.PreCityShutdown pCity).2.monthlyIncomeSum
        = Fp.ofInt64 lottery.monthlyConstantIncome
      ∧ (lottery.PreCityShutdown pCity).2.GetCurrentMonthlyIncome
        = clampedInt64 (Fp.ofInt64 lottery.monthlyConstantIncome) := by
  have hsum := lottery_sum_unbound (lottery.PreCityShutdown pCity).2 rfl
  refine ⟨rfl, rfl, rfl, hsum.1, hsum.2, ?_⟩
  rw [lottery_income_eq_clamped, hsum.2]
  rfl

/-- Instances of C26: the bound sample lottery, shut down with a null city
and with a city. -/
theorem C26_PreCityShutdown_witness :
    (sampleLottery.pDemandSimulator.isSome = true
        ∧ (sampleLottery.PreCityShutdown none).1 = true
        ∧ (sampleLottery.PreCityShutdown none).2.pDemandSimulator.isSome = false
        ∧ (sampleLottery.PreCityShutdown none).2.enabled = false)
      ∧ (sampleLottery.PreCityShutdown (some sampleCity)).2.GetCurrentMonthlyIncome
        = some 500 :=
  ⟨⟨rfl, rfl, rfl, rfl⟩,
    (C26_PreCityShutdown sampleBase sampleLottery (some sampleCity)).2.2.2.2.2.trans
      (by decide)⟩

/-- C27: `OrdinanceBase::CheckConditions` returns true only if `enabled` is
true, a simulator is bound, the simulator supplies a date and the year of
the date is at least `GetYearFirstAvailable()`.  The first year being `0`,
it returns true for every enabled ordinance whose simulator supplies a
date, and false for every ordinance that is disabled, has no simulator, or
whose simulator supplies no date. -/
theorem C27_CheckConditions (self : OrdinanceBase) :
    (self.CheckConditions = true →
        self.enabled = true
          ∧ ∃ pSimulator simDate, self.pSimulator = some pSimulator
              ∧ pSimulator.GetSimDate = some simDate
              ∧ simDate.Year ≥ self.GetYearFirstAvailable)
      ∧ self.GetYearFirstAvailable = 0
      ∧ (self.enabled = true →
          ∀ pSimulator simDate, self.pSimulator = some pSimulator →
            pSimulator.GetSimDate = some simDate → self.CheckConditions = true)
      ∧ (self.enabled = false → self.CheckConditions = false)
      ∧ (self.pSimulator = none → self.CheckConditions = false)
      ∧ (∀ pSimulator, self.pSimulator = some pSimulator → pSimulator.GetSimDate = none →
          self.CheckConditions = false) := by
  refine ⟨?_, rfl, ?_, ?_, ?_, ?_⟩
  · intro h
    unfold OrdinanceBase.CheckConditions at h
    cases he : self.enabled with
    | false => simp [he] at h
    | true =>
        cases hs : self.pSimulator with
        | none => simp [he, hs] at h
        | some pSimulator =>
            cases hd : pSimulator.GetSimDate with
            | none => simp [he, hs, hd] at h
            | some simDate =>
                simp only [he, hs, hd, if_true, decide_eq_true_eq] at h
                exact ⟨rfl, pSimulator, simDate, rfl, hd, h⟩
  · intro he pSimulator simDate hs hd
    simp [OrdinanceBase.CheckConditions, he, hs, hd, OrdinanceBase.GetYearFirstAvailable]
  · intro he
    simp [OrdinanceBase.CheckConditions, he]
  · intro hs
    simp [OrdinanceBase.CheckConditions, hs]
  · intro pSimulator hs hd
    simp [OrdinanceBase.CheckConditions, hs, hd]

/-- Instances of C27: the sample ordinance after a successful `PostCityInit`
on the sample city, and the unbound, disabled sample ordinance. -/
theorem C27_CheckConditions_witness :
    (sampleBase.PostCityInit sampleResources (some sampleCity)).2.CheckConditions = true
      ∧ sampleBase.CheckConditions = false :=
  ⟨(C27_CheckConditions (sampleBase.PostCityInit sampleResources (some sampleCity)).2).2.2.1
      rfl ⟨some ⟨2000⟩⟩ ⟨2000⟩ rfl rfl,
    (C27_CheckConditions sampleBase).2.2.2.1 rfl⟩

/-- C28: in every state in which `GetCurrentMonthlyIncome()` returns a value,
`Simulate()` returns true and leaves `monthlyAdjustedIncome` equal to that
value, every other member being as before; for a lottery the value is the
one of the override of the lottery.  `Simulate()` has a defined result
exactly when the call of `GetCurrentMonthlyIncome()` has one. -/
theorem C28_Simulate (base : OrdinanceBase) (lottery : CityLotteryOrdinance) :
    (∀ income, base.GetCurrentMonthlyIncome = some income →
        base.Simulate = some (true, { base with monthlyAdjustedIncome := income })
          ∧ ({ base with monthlyAdjustedIncome := income }
              : OrdinanceBase).GetMonthlyAdjustedIncome = income)
      ∧ (∀ income, lottery.GetCurrentMonthlyIncome = some income →
        lottery.Simulate = some (true, { lottery with monthlyAdjustedIncome := income })
          ∧ ({ lottery with monthlyAdjustedIncome := income }
              : CityLotteryOrdinance).GetMonthlyAdjustedIncome = income)
      ∧ (base.Simulate = none ↔ base.GetCurrentMonthlyIncome = none)
      ∧ (lottery.Simulate = none ↔ lottery.GetCurrentMonthlyIncome = none) := by
  refine ⟨?_, ?_, ?_, ?_⟩
  · intro income h
    simp only [OrdinanceBase.Simulate, h, OrdinanceBase.GetMonthlyAdjustedIncome, and_self]
  · intro income h
    simp only [CityLotteryOrdinance.Simulate, h, OrdinanceBase.GetMonthlyAdjustedIncome,
      and_self]
  · unfold OrdinanceBase.Simulate
    cases base.GetCurrentMonthlyIncome <;> simp
  · unfold CityLotteryOrdinance.Simulate
    cases lottery.GetCurrentMonthlyIncome <;> simp

/-- Instances of C28: the unbound sample ordinance, whose income is its
constant income `500`, and the sample lottery, whose income is `1150`. -/
theorem C28_Simulate_witness :
    sampleBase.Simulate = some (true, { sampleBase with monthlyAdjustedIncome := 500 })
      ∧ { sampleLottery with monthlyAdjustedIncome := 7 }.Simulate
        = some (true, { sampleLottery with monthlyAdjustedIncome := 1150 }) :=
  ⟨((C28_Simulate sampleBase sampleLottery).1 500 rfl).1,
    ((C28_Simulate sampleBase { sampleLottery with monthlyAdjustedIncome := 7 }).2.1 1150
      (by decide)).1⟩

/-- C29: after a successful `Read` (of the generic record or of the lottery
record), `PostCityInit` leaves the flags `initialized`, `available`, `on`
and `enabled` as the read left them, whatever the city is and whatever
`PostCityInit` returns; on a record of the generic layout these are the
flags decoded from the four last bytes, so that a record with the
`enabled` byte `0` still has `enabled` false after `PostCityInit`. -/
theorem C29_PostCityInit_keeps_decoded_flags (base : OrdinanceBase)
    (lottery : CityLotteryOrdinance) (stream lotteryStream : cIGZIStream)
    (resources : StringResourceManager) (pCity : Option cISC4City)
    (hbase : (base.Read stream).1 = true)
    (hlottery : (lottery.Read lotteryStream).1 = true) :
    (((base.Read stream).2.1.PostCityInit resources pCity).2.initialized
          = (base.Read stream).2.1.initialized
        ∧ ((base.Read stream).2.1.PostCityInit resources pCity).2.available
          = (base.Read stream).2.1.available
        ∧ ((base.Read stream).2.1.PostCityInit resources pCity).2.on_
          = (base.Read stream).2.1.on_
        ∧ ((base.Read stream).2.1.PostCityInit resources pCity).2.enabled
          = (base.Read stream).2.1.enabled)
      ∧ (∃ result,
          (lottery.Read lotteryStream).2.1.PostCityInit resources pCity = some result
            ∧ result.2.initialized = (lottery.Read lotteryStream).2.1.initialized
            ∧ result.2.available = (lottery.Read lotteryStream).2.1.available
            ∧ result.2.on_ = (lottery.Read lotteryStream).2.1.on_
            ∧ result.2.enabled = (lottery.Read lotteryStream).2.1.enabled)
      ∧ ∀ (clsid : Nat) (name description : String)
          (enactmentIncome retracmentIncome retracmentIncomeAgain monthlyConstantIncome
            monthlyAdjustedIncome : Int)
          (monthlyIncomeFactor : F32) (isIncomeOrdinance : Nat) (bag : OrdinancePropertyHolder)
          (initialized available on_ enabled : Nat) (rest : List Field),
          bag.properties.length < 2 ^ 32 →
          stream
            = ⟨0, specBaseLayout clsid name description enactmentIncome retracmentIncome
                retracmentIncomeAgain monthlyConstantIncome monthlyAdjustedIncome
                monthlyIncomeFactor isIncomeOrdinance bag.fields initialized available on_
                enabled ++ rest⟩ →
          ((base.Read stream).2.1.PostCityInit resources pCity).2.initialized
              = decide (initialized ≠ 0)
            ∧ ((base.Read stream).2.1.PostCityInit resources pCity).2.available
              = decide (available ≠ 0)
            ∧ ((base.Read stream).2.1.PostCityInit resources pCity).2.on_
              = decide (on_ ≠ 0)
            ∧ ((base.Read stream).2.1.PostCityInit resources pCity).2.enabled
              = decide (enabled ≠ 0)
            ∧ (enabled = 0 →
              ((base.Read stream).2.1.PostCityInit resources pCity).2.enabled = false) := by
  have hdb := (base_Read_frame base stream).1 hbase
  have hdl := (lottery_Read_frame lottery lotteryStream).2.1 hlottery
  have hfb := base_PostCityInit_flags (base.Read stream).2.1 resources pCity
  have hbaseflags :
      ((base.Read stream).2.1.PostCityInit resources pCity).2.initialized
          = (base.Read stream).2.1.initialized
        ∧ ((base.Read stream).2.1.PostCityInit resources pCity).2.available
          = (base.Read stream).2.1.available
        ∧ ((base.Read stream).2.1.PostCityInit resources pCity).2.on_
          = (base.Read stream).2.1.on_
        ∧ ((base.Read stream).2.1.PostCityInit resources pCity).2.enabled
          = (base.Read stream).2.1.enabled :=
    ⟨hfb.1, hfb.2.1, hfb.2.2.1, hfb.2.2.2.2.1 hdb⟩
  refine ⟨hbaseflags, ?_, ?_⟩
  · have hfl :=
      base_PostCityInit_flags (lottery.Read lotteryStream).2.1.toOrdinanceBase resources pCity
    cases pCity with
    | none => exact ⟨_, lottery_PostCityInit_null _ resources, rfl, rfl, rfl, rfl⟩
    | some city =>
        refine ⟨_, lottery_PostCityInit_city _ resources city, ?_⟩
        split
        · exact ⟨hfl.1, hfl.2.1, hfl.2.2.1, hfl.2.2.2.2.1 hdl⟩
        · exact ⟨hfl.1, hfl.2.1, hfl.2.2.1, hfl.2.2.2.2.1 hdl⟩
  · intro clsid name description enactmentIncome retracmentIncome retracmentIncomeAgain
      monthlyConstantIncome monthlyAdjustedIncome monthlyIncomeFactor isIncomeOrdinance bag
      initialized available on_ enabled rest hsize hstream
    have hread := base_Read_layout base clsid name description enactmentIncome
      retracmentIncome retracmentIncomeAgain monthlyConstantIncome monthlyAdjustedIncome
      monthlyIncomeFactor isIncomeOrdinance bag initialized available on_ enabled rest hsize
    rw [← hstream] at hread
    obtain ⟨h1, h2, h3, h4⟩ := hbaseflags
    rw [h1, h2, h3, h4, hread]
    refine ⟨rfl, rfl, rfl, rfl, ?_⟩
    intro h0
    simp [h0]

/-- Witness of C29: the record of the sample ordinance and the record of the
sample lottery, both with the `enabled` byte `0`, read into objects whose
`enabled` flag is true; `PostCityInit` then succeeds on the sample city and
`enabled` is false. -/
theorem C29_PostCityInit_keeps_decoded_flags_witness :
    ((sampleTarget.Read ⟨0, sampleBase.fields⟩).1 = true
        ∧ (sampleLotteryTarget.Read ⟨0, sampleLottery.fields⟩).1 = true)
      ∧ sampleTarget.enabled = true
      ∧ ((sampleTarget.Read ⟨0, sampleBase.fields⟩).2.1.PostCityInit sampleResources
          (some sampleCity)).1 = true
      ∧ ((sampleTarget.Read ⟨0, sampleBase.fields⟩).2.1.PostCityInit sampleResources
          (some sampleCity)).2.enabled = false
      ∧ ∃ result,
          (sampleLotteryTarget.Read ⟨0, sampleLottery.fields⟩).2.1.PostCityInit
              sampleResources (some sampleCity) = some result
            ∧ result.2.enabled = false :=
  ⟨⟨by decide, by decide⟩, rfl, by decide,
    (C29_PostCityInit_keeps_decoded_flags sampleTarget sampleLotteryTarget
      ⟨0, sampleBase.fields⟩ ⟨0, sampleLottery.fields⟩ sampleResources (some sampleCity)
      (by decide) (by decide)).1.2.2.2.trans (by decide),
    (C29_PostCityInit_keeps_decoded_flags sampleTarget sampleLotteryTarget
      ⟨0, sampleBase.fields⟩ ⟨0, sampleLottery.fields⟩ sampleResources (some sampleCity)
      (by decide) (by decide)).2.1.imp
      (fun _ h => ⟨h.1, h.2.2.2.2.trans (by decide)⟩)⟩

/-! ## Theorems: the range check of the settings -/

theorem lt_eq_not_specLe (a b : Fp) (ha : a ≠ Fp.nan) (hb : b ≠ Fp.nan) :
    Fp.lt a b = !specLe b a := by
  cases a with
  | nan => exact absurd rfl ha
  | inf n1 =>
      cases b with
      | nan => exact absurd rfl hb
      | inf n2 => cases n1 <;> cases n2 <;> rfl
      | fin m2 e2 => cases n1 <;> rfl
  | fin m1 e1 =>
      cases b with
      | nan => exact absurd rfl hb
      | inf n2 => cases n2 <;> rfl
      | fin m2 e2 =>
          simp only [Fp.lt, Fp.finLt, specLe, min_comm e2 e1]
          by_cases h : shl m1 (e1 - min e1 e2).toNat < shl m2 (e2 - min e1 e2).toNat
          · simp [h]
          · simp [h, not_lt.mp h]

theorem CheckValueRange_eq (value min max : F32) (name : String)
    (hvalue : value.toFp ≠ Fp.nan) (hmin : min.toFp ≠ Fp.nan) (hmax : max.toFp ≠ Fp.nan) :
    CheckValueRange value min max name
      = if specInRange value min max = true then Except.ok value
        else Except.error (SettingsError.runtime_error_format "%s is less than %f." name min) := by
  simp only [CheckValueRange, F32.lt, F32.gt, Fp.gt, specInRange,
    lt_eq_not_specLe _ _ hvalue hmin, lt_eq_not_specLe _ _ hmax hvalue]
  by_cases h1 : specLe min.toFp value.toFp = true <;>
    by_cases h2 : specLe value.toFp max.toFp = true <;> simp [h1, h2]

theorem bounds_not_nan :
    F32.lit_0_01.toFp ≠ Fp.nan ∧ F32.lit_2.toFp ≠ Fp.nan ∧ F32.zero.toFp ≠ Fp.nan
      ∧ F32.lit_200.toFp ≠ Fp.nan := by decide

/-- C30: the range check of `Settings::Load`, on a value that is a number
(the text of a settings file never converts to a NaN) and bounds that are
numbers, returns the value unchanged exactly when `min ≤ value ≤ max`, and
throws otherwise.  `Load` applies it with the bounds `0.01f` and `2.0f` to
`CrimeEffectMultiplier` and to `Cs$DemandEffect`, and with the bounds `0`
and `200` to `SchoolEQBoostEffect`: on a file that has the seven keys, it
succeeds exactly when the three values are within their bounds.  With
`CrimeEffectMultiplier = 3.0` it fails, and the four bounds themselves are
within their ranges. -/
theorem C30_CheckValueRange (value min max : F32) (name : String)
    (hvalue : value.toFp ≠ Fp.nan) (hmin : min.toFp ≠ Fp.nan) (hmax : max.toFp ≠ Fp.nan) :
    (CheckValueRange value min max name = Except.ok value
        ↔ specInRange value min max = true)
      ∧ ((∃ e, CheckValueRange value min max name = Except.error e)
        ↔ specInRange value min max = false)
      ∧ (∀ (self : Settings) (tree : ptree) (income : Int) (low med high cs school : F32),
          tree.get_int64 "CityLotteryOrdinance.MonthlyConstantIncome" = some income →
          tree.get_float "CityLotteryOrdinance.R$IncomeFactor" = some low →
          tree.get_float "CityLotteryOrdinance.R$$IncomeFactor" = some med →
          tree.get_float "CityLotteryOrdinance.R$$$IncomeFactor" = some high →
          tree.get_float "CityLotteryOrdinance.CrimeEffectMultiplier" = some value →
          tree.get_float "CityLotteryOrdinance.Cs$DemandEffect" = some cs →
          tree.get_float "CityLotteryOrdinance.SchoolEQBoostEffect" = some school →
          cs.toFp ≠ Fp.nan → school.toFp ≠ Fp.nan →
          ((self.Load (SettingsFile.parsed tree)).1 = none
            ↔ specInRange value F32.lit_0_01 F32.lit_2 = true
              ∧ specInRange cs F32.lit_0_01 F32.lit_2 = true
              ∧ specInRange school F32.zero F32.lit_200 = true))
      ∧ (∀ (self : Settings) (tree : ptree),
          tree.get_float "CityLotteryOrdinance.CrimeEffectMultiplier" = some F32.lit_3 →
          (self.Load (SettingsFile.parsed tree)).1 ≠ none)
      ∧ (specInRange F32.lit_0_01 F32.lit_0_01 F32.lit_2 = true
        ∧ specInRange F32.lit_2 F32.lit_0_01 F32.lit_2 = true
        ∧ specInRange F32.zero F32.zero F32.lit_200 = true
        ∧ specInRange F32.lit_200 F32.zero F32.lit_200 = true
        ∧ specInRange F32.lit_3 F32.lit_0_01 F32.lit_2 = false) := by
  refine ⟨?_, ?_, ?_, ?_, by decide⟩
  · rw [CheckValueRange_eq value min max name hvalue hmin hmax]
    cases specInRange value min max <;> simp
  · rw [CheckValueRange_eq value min max name hvalue hmin hmax]
    cases specInRange value min max <;> simp
  · intro self tree income low med high cs school h1 h2 h3 h4 h5 h6 h7 hcs hschool
    simp only [Settings.Load, getThen, checkThen, h1, h2, h3, h4, h5, h6, h7,
      CheckValueRange_eq value _ _ _ hvalue bounds_not_nan.1 bounds_not_nan.2.1,
      CheckValueRange_eq cs _ _ _ hcs bounds_not_nan.1 bounds_not_nan.2.1,
      CheckValueRange_eq school _ _ _ hschool bounds_not_nan.2.2.1 bounds_not_nan.2.2.2]
    cases specInRange value F32.lit_0_01 F32.lit_2 <;>
      cases specInRange cs F32.lit_0_01 F32.lit_2 <;>
      cases specInRange school F32.zero F32.lit_200 <;> simp
  · intro self tree h5
    have hcheck :
        CheckValueRange F32.lit_3 F32.lit_0_01 F32.lit_2 "CrimeEffectMultiplier"
          = Except.error
              (SettingsError.runtime_error_format "%s is less than %f." "CrimeEffectMultiplier"
                F32.lit_0_01) := rfl
    simp only [Settings.Load, getThen, checkThen, h5, hcheck]
    repeat' split
    all_goals simp

/-- Witness of C30: the value `1.5f` within the bounds of
`CrimeEffectMultiplier`, on a file whose other two effects are at a bound. -/
theorem C30_CheckValueRange_witness :
    ((⟨0x3FC00000⟩ : F32).toFp ≠ Fp.nan ∧ F32.lit_0_01.toFp ≠ Fp.nan
        ∧ F32.lit_2.toFp ≠ Fp.nan)
      ∧ CheckValueRange ⟨0x3FC00000⟩ F32.lit_0_01 F32.lit_2 "CrimeEffectMultiplier"
        = Except.ok ⟨0x3FC00000⟩
      ∧ (Settings.default.Load
          (SettingsFile.parsed (sampleTree ⟨0x3FC00000⟩ F32.lit_2 F32.zero))).1 = none
      ∧ (Settings.default.Load
          (SettingsFile.parsed (sampleTree F32.lit_3 F32.lit_1 F32.lit_100))).1 ≠ none :=
  ⟨⟨by decide, by decide, by decide⟩,
    (C30_CheckValueRange ⟨0x3FC00000⟩ F32.lit_0_01 F32.lit_2 "CrimeEffectMultiplier"
      (by decide) (by decide) (by decide)).1.mpr (by decide),
    ((C30_CheckValueRange ⟨0x3FC00000⟩ F32.lit_0_01 F32.lit_2 "CrimeEffectMultiplier"
      (by decide) (by decide) (by decide)).2.2.1 Settings.default
      (sampleTree ⟨0x3FC00000⟩ F32.lit_2 F32.zero) 750 F32.lit_0_05 F32.lit_0_03 F32.lit_0_01
      F32.lit_2 F32.zero rfl rfl rfl rfl rfl rfl rfl (by decide) (by decide)).mpr
      (by decide),
    (C30_CheckValueRange ⟨0x3FC00000⟩ F32.lit_0_01 F32.lit_2 "CrimeEffectMultiplier"
      (by decide) (by decide) (by decide)).2.2.2.1 Settings.default
      (sampleTree F32.lit_3 F32.lit_1 F32.lit_100) rfl⟩

/-! ## Theorems: loading the settings -/

theorem specLe_not_nan (a b : Fp) (h : specLe a b = true) : a ≠ Fp.nan ∧ b ≠ Fp.nan := by
  constructor
  · intro ha
    rw [ha] at h
    simp [specLe] at h
  · intro hb
    rw [hb] at h
    cases a with
    | nan => simp [specLe] at h
    | inf n => cases n <;> simp [specLe] at h
    | fin m e => simp [specLe] at h

theorem specInRange_not_nan (value min max : F32) (h : specInRange value min max = true) :
    value.toFp ≠ Fp.nan := by
  simp only [specInRange, Bool.and_eq_true] at h
  exact (specLe_not_nan _ _ h.1).2

theorem Load_in_range (self : Settings) (tree : ptree) (income : Int)
    (low med high crime cs school : F32)
    (h1 : tree.get_int64 "CityLotteryOrdinance.MonthlyConstantIncome" = some income)
    (h2 : tree.get_float "CityLotteryOrdinance.R$IncomeFactor" = some low)
    (h3 : tree.get_float "CityLotteryOrdinance.R$$IncomeFactor" = some med)
    (h4 : tree.get_float "CityLotteryOrdinance.R$$$IncomeFactor" = some high)
    (h5 : tree.get_float "CityLotteryOrdinance.CrimeEffectMultiplier" = some crime)
    (h6 : tree.get_float "CityLotteryOrdinance.Cs$DemandEffect" = some cs)
    (h7 : tree.get_float "CityLotteryOrdinance.SchoolEQBoostEffect" = some school)
    (hcrime : specInRange crime F32.lit_0_01 F32.lit_2 = true)
    (hcs : specInRange cs F32.lit_0_01 F32.lit_2 = true)
    (hschool : specInRange school F32.zero F32.lit_200 = true) :
    self.Load (SettingsFile.parsed tree)
      = (none,
          { monthlyConstantIncome := income
            residentialLowWealthFactor := low
            residentialMedWealthFactor := med
            residentialHighWealthFactor := high
            cityLotteryOrdinanceEffects :=
              { self.cityLotteryOrdinanceEffects with
                properties := specEffects crime cs school } }) := by
  simp only [Settings.Load, getThen, checkThen, h1, h2, h3, h4, h5, h6, h7,
    CheckValueRange_eq crime _ _ _ (specInRange_not_nan _ _ _ hcrime) bounds_not_nan.1
      bounds_not_nan.2.1,
    CheckValueRange_eq cs _ _ _ (specInRange_not_nan _ _ _ hcs) bounds_not_nan.1
      bounds_not_nan.2.1,
    CheckValueRange_eq school _ _ _ (specInRange_not_nan _ _ _ hschool) bounds_not_nan.2.2.1
      bounds_not_nan.2.2.2,
    hcrime, hcs, hschool, if_true, specEffects, OrdinancePropertyHolder.RemoveAllProperties,
    OrdinancePropertyHolder.AddProperty_float]
  by_cases c1 : F32.ne crime F32.lit_1 = true <;> by_cases c2 : F32.ne cs F32.lit_1 = true <;>
    by_cases c3 : F32.ne school F32.lit_100 = true <;> simp [c1, c2, c3]

/-- C31: on a settings file that has the seven keys with the three effects
within their bounds, `Settings::Load` succeeds and leaves in the effects
bag, whatever it held before, exactly: the crime record `0x28ed0380` with
the configured value if and only if `CrimeEffectMultiplier != 1.0`, the Cs$
demand record `0x2a653110` if and only if `Cs$DemandEffect != 1.0`, and the
school record `0xa92d9d7a` if and only if `SchoolEQBoostEffect != 100`, in
this order; with the three values neutral the bag is empty. -/
theorem C31_Load_effects (self : Settings) (tree : ptree) (income : Int)
    (low med high crime cs school : F32)
    (h1 : tree.get_int64 "CityLotteryOrdinance.MonthlyConstantIncome" = some income)
    (h2 : tree.get_float "CityLotteryOrdinance.R$IncomeFactor" = some low)
    (h3 : tree.get_float "CityLotteryOrdinance.R$$IncomeFactor" = some med)
    (h4 : tree.get_float "CityLotteryOrdinance.R$$$IncomeFactor" = some high)
    (h5 : tree.get_float "CityLotteryOrdinance.CrimeEffectMultiplier" = some crime)
    (h6 : tree.get_float "CityLotteryOrdinance.Cs$DemandEffect" = some cs)
    (h7 : tree.get_float "CityLotteryOrdinance.SchoolEQBoostEffect" = some school)
    (hcrime : specInRange crime F32.lit_0_01 F32.lit_2 = true)
    (hcs : specInRange cs F32.lit_0_01 F32.lit_2 = true)
    (hschool : specInRange school F32.zero F32.lit_200 = true) :
    (self.Load (SettingsFile.parsed tree)).1 = none
      ∧ (self.Load (SettingsFile.parsed tree)).2.cityLotteryOrdinanceEffects.properties
        = specEffects crime cs school
      ∧ (∀ record : cSCBaseProperty,
          record
              ∈ (self.Load (SettingsFile.parsed tree)).2.cityLotteryOrdinanceEffects.properties
            ↔ (record = ⟨0x28ed0380, cIGZVariant.Float32 crime⟩
                ∧ F32.ne crime F32.lit_1 = true)
              ∨ (record = ⟨0x2a653110, cIGZVariant.Float32 cs⟩ ∧ F32.ne cs F32.lit_1 = true)
              ∨ (record = ⟨0xa92d9d7a, cIGZVariant.Float32 school⟩
                ∧ F32.ne school F32.lit_100 = true))
      ∧ (F32.ne crime F32.lit_1 = false → F32.ne cs F32.lit_1 = false →
          F32.ne school F32.lit_100 = false →
          (self.Load (SettingsFile.parsed tree)).2.cityLotteryOrdinanceEffects.properties
            = []) := by
  rw [Load_in_range self tree income low med high crime cs school h1 h2 h3 h4 h5 h6 h7 hcrime
    hcs hschool]
  refine ⟨rfl, rfl, ?_, ?_⟩
  · intro record
    simp only [specEffects]
    by_cases c1 : F32.ne crime F32.lit_1 = true <;>
      by_cases c2 : F32.ne cs F32.lit_1 = true <;>
      by_cases c3 : F32.ne school F32.lit_100 = true <;> simp [c1, c2, c3]
  · intro c1 c2 c3
    simp [specEffects, c1, c2, c3]

/-- Witness of C31: a file with the crime multiplier `2.0`, the Cs$ effect
neutral and the school boost `0`, loaded into settings whose bag held a
record. -/
theorem C31_Load_effects_witness :
    (specInRange F32.lit_2 F32.lit_0_01 F32.lit_2 = true
        ∧ specInRange F32.lit_1 F32.lit_0_01 F32.lit_2 = true
        ∧ specInRange F32.zero F32.zero F32.lit_200 = true)
      ∧ (sampleSettings.Load
          (SettingsFile.parsed (sampleTree F32.lit_2 F32.lit_1 F32.zero))).1 = none
      ∧ (sampleSettings.Load
          (SettingsFile.parsed
            (sampleTree F32.lit_2 F32.lit_1 F32.zero))).2.cityLotteryOrdinanceEffects.properties
        = [⟨0x28ed0380, cIGZVariant.Float32 F32.lit_2⟩,
          ⟨0xa92d9d7a, cIGZVariant.Float32 F32.zero⟩] :=
  ⟨by decide,
    (C31_Load_effects sampleSettings (sampleTree F32.lit_2 F32.lit_1 F32.zero) 750
      F32.lit_0_05 F32.lit_0_03 F32.lit_0_01 F32.lit_2 F32.lit_1 F32.zero rfl rfl rfl rfl rfl
      rfl rfl (by decide) (by decide) (by decide)).1,
    (C31_Load_effects sampleSettings (sampleTree F32.lit_2 F32.lit_1 F32.zero) 750
      F32.lit_0_05 F32.lit_0_03 F32.lit_0_01 F32.lit_2 F32.lit_1 F32.zero rfl rfl rfl rfl rfl
      rfl rfl (by decide) (by decide) (by decide)).2.1.trans (by decide)⟩

/-! ## Theorems: construction, settings and setters of the ordinance -/

/-- The literals of the constructors: `0.01f`, `1.01f` and `1.10f` lie within
half a unit in the last place of `1 / 100`, `101 / 100` and `11 / 10`, and
`102.0f` is `102`. -/
theorem constructor_literal_values :
    (F32.lit_0_01.toFp = Fp.fin 10737418 (-30)
        ∧ |(10737418 : Int) * 100 - 2 ^ 30| * 2 < 100)
      ∧ (F32.lit_1_01.toFp = Fp.fin 8472494 (-23)
        ∧ |(8472494 : Int) * 100 - 101 * 2 ^ 23| * 2 < 100)
      ∧ (F32.lit_1_10.toFp = Fp.fin 9227469 (-23)
        ∧ |(9227469 : Int) * 10 - 11 * 2 ^ 23| * 2 < 10)
      ∧ F32.lit_102.toFp = Fp.fin (102 * 2 ^ 17) (-17) := by
  decide

/-- C32: a freshly constructed `CityLotteryOrdinance` has the constant income
`500`, the factors `0.05f`, `0.03f` and `0.01f`, enactment and retraction
income `0`, `isIncomeOrdinance` true, the five flags false, adjusted income
`0`, no simulator, and a bag of exactly the three `float` records school
`0xA92D9D7A = 102.0f`, Cs$ demand `0x2a653110 = 1.01f` and crime
`0x28ED0380 = 1.10f`; a fresh `Settings` object has the same constant
income and factors. -/
theorem C32_fresh_lottery :
    (CityLotteryOrdinance.construct.monthlyConstantIncome = 500
        ∧ CityLotteryOrdinance.construct.residentialLowWealthIncomeFactor = F32.lit_0_05
        ∧ CityLotteryOrdinance.construct.residentialMedWealthIncomeFactor = F32.lit_0_03
        ∧ CityLotteryOrdinance.construct.residentialHighWealthIncomeFactor = F32.lit_0_01)
      ∧ (CityLotteryOrdinance.construct.enactmentIncome = 0
        ∧ CityLotteryOrdinance.construct.retracmentIncome = 0
        ∧ CityLotteryOrdinance.construct.isIncomeOrdinance = true
        ∧ CityLotteryOrdinance.construct.monthlyAdjustedIncome = 0)
      ∧ (CityLotteryOrdinance.construct.initialized = false
        ∧ CityLotteryOrdinance.construct.available = false
        ∧ CityLotteryOrdinance.construct.on_ = false
        ∧ CityLotteryOrdinance.construct.enabled = false
        ∧ CityLotteryOrdinance.construct.haveDeserialized = false)
      ∧ (CityLotteryOrdinance.construct.pResidentialSimulator.isSome = false
        ∧ CityLotteryOrdinance.construct.pSimulator.isSome = false
        ∧ CityLotteryOrdinance.construct.pDemandSimulator.isSome = false)
      ∧ CityLotteryOrdinance.construct.miscProperties.properties
        = [⟨0xA92D9D7A, cIGZVariant.Float32 F32.lit_102⟩,
          ⟨0x2a653110, cIGZVariant.Float32 F32.lit_1_01⟩,
          ⟨0x28ED0380, cIGZVariant.Float32 F32.lit_1_10⟩]
      ∧ (Settings.default.monthlyConstantIncome
          = CityLotteryOrdinance.construct.monthlyConstantIncome
        ∧ Settings.default.residentialLowWealthFactor
          = CityLotteryOrdinance.construct.residentialLowWealthIncomeFactor
        ∧ Settings.default.residentialMedWealthFactor
          = CityLotteryOrdinance.construct.residentialMedWealthIncomeFactor
        ∧ Settings.default.residentialHighWealthFactor
          = CityLotteryOrdinance.construct.residentialHighWealthIncomeFactor)
      ∧ (F32.lit_102.toFp = Fp.fin (102 * 2 ^ 17) (-17)
        ∧ F32.lit_1_01.toFp = Fp.fin 8472494 (-23)
        ∧ F32.lit_1_10.toFp = Fp.fin 9227469 (-23)
        ∧ F32.lit_0_01.toFp = Fp.fin 10737418 (-30)) :=
  ⟨⟨rfl, rfl, rfl, rfl⟩, ⟨rfl, rfl, rfl, rfl⟩, ⟨rfl, rfl, rfl, rfl, rfl⟩, ⟨rfl, rfl, rfl⟩,
    rfl, ⟨rfl, rfl, rfl, rfl⟩, by decide⟩

/-- C33: for every state and every settings object, `UpdateOrdinanceData`
leaves `monthlyConstantIncome`, the three factors and the records of the
effects bag equal to what the getters of the settings return, and every
other member as it was; through a `Settings` object the records are those
of its bag. -/
theorem C33_UpdateOrdinanceData (self : CityLotteryOrdinance) (settings : ISettings)
    (loaded : Settings) :
    self.UpdateOrdinanceData settings
        = { self with
            monthlyConstantIncome := settings.MonthlyConstantIncome
            residentialLowWealthIncomeFactor := settings.ResidentialLowWealthFactor
            residentialMedWealthIncomeFactor := settings.ResidentialMedWealthFactor
            residentialHighWealthIncomeFactor := settings.ResidentialHighWealthFactor
            miscProperties :=
              { self.miscProperties with properties := settings.OrdinanceEffects.properties } }
      ∧ (self.UpdateOrdinanceData loaded.toISettings).miscProperties.properties
        = loaded.cityLotteryOrdinanceEffects.properties
      ∧ (self.UpdateOrdinanceData loaded.toISettings).monthlyConstantIncome
        = loaded.monthlyConstantIncome
      ∧ (self.UpdateOrdinanceData loaded.toISettings).residentialLowWealthIncomeFactor
        = loaded.residentialLowWealthFactor
      ∧ (self.UpdateOrdinanceData loaded.toISettings).residentialMedWealthIncomeFactor
        = loaded.residentialMedWealthFactor
      ∧ (self.UpdateOrdinanceData loaded.toISettings).residentialHighWealthIncomeFactor
        = loaded.residentialHighWealthFactor :=
  ⟨rfl, rfl, rfl, rfl, rfl, rfl⟩

/-- C34: `SetAvailable`, `SetOn` and `SetEnabled` each return true, assign their
own flag and leave the other two flags, `initialized` and `haveDeserialized`
as they were; `SetEnabled` changes no other member at all, so
`monthlyAdjustedIncome` stays; `ForceAvailable`, `ForceOn` and `ForceEnabled`
do exactly what the corresponding `Set` function does. -/
theorem C34_raw_setters (self : OrdinanceBase) (b : Bool) :
    ((self.SetAvailable b).1 = true ∧ (self.SetAvailable b).2.available = b
        ∧ (self.SetAvailable b).2.on_ = self.on_
        ∧ (self.SetAvailable b).2.enabled = self.enabled
        ∧ (self.SetAvailable b).2.initialized = self.initialized
        ∧ (self.SetAvailable b).2.haveDeserialized = self.haveDeserialized)
      ∧ ((self.SetOn b).1 = true ∧ (self.SetOn b).2.on_ = b
        ∧ (self.SetOn b).2.available = self.available
        ∧ (self.SetOn b).2.enabled = self.enabled
        ∧ (self.SetOn b).2.initialized = self.initialized
        ∧ (self.SetOn b).2.haveDeserialized = self.haveDeserialized)
      ∧ (self.SetEnabled b = (true, { self with enabled := b })
        ∧ (self.SetEnabled b).2.monthlyAdjustedIncome = self.monthlyAdjustedIncome)
      ∧ self.ForceAvailable b = self.SetAvailable b
      ∧ self.ForceOn b = self.SetOn b
      ∧ self.ForceEnabled b = self.SetEnabled b := by
  refine ⟨⟨rfl, rfl, rfl, rfl, rfl, rfl⟩, ?_, ⟨rfl, rfl⟩, rfl, rfl, rfl⟩
  cases b <;> exact ⟨rfl, rfl, rfl, rfl, rfl, rfl⟩

theorem CheckValueRange_error (value min max : F32) (name : String) (e : SettingsError)
    (h : CheckValueRange value min max name = Except.error e) :
    e = SettingsError.runtime_error_format "%s is less than %f." name min := by
  unfold CheckValueRange at h
  split at h
  · exact (Except.error.inj h).symm
  · split at h
    · exact (Except.error.inj h).symm
    · cases h

/-- C35 fails on the code: the value `3.0f`, which is above the maximum `2.0f` and
not below the minimum `0.01f`, is rejected with the format `"%s is less
than %f."` printed with the name and the minimum, the very exception that
the value `0.0f`, below the minimum, is rejected with. -/
theorem C35_maximum_rejected_with_minimum_message :
    (F32.lt F32.lit_3 F32.lit_0_01 = false ∧ F32.gt F32.lit_3 F32.lit_2 = true
        ∧ F32.lt F32.zero F32.lit_0_01 = true)
      ∧ CheckValueRange F32.lit_3 F32.lit_0_01 F32.lit_2 "CrimeEffectMultiplier"
        = Except.error
            (SettingsError.runtime_error_format "%s is less than %f." "CrimeEffectMultiplier"
              F32.lit_0_01)
      ∧ CheckValueRange F32.lit_3 F32.lit_0_01 F32.lit_2 "CrimeEffectMultiplier"
        = CheckValueRange F32.zero F32.lit_0_01 F32.lit_2 "CrimeEffectMultiplier" :=
  ⟨by decide, rfl, rfl⟩

theorem ForceMonthlyAdjustedIncome_eq (self : OrdinanceBase) (v : Int) :
    self.ForceMonthlyAdjustedIncome v = (true, self) := rfl

/-- C36 fails on the code: on the sample ordinance, whose adjusted income is
`1150`, `ForceMonthlyAdjustedIncome(7)` returns true and leaves the adjusted
income `1150`, which `GetMonthlyAdjustedIncome()` then returns. -/
theorem C36_ForceMonthlyAdjustedIncome_keeps_old_value :
    sampleBase.monthlyAdjustedIncome = 1150
      ∧ (sampleBase.ForceMonthlyAdjustedIncome 7).1 = true
      ∧ (sampleBase.ForceMonthlyAdjustedIncome 7).2.monthlyAdjustedIncome = 1150
      ∧ (sampleBase.ForceMonthlyAdjustedIncome 7).2.GetMonthlyAdjustedIncome = 1150
      ∧ (sampleBase.ForceMonthlyAdjustedIncome 7).2.GetMonthlyAdjustedIncome ≠ 7 :=
  ⟨rfl, rfl, rfl, rfl, by decide⟩

theorem operator_assign_eq (self other : OrdinanceBase) :
    self.operator_assign other false
      = { other with
          name := self.name
          refCount := 0
          miscProperties :=
            { self.miscProperties with properties := other.miscProperties.properties } } :=
  rfl

/-- C37 fails on the code: after the copy assignment of the sample ordinance to
another ordinance, the name of the target is still its own name `"x"`;
the description and the other data members are those of the source.  The
copy constructor does take the name of its source. -/
theorem C37_copy_assignment_keeps_name :
    sampleTarget.name = "x" ∧ sampleBase.name = "City-wide Lottery Program"
      ∧ (sampleTarget.operator_assign sampleBase false).name = "x"
      ∧ (sampleTarget.operator_assign sampleBase false).name ≠ sampleBase.name
      ∧ (sampleTarget.operator_assign sampleBase false).description = sampleBase.description
      ∧ (sampleTarget.operator_assign sampleBase false).clsid = sampleBase.clsid
      ∧ (sampleTarget.operator_assign sampleBase false).miscProperties.properties
        = sampleBase.miscProperties.properties
      ∧ (OrdinanceBase.copy sampleBase).name = sampleBase.name :=
  ⟨rfl, rfl, rfl, by decide, rfl, rfl, rfl, rfl⟩

/-! ## Theorems: the flag haveDeserialized -/

theorem base_Simulate_haveDeserialized (self : OrdinanceBase) (r : Bool × OrdinanceBase)
    (h : self.Simulate = some r) :
    r.2.haveDeserialized = self.haveDeserialized ∧ r.2.enabled = self.enabled := by
  unfold OrdinanceBase.Simulate at h
  cases hi : self.GetCurrentMonthlyIncome with
  | none => simp [hi] at h
  | some income =>
      simp only [hi, Option.some.injEq] at h
      subst h
      exact ⟨rfl, rfl⟩

theorem lottery_Simulate_haveDeserialized (self : CityLotteryOrdinance)
    (r : Bool × CityLotteryOrdinance) (h : self.Simulate = some r) :
    r.2.haveDeserialized = self.haveDeserialized ∧ r.2.enabled = self.enabled := by
  unfold CityLotteryOrdinance.Simulate at h
  cases hi : self.GetCurrentMonthlyIncome with
  | none => simp [hi] at h
  | some income =>
      simp only [hi, Option.some.injEq] at h
      subst h
      exact ⟨rfl, rfl⟩

theorem base_call_haveDeserialized (self r : OrdinanceBase) (c : Call)
    (h : self.call c = some r) : r.haveDeserialized = self.haveDeserialized := by
  cases c with
  | PostCityInit resources pCity =>
      simp only [OrdinanceBase.call, Option.some.injEq] at h
      subst h
      exact (base_PostCityInit_flags self resources pCity).2.2.2.1
  | PreCityShutdown pCity =>
      simp only [OrdinanceBase.call, Option.some.injEq] at h
      subst h
      rfl
  | Simulate =>
      simp only [OrdinanceBase.call, Option.map_eq_some'] at h
      obtain ⟨result, hres, hr⟩ := h
      subst hr
      exact (base_Simulate_haveDeserialized self result hres).1
  | SetAvailable b =>
      simp only [OrdinanceBase.call, Option.some.injEq] at h
      subst h
      rfl
  | SetOn b =>
      simp only [OrdinanceBase.call, Option.some.injEq] at h
      subst h
      cases b <;> rfl
  | SetEnabled b =>
      simp only [OrdinanceBase.call, Option.some.injEq] at h
      subst h
      rfl
  | ForceAvailable b =>
      simp only [OrdinanceBase.call, Option.some.injEq] at h
      subst h
      rfl
  | ForceOn b =>
      simp only [OrdinanceBase.call, Option.some.injEq] at h
      subst h
      cases b <;> rfl
  | ForceEnabled b =>
      simp only [OrdinanceBase.call, Option.some.injEq] at h
      subst h
      rfl
  | ForceMonthlyAdjustedIncome v =>
      simp only [OrdinanceBase.call, Option.some.injEq] at h
      subst h
      rfl
  | Write stream =>
      simp only [OrdinanceBase.call, Option.some.injEq] at h
      subst h
      rw [base_Write_self]

theorem base_calls_haveDeserialized (cs : List Call) :
    ∀ self r : OrdinanceBase, self.calls cs = some r →
      r.haveDeserialized = self.haveDeserialized := by
  induction cs with
  | nil =>
      intro self r h
      simp only [OrdinanceBase.calls, Option.some.injEq] at h
      subst h
      rfl
  | cons c rest ih =>
      intro self r h
      simp only [OrdinanceBase.calls] at h
      cases hc : self.call c with
      | none => simp [hc] at h
      | some next =>
          simp only [hc] at h
          rw [ih next r h, base_call_haveDeserialized self next c hc]

theorem lottery_PostCityInit_haveDeserialized (self : CityLotteryOrdinance)
    (resources : StringResourceManager) (pCity : Option cISC4City)
    (r : Bool × CityLotteryOrdinance) (h : self.PostCityInit resources pCity = some r) :
    r.2.haveDeserialized = self.haveDeserialized
      ∧ (self.haveDeserialized = true → r.2.enabled = self.enabled) := by
  have hfl := base_PostCityInit_flags self.toOrdinanceBase resources pCity
  cases pCity with
  | none =>
      rw [lottery_PostCityInit_null] at h
      cases h
      exact ⟨rfl, fun _ => rfl⟩
  | some city =>
      rw [lottery_PostCityInit_city] at h
      cases h
      split
      · exact ⟨hfl.2.2.2.1, hfl.2.2.2.2.1⟩
      · exact ⟨hfl.2.2.2.1, hfl.2.2.2.2.1⟩

theorem lottery_call_haveDeserialized (self r : CityLotteryOrdinance) (c : Call)
    (h : self.call c = some r) : r.haveDeserialized = self.haveDeserialized := by
  cases c with
  | PostCityInit resources pCity =>
      simp only [CityLotteryOrdinance.call, Option.map_eq_some'] at h
      obtain ⟨result, hres, hr⟩ := h
      subst hr
      exact (lottery_PostCityInit_haveDeserialized self resources pCity result hres).1
  | PreCityShutdown pCity =>
      simp only [CityLotteryOrdinance.call, Option.some.injEq] at h
      subst h
      rfl
  | Simulate =>
      simp only [CityLotteryOrdinance.call, Option.map_eq_some'] at h
      obtain ⟨result, hres, hr⟩ := h
      subst hr
      exact (lottery_Simulate_haveDeserialized self result hres).1
  | Write stream =>
      simp only [CityLotteryOrdinance.call, Option.some.injEq] at h
      subst h
      rw [lottery_Write_self]
  | SetAvailable b =>
      simp only [CityLotteryOrdinance.call, Option.map_eq_some'] at h
      obtain ⟨base, hbase, hr⟩ := h
      subst hr
      exact base_call_haveDeserialized self.toOrdinanceBase base _ hbase
  | SetOn b =>
      simp only [CityLotteryOrdinance.call, Option.map_eq_some'] at h
      obtain ⟨base, hbase, hr⟩ := h
      subst hr
      exact base_call_haveDeserialized self.toOrdinanceBase base _ hbase
  | SetEnabled b =>
      simp only [CityLotteryOrdinance.call, Option.map_eq_some'] at h
      obtain ⟨base, hbase, hr⟩ := h
      subst hr
      exact base_call_haveDeserialized self.toOrdinanceBase base _ hbase
  | ForceAvailable b =>
      simp only [CityLotteryOrdinance.call, Option.map_eq_some'] at h
      obtain ⟨base, hbase, hr⟩ := h
      subst hr
      exact base_call_haveDeserialized self.toOrdinanceBase base _ hbase
  | ForceOn b =>
      simp only [CityLotteryOrdinance.call, Option.map_eq_some'] at h
      obtain ⟨base, hbase, hr⟩ := h
      subst hr
      exact base_call_haveDeserialized self.toOrdinanceBase base _ hbase
  | ForceEnabled b =>
      simp only [CityLotteryOrdinance.call, Option.map_eq_some'] at h
      obtain ⟨base, hbase, hr⟩ := h
      subst hr
      exact base_call_haveDeserialized self.toOrdinanceBase base _ hbase
  | ForceMonthlyAdjustedIncome v =>
      simp only [CityLotteryOrdinance.call, Option.map_eq_some'] at h
      obtain ⟨base, hbase, hr⟩ := h
      subst hr
      exact base_call_haveDeserialized self.toOrdinanceBase base _ hbase

theorem lottery_calls_haveDeserialized (cs : List Call) :
    ∀ self r : CityLotteryOrdinance, self.calls cs = some r →
      r.haveDeserialized = self.haveDeserialized := by
  induction cs with
  | nil =>
      intro self r h
      simp only [CityLotteryOrdinance.calls, Option.some.injEq] at h
      subst h
      rfl
  | cons c rest ih =>
      intro self r h
      simp only [CityLotteryOrdinance.calls] at h
      cases hc : self.call c with
      | none => simp [hc] at h
      | some next =>
          simp only [hc] at h
          rw [ih next r h, lottery_call_haveDeserialized self next c hc]

/-- C38: after a successful `Read`, `haveDeserialized` is true after every
sequence of calls of `PostCityInit`, `PreCityShutdown`, `Simulate`, the
`Set` and `Force` functions and `Write` (each call leaves the flag as it
finds it), for the generic ordinance and for the lottery; and then a
`PreCityShutdown` followed by a `PostCityInit`, successful or not, leaves
`enabled` false. -/
theorem C38_haveDeserialized_stays (base : OrdinanceBase) (lottery : CityLotteryOrdinance)
    (stream lotteryStream : cIGZIStream)
    (hbase : (base.Read stream).1 = true)
    (hlottery : (lottery.Read lotteryStream).1 = true) :
    (∀ (cs : List Call) (r : OrdinanceBase),
        (base.Read stream).2.1.calls cs = some r → r.haveDeserialized = true)
      ∧ (∀ (cs : List Call) (r : CityLotteryOrdinance),
        (lottery.Read lotteryStream).2.1.calls cs = some r → r.haveDeserialized = true)
      ∧ (∀ (first : List Call) (r : OrdinanceBase) (resources : StringResourceManager)
          (pCity pCity1 : Option cISC4City),
          (base.Read stream).2.1.calls first = some r →
          ((r.PreCityShutdown pCity).2.PostCityInit resources pCity1).2.enabled = false)
      ∧ ∀ (first : List Call) (r : CityLotteryOrdinance) (resources : StringResourceManager)
          (pCity pCity1 : Option cISC4City) (result : Bool × CityLotteryOrdinance),
          (lottery.Read lotteryStream).2.1.calls first = some r →
          (r.PreCityShutdown pCity).2.PostCityInit resources pCity1 = some result →
          result.2.enabled = false := by
  have hdb := (base_Read_frame base stream).1 hbase
  have hdl := (lottery_Read_frame lottery lotteryStream).2.1 hlottery
  refine ⟨?_, ?_, ?_, ?_⟩
  · intro cs r h
    rw [base_calls_haveDeserialized cs _ r h, hdb]
  · intro cs r h
    rw [lottery_calls_haveDeserialized cs _ r h, hdl]
  · intro first r resources pCity pCity1 h
    have hr : r.haveDeserialized = true := by
      rw [base_calls_haveDeserialized first _ r h, hdb]
    exact (base_PostCityInit_flags (r.PreCityShutdown pCity).2 resources pCity1).2.2.2.2.1 hr
  · intro first r resources pCity pCity1 result h hpost
    have hr : r.haveDeserialized = true := by
      rw [lottery_calls_haveDeserialized first _ r h, hdl]
    exact (lottery_PostCityInit_haveDeserialized (r.PreCityShutdown pCity).2 resources pCity1
      result hpost).2 hr

/-- Witness of C38: the record of the sample ordinance and the record of the
sample lottery are read; after `PostCityInit`, `SetEnabled(true)`,
`Simulate` and `PreCityShutdown` the flag is still true, and a
`PreCityShutdown` followed by a `PostCityInit` on the sample city, which
succeeds, leaves `enabled` false. -/
theorem C38_haveDeserialized_stays_witness :
    ((sampleTarget.Read ⟨0, sampleBase.fields⟩).1 = true
        ∧ (sampleLotteryTarget.Read ⟨0, sampleLottery.fields⟩).1 = true)
      ∧ (((sampleTarget.Read ⟨0, sampleBase.fields⟩).2.1.calls
            [Call.PostCityInit sampleResources (some sampleCity), Call.SetEnabled true,
              Call.Simulate, Call.PreCityShutdown none]).isSome = true
        ∧ ∀ r,
          (sampleTarget.Read ⟨0, sampleBase.fields⟩).2.1.calls
              [Call.PostCityInit sampleResources (some sampleCity), Call.SetEnabled true,
                Call.Simulate, Call.PreCityShutdown none] = some r →
            r.haveDeserialized = true)
      ∧ ((((sampleTarget.Read ⟨0, sampleBase.fields⟩).2.1.PreCityShutdown none).2.PostCityInit
            sampleResources (some sampleCity)).1 = true
        ∧ (((sampleTarget.Read ⟨0, sampleBase.fields⟩).2.1.PreCityShutdown none).2.PostCityInit
            sampleResources (some sampleCity)).2.enabled = false) :=
  ⟨⟨by decide, by decide⟩,
    ⟨by decide,
      (C38_haveDeserialized_stays sampleTarget sampleLotteryTarget ⟨0, sampleBase.fields⟩
        ⟨0, sampleLottery.fields⟩ (by decide) (by decide)).1 _⟩,
    by decide,
    (C38_haveDeserialized_stays sampleTarget sampleLotteryTarget ⟨0, sampleBase.fields⟩
      ⟨0, sampleLottery.fields⟩ (by decide) (by decide)).2.2.1 [] _ sampleResources none
      (some sampleCity) rfl⟩

/-- C39: when `OrdinanceBase::Read` or `CityLotteryOrdinance::Read` returns false,
for whatever reason, `haveDeserialized` has the value it had before the
call; when it returns true, `haveDeserialized` is true. -/
theorem C39_Read_failure_keeps_haveDeserialized (base : OrdinanceBase)
    (lottery : CityLotteryOrdinance) (stream : cIGZIStream) :
    ((base.Read stream).1 = false →
        (base.Read stream).2.1.haveDeserialized = base.haveDeserialized)
      ∧ ((base.Read stream).1 = true → (base.Read stream).2.1.haveDeserialized = true)
      ∧ ((lottery.Read stream).1 = false →
        (lottery.Read stream).2.1.haveDeserialized = lottery.haveDeserialized)
      ∧ ((lottery.Read stream).1 = true →
        (lottery.Read stream).2.1.haveDeserialized = true) :=
  ⟨(base_Read_frame base stream).2, (base_Read_frame base stream).1,
    (lottery_Read_frame lottery stream).2.2, (lottery_Read_frame lottery stream).2.1⟩

/-- Instances of C39: a stream that ends inside the bag, after twelve fields of
the record of the sample ordinance: the read fails with the class id
already stored, and `haveDeserialized` is still false; the same for the
lottery on a stream of bad version. -/
theorem C39_Read_failure_keeps_haveDeserialized_witness :
    ((sampleTarget.Read ⟨0, sampleBase.fields.take 12⟩).1 = false
        ∧ (sampleTarget.Read ⟨0, sampleBase.fields.take 12⟩).2.1.clsid = sampleBase.clsid
        ∧ sampleTarget.clsid ≠ sampleBase.clsid)
      ∧ (sampleTarget.Read ⟨0, sampleBase.fields.take 12⟩).2.1.haveDeserialized = false
      ∧ (sampleLotteryTarget.Read sampleBadVersionStream).2.1.haveDeserialized = false :=
  ⟨⟨by decide, by decide, by decide⟩,
    (C39_Read_failure_keeps_haveDeserialized sampleTarget sampleLotteryTarget
      ⟨0, sampleBase.fields.take 12⟩).1 (by decide),
    (C39_Read_failure_keeps_haveDeserialized sampleTarget sampleLotteryTarget
      sampleBadVersionStream).2.2.1 (by decide)⟩

/-! ## Theorems: a load that fails -/

/-- C40 as stated fails: on a file whose `CrimeEffectMultiplier` is `3.0`,
`Load` throws with the constant income of the file (`750`) already stored
in place of the `500` of the fresh object; on a file that has no key of an
effect, it throws with the three factors of the file already stored. -/
theorem C40_counterexample :
    ((Settings.default.Load
          (SettingsFile.parsed (sampleTree F32.lit_3 F32.lit_1 F32.lit_100))).1 ≠ none
        ∧ Settings.default.monthlyConstantIncome = 500
        ∧ (Settings.default.Load
            (SettingsFile.parsed
              (sampleTree F32.lit_3 F32.lit_1 F32.lit_100))).2.monthlyConstantIncome = 750)
      ∧ (Settings.default.Load (SettingsFile.parsed sampleTreeNoEffects)).1
          = some (SettingsError.ptree_error "CityLotteryOrdinance.CrimeEffectMultiplier")
      ∧ Settings.default.residentialLowWealthFactor = F32.lit_0_05
      ∧ (Settings.default.Load
          (SettingsFile.parsed sampleTreeNoEffects)).2.residentialLowWealthFactor
        = F32.lit_1 :=
  ⟨⟨by decide, rfl, rfl⟩, rfl, rfl, rfl⟩

/-- C40, amended: when `Settings::Load` fails, the effects bag keeps the value it
had.  The object as a whole is unchanged when the file cannot be opened
or parsed, or has no `MonthlyConstantIncome`.  Otherwise the constant
income and the three factors are assigned in this order as their keys are
read, before the later lookups and the range checks: each of them holds
the value of the file if its key and the keys before it were read, and its
old value if not. -/
theorem C40_Load_failure (self : Settings) (file : SettingsFile)
    (hfail : (self.Load file).1 ≠ none) :
    (self.Load file).2.cityLotteryOrdinanceEffects = self.cityLotteryOrdinanceEffects
      ∧ (file = SettingsFile.unreadable → (self.Load file).2 = self)
      ∧ (file = SettingsFile.malformed → (self.Load file).2 = self)
      ∧ ∀ tree, file = SettingsFile.parsed tree →
          (tree.get_int64 "CityLotteryOrdinance.MonthlyConstantIncome" = none →
              (self.Load file).2 = self)
            ∧ (∀ income,
              tree.get_int64 "CityLotteryOrdinance.MonthlyConstantIncome" = some income →
              (self.Load file).2.monthlyConstantIncome = income
                ∧ (self.Load file).2.residentialLowWealthFactor
                  = (tree.get_float "CityLotteryOrdinance.R$IncomeFactor").getD
                      self.residentialLowWealthFactor
                ∧ (tree.get_float "CityLotteryOrdinance.R$IncomeFactor" = none →
                  (self.Load file).2.residentialMedWealthFactor
                      = self.residentialMedWealthFactor
                    ∧ (self.Load file).2.residentialHighWealthFactor
                      = self.residentialHighWealthFactor)
                ∧ ∀ low, tree.get_float "CityLotteryOrdinance.R$IncomeFactor" = some low →
                    (self.Load file).2.residentialMedWealthFactor
                        = (tree.get_float "CityLotteryOrdinance.R$$IncomeFactor").getD
                            self.residentialMedWealthFactor
                      ∧ (tree.get_float "CityLotteryOrdinance.R$$IncomeFactor" = none →
                        (self.Load file).2.residentialHighWealthFactor
                          = self.residentialHighWealthFactor)
                      ∧ ∀ med,
                          tree.get_float "CityLotteryOrdinance.R$$IncomeFactor" = some med →
                          (self.Load file).2.residentialHighWealthFactor
                            = (tree.get_float "CityLotteryOrdinance.R$$$IncomeFactor").getD
                                self.residentialHighWealthFactor) := by
  cases file with
  | unreadable => exact ⟨rfl, fun _ => rfl, fun _ => rfl, fun tree h => by cases h⟩
  | malformed => exact ⟨rfl, fun _ => rfl, fun _ => rfl, fun tree h => by cases h⟩
  | parsed tree =>
      refine ⟨?_, fun h => (by cases h), fun h => (by cases h), ?_⟩
      · revert hfail
        simp only [Settings.Load, getThen, checkThen]
        repeat' split
        all_goals simp
      · intro tree1 htree
        cases htree
        refine ⟨?_, ?_⟩
        · intro h1
          simp only [Settings.Load, getThen, h1]
        · intro income h1
          revert hfail
          simp only [Settings.Load, getThen, checkThen, h1]
          cases h2 : tree.get_float "CityLotteryOrdinance.R$IncomeFactor" with
          | none => simp
          | some low =>
              cases h3 : tree.get_float "CityLotteryOrdinance.R$$IncomeFactor" with
              | none => simp
              | some med =>
                  cases h4 : tree.get_float "CityLotteryOrdinance.R$$$IncomeFactor" with
                  | none => simp
                  | some high =>
                      simp only [Option.getD_some]
                      repeat' split
                      all_goals simp

/-- Witness of C40, amended: the fresh settings on the file whose
`CrimeEffectMultiplier` is `3.0`: the bag is unchanged and the constant
income is the one of the file. -/
theorem C40_Load_failure_witness :
    (Settings.default.Load
          (SettingsFile.parsed (sampleTree F32.lit_3 F32.lit_1 F32.lit_100))).1 ≠ none
      ∧ (Settings.default.Load
          (SettingsFile.parsed
            (sampleTree F32.lit_3 F32.lit_1 F32.lit_100))).2.cityLotteryOrdinanceEffects
        = Settings.default.cityLotteryOrdinanceEffects
      ∧ (Settings.default.Load
          (SettingsFile.parsed
            (sampleTree F32.lit_3 F32.lit_1 F32.lit_100))).2.monthlyConstantIncome = 750 :=
  ⟨by decide,
    (C40_Load_failure Settings.default
      (SettingsFile.parsed (sampleTree F32.lit_3 F32.lit_1 F32.lit_100)) (by decide)).1,
    ((C40_Load_failure Settings.default
      (SettingsFile.parsed (sampleTree F32.lit_3 F32.lit_1 F32.lit_100))
      (by decide)).2.2.2 _ rfl).2 750 rfl |>.1⟩

end Lottery
